import Mathlib

/-!
# WinNativeEventFilter

A shallow embedding of `src/winnativeeventfilter.cpp`, the Win32 native event
filter that makes a Qt window frameless, and theorems about it.

Conventions of the embedding

* `int`, `LONG`, `UINT` values are mathematical integers (`Int`, `Nat`); the
  arithmetic of the source is taken in the range where it does not overflow.
* A `qreal` is a binary64 `double`; a value is the rational number (`ℚ`) the
  double denotes. The quotient and the products that the source computes in
  `qreal` are rounded to binary64 (`fdiv`, `fmul`: round to nearest, ties to
  even, 53 significant bits); comparisons, `std::round`, `std::floor` and
  `std::ceil` of a `qreal` are exact. `std::round` rounds to the nearest
  integer, halves away from zero.
* A window handle is a number, `0` being `nullptr`.
* What the operating system and Qt answer is read from a `System` record; the
  per-window user data (`GWLP_USERDATA`) is an explicit store that is passed
  through the functions that may create it.
* The memory `lParam` points to is a `Pointee` record that the handler returns
  updated.
-/

namespace WinNativeEventFilter

/-! ## Win32 and Qt value types -/

/-- Window handle; `0` is the null handle. -/
abbrev HWND := Nat

/-- Monitor handle; `0` is the null handle. -/
abbrev HMONITOR := Nat

/-- Qt's `qreal`, a binary64 `double`: the rational number the `double` denotes. -/
abbrev qreal := ℚ

/-- Win32 `POINT`. -/
structure POINT where
  x : Int
  y : Int
deriving DecidableEq, Repr

/-- Win32 `RECT`. -/
structure RECT where
  left : Int
  top : Int
  right : Int
  bottom : Int
deriving DecidableEq, Repr

/-- Win32 `EqualRect`. -/
def EqualRect (a b : RECT) : Bool :=
  a.left == b.left && a.top == b.top && a.right == b.right && a.bottom == b.bottom

/-- Win32 `MONITORINFO` (the two rectangles the filter reads). -/
structure MONITORINFO where
  rcMonitor : RECT
  rcWork : RECT
deriving DecidableEq, Repr

/-- Win32 `MINMAXINFO`. -/
structure MINMAXINFO where
  ptReserved : POINT
  ptMaxSize : POINT
  ptMaxPosition : POINT
  ptMinTrackSize : POINT
  ptMaxTrackSize : POINT
deriving DecidableEq, Repr

/-- Win32 `NCCALCSIZE_PARAMS` (the three rectangles). -/
structure NCCALCSIZE_PARAMS where
  rgrc0 : RECT
  rgrc1 : RECT
  rgrc2 : RECT
deriving DecidableEq, Repr

/-- Win32 `MSG` (the fields the filter reads). -/
structure MSG where
  hwnd : HWND
  message : Nat
  wParam : Nat
  lParam : Int
deriving DecidableEq, Repr

/-- The memory `lParam` addresses, by the type the handler casts it to:
`params` for `WM_NCCALCSIZE` with `wParam` TRUE, `rect` for `WM_NCCALCSIZE`
with `wParam` FALSE, `mmi` for `WM_GETMINMAXINFO`. -/
structure Pointee where
  params : NCCALCSIZE_PARAMS
  rect : RECT
  mmi : MINMAXINFO
deriving DecidableEq, Repr

/-- Qt's `QSize`. -/
structure QSize where
  wd : Int
  ht : Int
deriving DecidableEq, Repr

/-- Model of `QSize::isEmpty`: either extent is below one. -/
def QSize.isEmpty (s : QSize) : Bool := decide (s.wd < 1) || decide (s.ht < 1)

/-- Model of `QSize::width`. -/
def QSize.width (s : QSize) : Int := s.wd

/-- Model of `QSize::height`. -/
def QSize.height (s : QSize) : Int := s.ht

/-- Qt's `QRect`, stored as its two corners like Qt does. -/
structure QRect where
  x1 : Int
  y1 : Int
  x2 : Int
  y2 : Int
deriving DecidableEq, Repr

/-- The constructor `QRect(x, y, width, height)`. -/
def QRect.ofXYWH (x y w h : Int) : QRect := ⟨x, y, x + w - 1, y + h - 1⟩

/-- Model of `QRect::isValid`. -/
def QRect.isValid (r : QRect) : Bool := decide (r.x1 ≤ r.x2) && decide (r.y1 ≤ r.y2)

/-- Model of `QRect::x`. -/
def QRect.x (r : QRect) : Int := r.x1

/-- Model of `QRect::y`. -/
def QRect.y (r : QRect) : Int := r.y1

/-- Model of `QRect::width`. -/
def QRect.width (r : QRect) : Int := r.x2 - r.x1 + 1

/-- Model of `QRect::height`. -/
def QRect.height (r : QRect) : Int := r.y2 - r.y1 + 1

/-- Model of `QRect::contains(int x, int y, bool proper)`, as Qt implements it: a
rectangle whose corners are in the wrong order is read with its edges swapped. -/
def QRect.contains (r : QRect) (px py : Int) (proper : Bool) : Bool :=
  let l := if r.x2 < r.x1 - 1 then r.x2 else r.x1
  let rr := if r.x2 < r.x1 - 1 then r.x1 else r.x2
  if (if proper then decide (px ≤ l) || decide (px ≥ rr)
      else decide (px < l) || decide (px > rr)) then false
  else
    let t := if r.y2 < r.y1 - 1 then r.y2 else r.y1
    let b := if r.y2 < r.y1 - 1 then r.y1 else r.y2
    if (if proper then decide (py ≤ t) || decide (py ≥ b)
        else decide (py < t) || decide (py > b)) then false
    else true

/-- Model of `std::round` on a `qreal`: nearest integer, halves away from zero. -/
def stdRound (q : qreal) : Int := if 0 ≤ q then ⌊q + 1 / 2⌋ else ⌈q - 1 / 2⌉

/-- Model of `std::floor`. -/
def stdFloor (q : qreal) : Int := ⌊q⌋

/-- Model of `std::ceil`. -/
def stdCeil (q : qreal) : Int := ⌈q⌉

/-- Nearest integer, a half going to the even neighbour: the rounding of a
binary64 significand. -/
def roundHalfEven (q : ℚ) : Int :=
  if q - ⌊q⌋ < 1 / 2 then ⌊q⌋
  else if 1 / 2 < q - ⌊q⌋ then ⌊q⌋ + 1
  else if ⌊q⌋ % 2 = 0 then ⌊q⌋ else ⌊q⌋ + 1

/-- The binary64 number nearest to the rational `q` (IEEE 754 round to nearest,
ties to even): `q` is scaled by the power of two that brings it into
`[2^52, 2^53)`, rounded to an integer and scaled back. The exponent range is
not bounded; the quotients and products of the source (a DPI over 96, an `int`
times such a ratio) stay far inside the range of normal binary64 numbers. -/
def binary64 (q : ℚ) : qreal :=
  if q = 0 then 0
  else (roundHalfEven (q / 2 ^ (Int.log 2 |q| - 52)) : ℚ) * 2 ^ (Int.log 2 |q| - 52)

/-- The product of two `qreal` values as the source computes it, in binary64. -/
def fmul (a b : qreal) : qreal := binary64 (a * b)

/-- The quotient of two `qreal` values as the source computes it, in binary64. -/
def fdiv (a b : qreal) : qreal := binary64 (a / b)

/-- Conversion of an `int` to `UINT`. -/
def toUINT (i : Int) : Nat := (i % 4294967296).toNat

/-- Model of `(int)(short)` of a 16-bit word. -/
def toShort (w : Int) : Int := if w < 32768 then w else w - 65536

/-- Win32 `GET_X_LPARAM`. -/
def GET_X_LPARAM (lp : Int) : Int := toShort (lp % 65536)

/-- Win32 `GET_Y_LPARAM`. -/
def GET_Y_LPARAM (lp : Int) : Int := toShort ((lp / 65536) % 65536)

/-- Win32 `LOWORD`. -/
def LOWORD (v : Nat) : Nat := v % 65536

/-- Win32 `HIWORD`. -/
def HIWORD (v : Nat) : Nat := (v / 65536) % 65536

/-! ## Constants of the Windows headers and of the source -/

def ABS_AUTOHIDE : Nat := 0x0000001
def ABE_LEFT : Int := 0
def ABE_TOP : Int := 1
def ABE_RIGHT : Int := 2
def ABE_BOTTOM : Int := 3
def USER_DEFAULT_SCREEN_DPI : Nat := 96
def SM_CXFRAME : Int := 32
def SM_CYFRAME : Int := 33
def SM_CYCAPTION : Int := 4
def SM_CXPADDEDBORDER : Int := 92

def WM_SETTEXT : Nat := 0x000C
def WM_GETMINMAXINFO : Nat := 0x0024
def WM_WINDOWPOSCHANGING : Nat := 0x0046
def WM_WINDOWPOSCHANGED : Nat := 0x0047
def WM_SETICON : Nat := 0x0080
def WM_NCCALCSIZE : Nat := 0x0083
def WM_NCHITTEST : Nat := 0x0084
def WM_NCPAINT : Nat := 0x0085
def WM_NCACTIVATE : Nat := 0x0086
def WM_NCUAHDRAWCAPTION : Nat := 0x00AE
def WM_NCUAHDRAWFRAME : Nat := 0x00AF
def WM_DPICHANGED : Nat := 0x02E0
def WM_THEMECHANGED : Nat := 0x031A
def WM_DWMCOMPOSITIONCHANGED : Nat := 0x031E

def HTTRANSPARENT : Int := -1
def HTCLIENT : Int := 1
def HTCAPTION : Int := 2
def HTLEFT : Int := 10
def HTRIGHT : Int := 11
def HTTOP : Int := 12
def HTTOPLEFT : Int := 13
def HTTOPRIGHT : Int := 14
def HTBOTTOM : Int := 15
def HTBOTTOMLEFT : Int := 16
def HTBOTTOMRIGHT : Int := 17
def HTBORDER : Int := 18

def GWL_STYLE : Int := -16
def GWL_EXSTYLE : Int := -20
def WS_VISIBLE : Nat := 0x10000000
def WS_EX_APPWINDOW : Nat := 0x00040000
def WS_EX_LAYERED : Nat := 0x00080000
def LWA_COLORKEY : Nat := 0x00000001
def DWMNCRP_ENABLED : Nat := 2
def DWMWA_NCRENDERING_POLICY : Nat := 2

/-- The source's `m_defaultDotsPerInch`. -/
def m_defaultDotsPerInch : Nat := USER_DEFAULT_SCREEN_DPI

/-- The source's `m_defaultDevicePixelRatio`. -/
def m_defaultDevicePixelRatio : qreal := 1

/-! ## The window data -/

/-- Modelled from the spec: the declaration of `WINDOWDATA` is in
`winnativeeventfilter.h`, which is not among the sources; the fields are the
ones `winnativeeventfilter.cpp` reads, with the types it reads them at. -/
structure WINDOWDATA where
  fixedSize : Bool
  mouseTransparent : Bool
  borderWidth : Int
  borderHeight : Int
  titlebarHeight : Int
  ignoreAreas : List QRect
  draggableAreas : List QRect
  maximumSize : QSize
  minimumSize : QSize
deriving DecidableEq, Repr

/-- Modelled from the spec: the declaration of `WINDOW` is in
`winnativeeventfilter.h`, which is not among the sources; the fields are the
ones `winnativeeventfilter.cpp` reads and writes. -/
structure WINDOW where
  hWnd : HWND
  dwmCompositionEnabled : Bool
  initialized : Bool
  windowData : WINDOWDATA
deriving DecidableEq, Repr

/-- The per-window user data: what `GetWindowLongPtrW(h, GWLP_USERDATA)`
points to, `none` for a null pointer. -/
abbrev UserData := HWND → Option WINDOW

/-- Model of `Qt::HighDpiScaleFactorRoundingPolicy`. -/
inductive HighDpiScaleFactorRoundingPolicy where
  | Unset
  | Round
  | Ceil
  | Floor
  | RoundPreferFloor
  | PassThrough
deriving DecidableEq, Repr

/-- What the operating system, Qt and the build answer. The optional fields
are the dynamically resolved entry points (`m_lp...`), `none` when the
pointer is null. -/
structure System where
  /-- The build has `QT_VERSION >= 5.14.0`. -/
  qtAtLeast_5_14 : Bool
  /-- Answer of `QGuiApplication::highDpiScaleFactorRoundingPolicy()`. -/
  highDpiScaleFactorRoundingPolicy : HighDpiScaleFactorRoundingPolicy
  /-- Answer of `QOperatingSystemVersion::current() < QOperatingSystemVersion::Windows8`. -/
  olderThanWindows8 : Bool
  /-- A `WINDOW` as `new WINDOW` leaves it (the member initialisers are in
  the header, which is not among the sources). -/
  newWINDOW : WINDOW
  /-- Answer of `GetSystemDpiForProcess(GetCurrentProcess())`. -/
  lpGetSystemDpiForProcess : Option Nat
  /-- Answer of `GetDpiForSystem()`. -/
  lpGetDpiForSystem : Option Nat
  /-- Answer of `GetDpiForWindow(handle)`. -/
  lpGetDpiForWindow : Option (HWND → Nat)
  /-- The value of `dpiX` after `GetDpiForMonitor(monitor, MDT_EFFECTIVE_DPI,
  &dpiX, &dpiY)`. -/
  lpGetDpiForMonitor : Option (HMONITOR → Nat)
  /-- Answer of `GetDeviceCaps(hdc, LOGPIXELSX)` and `GetDeviceCaps(hdc, LOGPIXELSY)`
  for `hdc = GetDC(nullptr)`, `none` when `GetDC` returns null. -/
  screenDeviceCaps : Option (Int × Int)
  /-- Answer of `GetSystemMetricsForDpi(index, dpi)`. -/
  lpGetSystemMetricsForDpi : Option (Int → Nat → Int)
  /-- Answer of `GetSystemMetrics(index)`. -/
  GetSystemMetrics : Int → Int
  /-- Answer of `GetAncestor(hwnd, GA_PARENT)`. -/
  GetAncestorParent : HWND → HWND
  /-- Answer of `GetDesktopWindow()`. -/
  GetDesktopWindow : HWND
  /-- Answer of `IsMaximized(hwnd)`. -/
  IsMaximized : HWND → Bool
  /-- Answer of `MonitorFromWindow(hwnd, MONITOR_DEFAULTTONEAREST)`. -/
  MonitorFromWindowNearest : HWND → HMONITOR
  /-- Answer of `MonitorFromWindow(hwnd, MONITOR_DEFAULTTOPRIMARY)`. -/
  MonitorFromWindowPrimary : HWND → HMONITOR
  /-- The `MONITORINFO` after `GetMonitorInfoW(monitor, &monitorInfo)`. -/
  GetMonitorInfoW : HMONITOR → MONITORINFO
  /-- Answer of `SHAppBarMessage(ABM_GETSTATE, &abd)`. -/
  appBarState : Nat
  /-- Answer of `FindWindowW(L"Shell_TrayWnd", nullptr)`. -/
  FindShellTrayWnd : HWND
  /-- The value of `abd.uEdge` after `SHAppBarMessage(ABM_GETTASKBARPOS, &abd)`. -/
  taskbarPosEdge : Nat
  /-- The rectangle after `GetClientRect(hwnd, &clientRect)`. -/
  GetClientRect : HWND → RECT
  /-- The point after `ScreenToClient(hwnd, &mouse)`. -/
  ScreenToClient : HWND → POINT → POINT
  /-- The flag after `DwmIsCompositionEnabled(&enabled)`. -/
  DwmIsCompositionEnabled : Bool
  /-- Answer of `DefWindowProcW(hwnd, message, wParam, lParam)`. -/
  DefWindowProcW : HWND → Nat → Nat → Int → Int
  /-- Answer of `GetWindowLongPtrW(hwnd, GWL_STYLE)`. -/
  GetWindowStyle : HWND → Nat

/-- The variables of the source's anonymous namespace. -/
structure Globals where
  m_borderWidth : Int
  m_borderHeight : Int
  m_titlebarHeight : Int
  /-- Whether `m_instance` holds a filter (installed in `qApp`). -/
  m_instance : Bool
  m_framelessWindows : List HWND
deriving DecidableEq, Repr

/-- The initial values of the anonymous namespace's variables. -/
def Globals.initial : Globals :=
  { m_borderWidth := -1, m_borderHeight := -1, m_titlebarHeight := -1,
    m_instance := false, m_framelessWindows := [] }

/-! ## DPI and rounding -/

/-- The lambda `getRoundedNumber` of `getPreferedNumber`: a number below 96 is
rounded as a device pixel ratio, a larger one is mapped as a DPI. The products
of 96 with 1.5, 2, 2.5, 3, 3.5, 4 and 4.5 are integers, which binary64 holds
exactly, so they are written as exact products. -/
def getRoundedNumber (x : qreal) : qreal :=
  if x < (m_defaultDotsPerInch : qreal) then (stdRound x : qreal)
  else if x < (m_defaultDotsPerInch : qreal) * (3 / 2) then (m_defaultDotsPerInch : qreal)
  else if x = (m_defaultDotsPerInch : qreal) * (3 / 2) then (m_defaultDotsPerInch : qreal) * (3 / 2)
  else if x < (m_defaultDotsPerInch : qreal) * (5 / 2) then (m_defaultDotsPerInch : qreal) * 2
  else if x = (m_defaultDotsPerInch : qreal) * (5 / 2) then (m_defaultDotsPerInch : qreal) * (5 / 2)
  else if x < (m_defaultDotsPerInch : qreal) * (7 / 2) then (m_defaultDotsPerInch : qreal) * 3
  else if x = (m_defaultDotsPerInch : qreal) * (7 / 2) then (m_defaultDotsPerInch : qreal) * (7 / 2)
  else if x < (m_defaultDotsPerInch : qreal) * (9 / 2) then (m_defaultDotsPerInch : qreal) * 4
  else -1

/-- Model of `WinNativeEventFilter::getPreferedNumber`. -/
def getPreferedNumber (sys : System) (num : qreal) : qreal :=
  if sys.qtAtLeast_5_14 then
    match sys.highDpiScaleFactorRoundingPolicy with
    | .PassThrough => num
    | .Floor => (stdFloor num : qreal)
    | .Ceil => (stdCeil num : qreal)
    | _ => getRoundedNumber num
  else getRoundedNumber num

/-- The lambda `getScreenDpi` of `getDotsPerInchForWindow`. -/
def getScreenDpi (sys : System) (defaultValue : Nat) : Nat :=
  match sys.screenDeviceCaps with
  | some (dpiX, dpiY) => toUINT (if dpiX = dpiY then dpiY else dpiX)
  | none => defaultValue

/-- Model of `WinNativeEventFilter::getDotsPerInchForWindow`. -/
def getDotsPerInchForWindow (sys : System) (handle : HWND) : Nat :=
  if handle = 0 then
    match sys.lpGetSystemDpiForProcess with
    | some dpi => dpi
    | none =>
      match sys.lpGetDpiForSystem with
      | some dpi => dpi
      | none => getScreenDpi sys m_defaultDotsPerInch
  else
    match sys.lpGetDpiForWindow with
    | some f => f handle
    | none =>
      match sys.lpGetDpiForMonitor with
      | some f => f (sys.MonitorFromWindowNearest handle)
      | none => getScreenDpi sys m_defaultDotsPerInch

/-- Model of `WinNativeEventFilter::getDevicePixelRatioForWindow`. -/
def getDevicePixelRatioForWindow (sys : System) (handle : HWND) : qreal :=
  let dpr : qreal :=
    if handle ≠ 0 then
      fdiv (getDotsPerInchForWindow sys handle : qreal) (m_defaultDotsPerInch : qreal)
    else m_defaultDevicePixelRatio
  getPreferedNumber sys dpr

/-- Model of `WinNativeEventFilter::getSystemMetricsForWindow`. -/
def getSystemMetricsForWindow (sys : System) (handle : HWND) (index : Int) : Int :=
  match sys.lpGetSystemMetricsForDpi with
  | some f =>
    f index (toUINT (stdRound (getPreferedNumber sys (getDotsPerInchForWindow sys handle : qreal))))
  | none =>
    stdRound (fmul (sys.GetSystemMetrics index : qreal)
      (getDevicePixelRatioForWindow sys handle))

/-! ## User data -/

/-- Model of `WinNativeEventFilter::createUserData`. -/
def createUserData (sys : System) (ud : UserData) (handle : HWND)
    (data : Option WINDOWDATA) : UserData :=
  if handle ≠ 0 then
    match ud handle with
    | some userData =>
      match data with
      | some d => Function.update ud handle (some { userData with windowData := d })
      | none => ud
    | none =>
      let _data : WINDOW := { sys.newWINDOW with hWnd := handle }
      let _data : WINDOW :=
        match data with
        | some d => { _data with windowData := d }
        | none => _data
      Function.update ud handle (some _data)
  else ud

/-- Dereference of the user-data pointer of a window. The source dereferences
it only after `createUserData` on a non-null handle, where it is never null
(`createUserData_isSome`); the value for a null pointer is never used there. -/
def userDataOf (sys : System) (ud : UserData) (handle : HWND) : WINDOW :=
  (ud handle).getD sys.newWINDOW

/-- Model of `WinNativeEventFilter::setWindowData`. -/
def setWindowData (sys : System) (ud : UserData) (window : HWND)
    (data : Option WINDOWDATA) : UserData :=
  if window ≠ 0 ∧ data.isSome then createUserData sys ud window data else ud

/-- Model of `WinNativeEventFilter::windowData`: the store afterwards and the window
data pointed to, `none` for `nullptr`. -/
def windowData (sys : System) (ud : UserData) (window : HWND) :
    UserData × Option WINDOWDATA :=
  if window ≠ 0 then
    let ud := createUserData sys ud window none
    (ud, some (userDataOf sys ud window).windowData)
  else (ud, none)

/-! ## Border and title bar sizes -/

/-- Model of `WinNativeEventFilter::borderWidth`: the store afterwards and the result. -/
def borderWidth (g : Globals) (sys : System) (ud : UserData) (handle : HWND) :
    UserData × Int :=
  let udAfter := if handle ≠ 0 then createUserData sys ud handle none else ud
  if handle ≠ 0 ∧ 0 < (userDataOf sys udAfter handle).windowData.borderWidth then
    (udAfter, stdRound (fmul ((userDataOf sys udAfter handle).windowData.borderWidth : qreal)
      (getDevicePixelRatioForWindow sys handle)))
  else if 0 < g.m_borderWidth then (udAfter, g.m_borderWidth)
  else (udAfter, getSystemMetricsForWindow sys handle SM_CXFRAME
    + getSystemMetricsForWindow sys handle SM_CXPADDEDBORDER)

/-- Model of `WinNativeEventFilter::borderHeight`: the store afterwards and the result. -/
def borderHeight (g : Globals) (sys : System) (ud : UserData) (handle : HWND) :
    UserData × Int :=
  let udAfter := if handle ≠ 0 then createUserData sys ud handle none else ud
  if handle ≠ 0 ∧ 0 < (userDataOf sys udAfter handle).windowData.borderHeight then
    (udAfter, stdRound (fmul ((userDataOf sys udAfter handle).windowData.borderHeight : qreal)
      (getDevicePixelRatioForWindow sys handle)))
  else if 0 < g.m_borderHeight then (udAfter, g.m_borderHeight)
  else (udAfter, getSystemMetricsForWindow sys handle SM_CYFRAME
    + getSystemMetricsForWindow sys handle SM_CXPADDEDBORDER)

/-- Model of `WinNativeEventFilter::titlebarHeight`: the store afterwards and the result. -/
def titlebarHeight (g : Globals) (sys : System) (ud : UserData) (handle : HWND) :
    UserData × Int :=
  let udAfter := if handle ≠ 0 then createUserData sys ud handle none else ud
  if handle ≠ 0 ∧ 0 < (userDataOf sys udAfter handle).windowData.titlebarHeight then
    (udAfter, stdRound (fmul ((userDataOf sys udAfter handle).windowData.titlebarHeight : qreal)
      (getDevicePixelRatioForWindow sys handle)))
  else if 0 < g.m_titlebarHeight then (udAfter, g.m_titlebarHeight)
  else
    let (udAfter, bh) := borderHeight g sys udAfter handle
    (udAfter, bh + getSystemMetricsForWindow sys handle SM_CYCAPTION)

/-- Model of `WinNativeEventFilter::setBorderWidth`. -/
def setBorderWidth (g : Globals) (bw : Int) : Globals :=
  if g.m_borderWidth ≠ bw then { g with m_borderWidth := bw } else g

/-- Model of `WinNativeEventFilter::setBorderHeight`. -/
def setBorderHeight (g : Globals) (bh : Int) : Globals :=
  if g.m_borderHeight ≠ bh then { g with m_borderHeight := bh } else g

/-- Model of `WinNativeEventFilter::setTitlebarHeight`. -/
def setTitlebarHeight (g : Globals) (tbh : Int) : Globals :=
  if g.m_titlebarHeight ≠ tbh then { g with m_titlebarHeight := tbh } else g

/-! ## The frameless-window list -/

/-- Model of `WinNativeEventFilter::install`. -/
def install (g : Globals) : Globals :=
  if !g.m_instance then { g with m_instance := true } else g

/-- Model of `WinNativeEventFilter::uninstall`. -/
def uninstall (g : Globals) : Globals :=
  let g := if g.m_instance then { g with m_instance := false } else g
  if !g.m_framelessWindows.isEmpty then { g with m_framelessWindows := [] } else g

/-- Model of `WinNativeEventFilter::framelessWindows`. -/
def framelessWindows (g : Globals) : List HWND := g.m_framelessWindows

/-- Model of `WinNativeEventFilter::setFramelessWindows`. -/
def setFramelessWindows (g : Globals) (windows : List HWND) : Globals :=
  if !windows.isEmpty && windows != g.m_framelessWindows then
    install { g with m_framelessWindows := windows }
  else g

/-- Model of `WinNativeEventFilter::addFramelessWindow`: the globals and the user-data
store afterwards. -/
def addFramelessWindow (g : Globals) (sys : System) (ud : UserData) (window : HWND)
    (data : Option WINDOWDATA) : Globals × UserData :=
  if window ≠ 0 ∧ !g.m_framelessWindows.contains window then
    let g := { g with m_framelessWindows := g.m_framelessWindows ++ [window] }
    let ud := if data.isSome then createUserData sys ud window data else ud
    (install g, ud)
  else (g, ud)

/-- Model of `WinNativeEventFilter::removeFramelessWindow`. -/
def removeFramelessWindow (g : Globals) (window : HWND) : Globals :=
  if window ≠ 0 ∧ g.m_framelessWindows.contains window then
    { g with m_framelessWindows := g.m_framelessWindows.filter (fun w => w != window) }
  else g

/-- Model of `WinNativeEventFilter::clearFramelessWindows`. -/
def clearFramelessWindows (g : Globals) : Globals :=
  if !g.m_framelessWindows.isEmpty then { g with m_framelessWindows := [] } else g

/-! ## The hit test -/

/-- The lambda `isInSpecificAreas` of the `WM_NCHITTEST` handler. -/
def isInSpecificAreas (x y : Int) (areas : List QRect) (dpr : qreal) : Bool :=
  match areas with
  | [] => false
  | area :: rest =>
    if !area.isValid then isInSpecificAreas x y rest dpr
    else if (QRect.ofXYWH (stdRound (fmul (area.x : qreal) dpr)) (stdRound (fmul (area.y : qreal) dpr))
        (stdRound (fmul (area.width : qreal) dpr))
        (stdRound (fmul (area.height : qreal) dpr))).contains x y true then true
    else isInSpecificAreas x y rest dpr

/-- The lambda `getHTResult` of the `WM_NCHITTEST` handler: the user-data
store afterwards and the hit-test code. -/
def getHTResult (g : Globals) (sys : System) (ud : UserData) (_hWnd : HWND) (_lParam : Int)
    (_data : WINDOW) : UserData × Int :=
  let clientRect := sys.GetClientRect _hWnd
  let ww := clientRect.right
  let wh := clientRect.bottom
  let mouse := sys.ScreenToClient _hWnd ⟨GET_X_LPARAM _lParam, GET_Y_LPARAM _lParam⟩
  let (ud, bw) := borderWidth g sys ud _hWnd
  let (ud, bh) := borderHeight g sys ud _hWnd
  let (ud, tbh) := titlebarHeight g sys ud _hWnd
  let isInsideWindow : Bool :=
    decide (mouse.x > 0) && decide (mouse.x < ww) && decide (mouse.y > 0) && decide (mouse.y < wh)
  let dpr := getDevicePixelRatioForWindow sys _hWnd
  let isTitlebar : Bool :=
    isInsideWindow && decide (mouse.y < tbh)
      && !isInSpecificAreas mouse.x mouse.y _data.windowData.ignoreAreas dpr
      && (if _data.windowData.draggableAreas.isEmpty then true
          else isInSpecificAreas mouse.x mouse.y _data.windowData.draggableAreas dpr)
  if sys.IsMaximized _hWnd then
    if isTitlebar then (ud, HTCAPTION) else (ud, HTCLIENT)
  else if _data.windowData.fixedSize then
    if isTitlebar then (ud, HTCAPTION) else (ud, HTBORDER)
  else
    let isTop : Bool := isInsideWindow && decide (mouse.y < bh)
    let isBottom : Bool := isInsideWindow && decide (mouse.y > wh - bh)
    let factor : Int := if isTop || isBottom then 2 else 1
    let isLeft : Bool := isInsideWindow && decide (mouse.x < bw * factor)
    let isRight : Bool := isInsideWindow && decide (mouse.x > ww - bw * factor)
    if isTop then
      if isLeft then (ud, HTTOPLEFT)
      else if isRight then (ud, HTTOPRIGHT)
      else (ud, HTTOP)
    else if isBottom then
      if isLeft then (ud, HTBOTTOMLEFT)
      else if isRight then (ud, HTBOTTOMRIGHT)
      else (ud, HTBOTTOM)
    else if isLeft then (ud, HTLEFT)
    else if isRight then (ud, HTRIGHT)
    else if isTitlebar then (ud, HTCAPTION)
    else (ud, HTCLIENT)

/-! ## The size handlers -/

/-- The body of the `WM_NCCALCSIZE` case on the rectangle `rect` refers to. -/
def ncCalcSizeRect (sys : System) (hwnd : HWND) (rect : RECT) : RECT :=
  if sys.IsMaximized hwnd then
    let windowMonitor := sys.MonitorFromWindowNearest hwnd
    let monitorInfo := sys.GetMonitorInfoW windowMonitor
    let rect := monitorInfo.rcWork
    if EqualRect monitorInfo.rcWork monitorInfo.rcMonitor then
      let taskbarState := sys.appBarState
      if taskbarState &&& ABS_AUTOHIDE ≠ 0 then
        let abd_hWnd := sys.FindShellTrayWnd
        let edge : Int :=
          if abd_hWnd ≠ 0 then
            let taskbarMonitor := sys.MonitorFromWindowPrimary abd_hWnd
            if taskbarMonitor ≠ 0 ∧ taskbarMonitor = windowMonitor then (sys.taskbarPosEdge : Int)
            else -1
          else -1
        if edge = ABE_BOTTOM then { rect with bottom := rect.bottom - 1 }
        else if edge = ABE_LEFT then { rect with left := rect.left + 1 }
        else if edge = ABE_TOP then { rect with top := rect.top + 1 }
        else if edge = ABE_RIGHT then { rect with right := rect.right - 1 }
        else rect
      else rect
    else rect
  else rect

/-- The `WM_NCCALCSIZE` case on the memory `lParam` addresses: `rect` is
`rgrc[0]` of the parameters when `wParam` is TRUE and the `RECT` otherwise. -/
def ncCalcSize (sys : System) (msg : MSG) (mem : Pointee) : Pointee :=
  if msg.wParam % 4294967296 ≠ 0 then
    { mem with params := { mem.params with rgrc0 := ncCalcSizeRect sys msg.hwnd mem.params.rgrc0 } }
  else
    { mem with rect := ncCalcSizeRect sys msg.hwnd mem.rect }

/-- The `WM_GETMINMAXINFO` case on the `MINMAXINFO` `lParam` addresses. -/
def getMinMaxInfo (sys : System) (hwnd : HWND) (data : WINDOW) (mmi : MINMAXINFO) :
    MINMAXINFO :=
  let monitor := sys.MonitorFromWindowNearest hwnd
  let monitorInfo := sys.GetMonitorInfoW monitor
  let rcWorkArea := monitorInfo.rcWork
  let rcMonitorArea := monitorInfo.rcMonitor
  let mmi : MINMAXINFO :=
    if sys.olderThanWindows8 then
      { mmi with ptMaxPosition := ⟨rcMonitorArea.left, rcMonitorArea.top⟩ }
    else
      { mmi with ptMaxPosition :=
          ⟨|rcWorkArea.left - rcMonitorArea.left|, |rcWorkArea.top - rcMonitorArea.top|⟩ }
  let mmi : MINMAXINFO :=
    if data.windowData.maximumSize.isEmpty then
      { mmi with ptMaxSize :=
          ⟨|rcWorkArea.right - rcWorkArea.left|, |rcWorkArea.bottom - rcWorkArea.top|⟩ }
    else
      { mmi with ptMaxSize :=
          ⟨stdRound (fmul (getDevicePixelRatioForWindow sys hwnd)
              (data.windowData.maximumSize.width : qreal)),
           stdRound (fmul (getDevicePixelRatioForWindow sys hwnd)
              (data.windowData.maximumSize.height : qreal))⟩ }
  let mmi : MINMAXINFO := { mmi with ptMaxTrackSize := ⟨mmi.ptMaxSize.x, mmi.ptMaxSize.y⟩ }
  if !data.windowData.minimumSize.isEmpty then
    { mmi with ptMinTrackSize :=
        ⟨stdRound (fmul (getDevicePixelRatioForWindow sys hwnd)
            (data.windowData.minimumSize.width : qreal)),
         stdRound (fmul (getDevicePixelRatioForWindow sys hwnd)
            (data.windowData.minimumSize.height : qreal))⟩ }
  else mmi

/-! ## The filter -/

/-- What a `QTimer::singleShot` of the filter runs later. -/
inductive Deferred where
  /-- A later `redrawWindow(_hWnd)`. -/
  | redraw (hWnd : HWND)
  /-- The resize by one pixel and back of the `WM_DPICHANGED` case. -/
  | dpiRefresh (hWnd : HWND)
deriving DecidableEq, Repr

/-- The calls with an effect outside the filter, as the filter makes them. -/
inductive Call where
  | SetWindowLongPtrW (hWnd : HWND) (nIndex : Int) (value : Nat)
  | SetLayeredWindowAttributes (hWnd : HWND) (crKey : Nat) (bAlpha : Nat) (dwFlags : Nat)
  | DwmSetWindowAttribute (hWnd : HWND) (dwAttribute : Nat) (value : Nat)
  | DwmExtendFrameIntoClientArea (hWnd : HWND) (margins : RECT)
  | RedrawWindow (hWnd : HWND)
  | DefWindowProcW (hWnd : HWND) (message : Nat) (wParam : Nat) (lParam : Int)
  | singleShot (msec : Nat) (task : Deferred)
deriving DecidableEq, Repr

/-- Model of `WinNativeEventFilter::redrawWindow`. -/
def redrawWindow (handle : HWND) : List Call :=
  if handle ≠ 0 then [Call.RedrawWindow handle] else []

/-- Model of `WinNativeEventFilter::handleDwmCompositionChanged`: the `WINDOW` `data`
points to afterwards and the calls made. -/
def handleDwmCompositionChanged (sys : System) (data : WINDOW) : WINDOW × List Call :=
  let enabled := sys.DwmIsCompositionEnabled
  let data := { data with dwmCompositionEnabled := enabled }
  if enabled then
    (data, [Call.DwmSetWindowAttribute data.hWnd DWMWA_NCRENDERING_POLICY DWMNCRP_ENABLED,
            Call.DwmExtendFrameIntoClientArea data.hWnd ⟨-1, -1, -1, -1⟩]
           ++ redrawWindow data.hWnd)
  else (data, redrawWindow data.hWnd)

/-- What a call of `nativeEventFilter` leaves behind. -/
structure Outcome where
  /-- The value returned. -/
  ret : Bool
  /-- The value written to `*result`, `none` when nothing is written. -/
  result : Option Int
  /-- The user-data store afterwards. -/
  userData : UserData
  /-- The memory `lParam` addresses afterwards. -/
  mem : Pointee
  /-- The calls made, in order. -/
  calls : List Call

/-- The test at the head of `nativeEventFilter` that lets a message through:
the handle is non-null and, with an empty window list, the window is top
level, with a non-empty one, the window is in the list. -/
def accepts (g : Globals) (sys : System) (msg : MSG) : Bool :=
  if msg.hwnd = 0 then false
  else if g.m_framelessWindows.isEmpty then
    let parent := sys.GetAncestorParent msg.hwnd
    if parent ≠ 0 ∧ parent ≠ sys.GetDesktopWindow then false else true
  else if !g.m_framelessWindows.contains msg.hwnd then false
  else true

/-- The first-message block of `nativeEventFilter` (`if (!data->initialized)`):
the user-data store afterwards and the calls made. The `qDebug` output is not
kept; the size functions it calls are, for the user data they may create. -/
def firstMessageSetup (g : Globals) (sys : System) (ud : UserData) (hwnd : HWND) :
    UserData × List Call :=
  let data := userDataOf sys ud hwnd
  if !data.initialized then
    let data := { data with initialized := true }
    let (data, calls) := handleDwmCompositionChanged sys data
    let ud := Function.update ud hwnd (some data)
    let (ud, _) := borderWidth g sys ud hwnd
    let (ud, _) := borderHeight g sys ud hwnd
    let (ud, _) := titlebarHeight g sys ud hwnd
    (ud, [Call.SetWindowLongPtrW hwnd GWL_EXSTYLE (WS_EX_APPWINDOW ||| WS_EX_LAYERED),
          Call.SetLayeredWindowAttributes hwnd 0xFF00FF 0 LWA_COLORKEY] ++ calls)
  else (ud, [])

/-- Model of `WinNativeEventFilter::nativeEventFilter`. -/
def nativeEventFilter (g : Globals) (sys : System) (ud : UserData) (msg : MSG)
    (mem : Pointee) : Outcome :=
  if !accepts g sys msg then
    { ret := false, result := none, userData := ud, mem := mem, calls := [] }
  else
    let ud := createUserData sys ud msg.hwnd none
    let (ud, calls) := firstMessageSetup g sys ud msg.hwnd
    let data := userDataOf sys ud msg.hwnd
    if msg.message = WM_NCCALCSIZE then
      { ret := true, result := some 0, userData := ud, mem := ncCalcSize sys msg mem,
        calls := calls }
    else if msg.message = WM_NCUAHDRAWCAPTION ∨ msg.message = WM_NCUAHDRAWFRAME then
      { ret := true, result := some 0, userData := ud, mem := mem, calls := calls }
    else if msg.message = WM_NCPAINT then
      if data.dwmCompositionEnabled then
        { ret := false, result := none, userData := ud, mem := mem, calls := calls }
      else
        { ret := true, result := some 0, userData := ud, mem := mem, calls := calls }
    else if msg.message = WM_NCACTIVATE then
      { ret := true, result := some (sys.DefWindowProcW msg.hwnd msg.message msg.wParam (-1)),
        userData := ud, mem := mem,
        calls := calls ++ [Call.DefWindowProcW msg.hwnd msg.message msg.wParam (-1)] }
    else if msg.message = WM_NCHITTEST then
      if data.windowData.mouseTransparent then
        { ret := true, result := some HTTRANSPARENT, userData := ud, mem := mem,
          calls := calls }
      else
        let (ud, ht) := getHTResult g sys ud msg.hwnd msg.lParam data
        { ret := true, result := some ht, userData := ud, mem := mem, calls := calls }
    else if msg.message = WM_GETMINMAXINFO then
      { ret := true, result := some 0, userData := ud,
        mem := { mem with mmi := getMinMaxInfo sys msg.hwnd data mem.mmi }, calls := calls }
    else if msg.message = WM_SETICON ∨ msg.message = WM_SETTEXT then
      if !data.dwmCompositionEnabled then
        let oldStyle := sys.GetWindowStyle msg.hwnd
        { ret := true,
          result := some (sys.DefWindowProcW msg.hwnd msg.message msg.wParam msg.lParam),
          userData := ud, mem := mem,
          calls := calls ++
            [Call.SetWindowLongPtrW msg.hwnd GWL_STYLE (Nat.ldiff oldStyle WS_VISIBLE),
             Call.DefWindowProcW msg.hwnd msg.message msg.wParam msg.lParam,
             Call.SetWindowLongPtrW msg.hwnd GWL_STYLE oldStyle] }
      else
        { ret := false, result := none, userData := ud, mem := mem, calls := calls }
    else if msg.message = WM_DWMCOMPOSITIONCHANGED then
      let (data, calls2) := handleDwmCompositionChanged sys data
      { ret := false, result := none, userData := Function.update ud msg.hwnd (some data),
        mem := mem, calls := calls ++ calls2 }
    else if msg.message = WM_THEMECHANGED ∨ msg.message = WM_WINDOWPOSCHANGING
        ∨ msg.message = WM_WINDOWPOSCHANGED then
      { ret := false, result := none, userData := ud, mem := mem,
        calls := calls ++ [Call.singleShot 50 (Deferred.redraw msg.hwnd)] }
    else if msg.message = WM_DPICHANGED then
      { ret := false, result := none, userData := ud, mem := mem,
        calls := calls ++ [Call.singleShot 50 (Deferred.dpiRefresh msg.hwnd)] }
    else
      { ret := false, result := none, userData := ud, mem := mem, calls := calls }

/-! ## Notions the statements use -/

/-- The window data a call on window `h` works with: the one already attached
to the window, or the one of the `WINDOW` that `createUserData` attaches. -/
def windowDataOf (sys : System) (ud : UserData) (h : HWND) : WINDOWDATA :=
  (userDataOf sys (createUserData sys ud h none) h).windowData

/-- The mouse point of a `WM_NCHITTEST` message, in client coordinates. -/
def clientMouse (sys : System) (msg : MSG) : POINT :=
  sys.ScreenToClient msg.hwnd ⟨GET_X_LPARAM msg.lParam, GET_Y_LPARAM msg.lParam⟩

/-- The point `(x, y)` is strictly inside the client rectangle of size
`(ww, wh)`. -/
def Spec.insideClient (ww wh x y : Int) : Prop := 0 < x ∧ x < ww ∧ 0 < y ∧ y < wh

instance (ww wh x y : Int) : Decidable (Spec.insideClient ww wh x y) := by
  unfold Spec.insideClient; exact inferInstance

/-- The title-bar condition: the point is strictly inside the client
rectangle, above the title-bar height, in no ignore area and, when there are
draggable areas, in one of them. -/
def Spec.titlebarCondition (ww wh tbh : Int) (wd : WINDOWDATA) (dpr : qreal) (x y : Int) :
    Bool :=
  decide (Spec.insideClient ww wh x y) && decide (y < tbh)
    && !isInSpecificAreas x y wd.ignoreAreas dpr
    && (wd.draggableAreas.isEmpty || isInSpecificAreas x y wd.draggableAreas dpr)

/-- The hit test of a resizable window in the words of the specification:
the resize zones first, then the title bar, then the client area. -/
def Spec.hitTest (ww wh bw bh x y : Int) (titlebar : Bool) : Int :=
  if Spec.insideClient ww wh x y then
    let top : Bool := decide (y < bh)
    let bottom : Bool := decide (y > wh - bh)
    let f : Int := if top || bottom then 2 else 1
    let left : Bool := decide (x < f * bw)
    let right : Bool := decide (x > ww - f * bw)
    if top then (if left then HTTOPLEFT else if right then HTTOPRIGHT else HTTOP)
    else if bottom then (if left then HTBOTTOMLEFT else if right then HTBOTTOMRIGHT else HTBOTTOM)
    else if left then HTLEFT
    else if right then HTRIGHT
    else if titlebar then HTCAPTION
    else HTCLIENT
  else HTCLIENT

/-- The point is in a resize zone: one of the four bands along the edges of
the client rectangle. -/
def Spec.inResizeZone (ww wh bw bh x y : Int) : Prop :=
  Spec.insideClient ww wh x y ∧ (y < bh ∨ y > wh - bh ∨ x < bw ∨ x > ww - bw)

instance (ww wh bw bh x y : Int) : Decidable (Spec.inResizeZone ww wh bw bh x y) := by
  unfold Spec.inResizeZone; exact inferInstance

/-- The eight hit-test codes that resize the window. -/
def Spec.isResizeCode (c : Int) : Prop :=
  c = HTLEFT ∨ c = HTRIGHT ∨ c = HTTOP ∨ c = HTTOPLEFT ∨ c = HTTOPRIGHT ∨ c = HTBOTTOM
    ∨ c = HTBOTTOMLEFT ∨ c = HTBOTTOMRIGHT

/-- The hit test for every window state in the words of the specification: a
maximized window has a title bar and a client area, a fixed-size window a
title bar and a border, a resizable window the zones of `Spec.hitTest`. -/
def Spec.hitTestOfState (maximized fixedSize : Bool) (ww wh bw bh x y : Int)
    (titlebar : Bool) : Int :=
  if maximized then (if titlebar then HTCAPTION else HTCLIENT)
  else if fixedSize then (if titlebar then HTCAPTION else HTBORDER)
  else Spec.hitTest ww wh bw bh x y titlebar

/-- The point `(px, py)` is strictly inside the rectangle `area` scaled by
`dpr`: each of x, y, width and height is multiplied by `dpr`, in binary64 as
the source multiplies, and rounded. -/
def Spec.strictlyInsideScaled (area : QRect) (dpr : qreal) (px py : Int) : Prop :=
  stdRound (fmul (area.x : qreal) dpr) < px
    ∧ px < stdRound (fmul (area.x : qreal) dpr) + stdRound (fmul (area.width : qreal) dpr) - 1
    ∧ stdRound (fmul (area.y : qreal) dpr) < py
    ∧ py < stdRound (fmul (area.y : qreal) dpr) + stdRound (fmul (area.height : qreal) dpr) - 1

/-- The rectangle `area` scaled by `dpr` as `isInSpecificAreas` builds it. -/
def Spec.scaled (area : QRect) (dpr : qreal) : QRect :=
  QRect.ofXYWH (stdRound (fmul (area.x : qreal) dpr)) (stdRound (fmul (area.y : qreal) dpr))
    (stdRound (fmul (area.width : qreal) dpr)) (stdRound (fmul (area.height : qreal) dpr))

/-- The point `(px, py)` is strictly inside the rectangle `r`: strictly
between its two vertical edges and strictly between its two horizontal edges. -/
def Spec.strictlyInside (r : QRect) (px py : Int) : Prop :=
  min r.x1 r.x2 < px ∧ px < max r.x1 r.x2 ∧ min r.y1 r.y2 < py ∧ py < max r.y1 r.y2

/-- The rectangle the `WM_NCCALCSIZE` handler works on: `rgrc[0]` of the
parameters when `wParam` is TRUE, the `RECT` when it is FALSE. -/
def Spec.calcSizeRect (msg : MSG) (mem : Pointee) : RECT :=
  if msg.wParam % 4294967296 ≠ 0 then mem.params.rgrc0 else mem.rect

/-- The rectangle `inner` lies inside the rectangle `outer`. -/
def Spec.rectInside (inner outer : RECT) : Prop :=
  outer.left ≤ inner.left ∧ inner.right ≤ outer.right
    ∧ outer.top ≤ inner.top ∧ inner.bottom ≤ outer.bottom

instance (inner outer : RECT) : Decidable (Spec.rectInside inner outer) := by
  unfold Spec.rectInside; exact inferInstance

/-- The rectangle is not inverted. -/
def Spec.wellFormed (r : RECT) : Prop := r.left ≤ r.right ∧ r.top ≤ r.bottom

/-- The maximized rectangle a `MINMAXINFO` reports on a monitor: the position
`ptMaxPosition` is relative to the monitor's top-left corner, the size is
`ptMaxSize`. -/
def Spec.maximizedRect (rcMonitor : RECT) (mmi : MINMAXINFO) : RECT :=
  { left := rcMonitor.left + mmi.ptMaxPosition.x,
    top := rcMonitor.top + mmi.ptMaxPosition.y,
    right := rcMonitor.left + mmi.ptMaxPosition.x + mmi.ptMaxSize.x,
    bottom := rcMonitor.top + mmi.ptMaxPosition.y + mmi.ptMaxSize.y }

/-! ## Concrete inputs -/

/-- A window data with nothing configured. -/
def exampleWindowData : WINDOWDATA :=
  { fixedSize := false, mouseTransparent := false, borderWidth := -1, borderHeight := -1,
    titlebarHeight := -1, ignoreAreas := [], draggableAreas := [],
    maximumSize := ⟨-1, -1⟩, minimumSize := ⟨-1, -1⟩ }

/-- A system at 96 DPI under Windows 10 and Qt 5.15 with pass-through
rounding: monitor 1 is 1920x1080 with a 40 pixel taskbar at its bottom, every
window is a top-level, restored window with an 800x600 client rectangle at
the screen origin, a frame of 4 pixels and a caption of 23 pixels. -/
def exampleSystem : System :=
  { qtAtLeast_5_14 := true
    highDpiScaleFactorRoundingPolicy := .PassThrough
    olderThanWindows8 := false
    newWINDOW := { hWnd := 0, dwmCompositionEnabled := false, initialized := false,
                   windowData := exampleWindowData }
    lpGetSystemDpiForProcess := some 96
    lpGetDpiForSystem := some 96
    lpGetDpiForWindow := some (fun _ => 96)
    lpGetDpiForMonitor := some (fun _ => 96)
    screenDeviceCaps := some (96, 96)
    lpGetSystemMetricsForDpi := some (fun index _ => if index = 4 then 23 else 4)
    GetSystemMetrics := fun index => if index = 4 then 23 else 4
    GetAncestorParent := fun _ => 0
    GetDesktopWindow := 1
    IsMaximized := fun _ => false
    MonitorFromWindowNearest := fun _ => 1
    MonitorFromWindowPrimary := fun _ => 1
    GetMonitorInfoW := fun _ => ⟨⟨0, 0, 1920, 1080⟩, ⟨0, 0, 1920, 1040⟩⟩
    appBarState := 0
    FindShellTrayWnd := 2
    taskbarPosEdge := 3
    GetClientRect := fun _ => ⟨0, 0, 800, 600⟩
    ScreenToClient := fun _ p => p
    DwmIsCompositionEnabled := true
    DefWindowProcW := fun _ _ _ _ => 0
    GetWindowStyle := fun _ => 0 }

/-- The filter installed with window 5 as the only frameless window. -/
def exampleGlobals : Globals :=
  { m_borderWidth := -1, m_borderHeight := -1, m_titlebarHeight := -1,
    m_instance := true, m_framelessWindows := [5] }

/-- No window has user data yet. -/
def noUserData : UserData := fun _ => none

/-- Window 5 carries the window data `wd`. -/
def userDataWith (wd : WINDOWDATA) : UserData :=
  fun h => if h = 5 then
    some { hWnd := 5, dwmCompositionEnabled := true, initialized := true, windowData := wd }
  else none

/-- Some memory for `lParam` to address. -/
def examplePointee : Pointee :=
  { params := ⟨⟨100, 100, 900, 700⟩, ⟨0, 0, 0, 0⟩, ⟨0, 0, 0, 0⟩⟩,
    rect := ⟨100, 100, 900, 700⟩,
    mmi := ⟨⟨0, 0⟩, ⟨0, 0⟩, ⟨0, 0⟩, ⟨0, 0⟩, ⟨0, 0⟩⟩ }

/-- A `WM_NCHITTEST` message to window 5 with the mouse at `(x, y)`, for
`0 ≤ x, y < 32768`. -/
def hitTestMsg (x y : Int) : MSG :=
  { hwnd := 5, message := WM_NCHITTEST, wParam := 0, lParam := x + y * 65536 }

/-- The system `exampleSystem` with every window maximized. -/
def maximizedSystem : System := { exampleSystem with IsMaximized := fun _ => true }

/-- Two monitors: the auto-hide taskbar (window 2) is on the primary monitor 1,
window 5 is maximized on monitor 2, whose work area is the whole monitor. -/
def secondMonitorSystem : System :=
  { exampleSystem with
    IsMaximized := fun _ => true
    MonitorFromWindowNearest := fun h => if h = 5 then 2 else 1
    GetMonitorInfoW := fun m =>
      if m = 2 then ⟨⟨1920, 0, 3840, 1080⟩, ⟨1920, 0, 3840, 1080⟩⟩
      else ⟨⟨0, 0, 1920, 1080⟩, ⟨0, 0, 1920, 1080⟩⟩
    appBarState := ABS_AUTOHIDE }

/-- One monitor with an auto-hide taskbar at its bottom, every window
maximized. -/
def autoHideSystem : System :=
  { exampleSystem with
    IsMaximized := fun _ => true
    GetMonitorInfoW := fun _ => ⟨⟨0, 0, 1920, 1080⟩, ⟨0, 0, 1920, 1080⟩⟩
    appBarState := ABS_AUTOHIDE }

/-- The system `exampleSystem` at 192 DPI. -/
def hiDpiSystem : System := { exampleSystem with lpGetDpiForWindow := some (fun _ => 192) }

/-- The window data of the C6 witness: the whole title bar strip is draggable
and a button at (700, 1) of size 60x20 is an ignore area. -/
def ignoreButtonData : WINDOWDATA :=
  { exampleWindowData with
    ignoreAreas := [QRect.ofXYWH 700 1 60 20], draggableAreas := [QRect.ofXYWH 0 0 800 30] }

/-- The window data of the C9 witness: mouse transparent, of fixed size. -/
def transparentData : WINDOWDATA :=
  { exampleWindowData with mouseTransparent := true, fixedSize := true }

/-- The window data of the C10 witness: a fixed-size window. -/
def fixedSizeData : WINDOWDATA := { exampleWindowData with fixedSize := true }

/-- The window data of the C7 counterexample: mouse transparent, nothing else
configured. -/
def transparentOnlyData : WINDOWDATA := { exampleWindowData with mouseTransparent := true }

/-- A `WM_NCCALCSIZE` message to window 5. -/
def calcSizeMsg (wParam : Nat) : MSG :=
  { hwnd := 5, message := WM_NCCALCSIZE, wParam := wParam, lParam := 0 }

/-- A `WINDOW` that carries the window data `wd`. -/
def windowWith (sys : System) (wd : WINDOWDATA) : WINDOW := { sys.newWINDOW with windowData := wd }

/-- A `WM_GETMINMAXINFO` message to window 5. -/
def minMaxInfoMsg : MSG := { hwnd := 5, message := WM_GETMINMAXINFO, wParam := 0, lParam := 0 }

/-- The window data of the C4 counterexample: a maximum size of 3000x2000. -/
def largeMaximumData : WINDOWDATA := { exampleWindowData with maximumSize := ⟨3000, 2000⟩ }

instance (r : RECT) : Decidable (Spec.wellFormed r) := by
  unfold Spec.wellFormed; exact inferInstance

/-- The window data of the C8 comparison: a border width of 8. -/
def borderEightData : WINDOWDATA := { exampleWindowData with borderWidth := 8 }

/-- The condition under which the filter handles a message, in the words of
the specification: the handle is non-null and either the window list is
non-empty and contains it, or the list is empty and the window is top level
(its `GA_PARENT` ancestor is null or the desktop window). -/
def Spec.eligible (g : Globals) (sys : System) (msg : MSG) : Prop :=
  msg.hwnd ≠ 0 ∧
    ((g.m_framelessWindows ≠ [] ∧ msg.hwnd ∈ g.m_framelessWindows) ∨
     (g.m_framelessWindows = [] ∧
        (sys.GetAncestorParent msg.hwnd = 0
          ∨ sys.GetAncestorParent msg.hwnd = sys.GetDesktopWindow)))

instance (g : Globals) (sys : System) (msg : MSG) : Decidable (Spec.eligible g sys msg) := by
  unfold Spec.eligible; exact inferInstance

/-- A `WM_NCHITTEST` message to window 7, which is not in the window list of
`exampleGlobals`. -/
def otherWindowMsg : MSG := { hwnd := 7, message := WM_NCHITTEST, wParam := 0, lParam := 0 }

/-- The composition flag recorded for window `h` when one of its messages is
dispatched: the flag its user data holds, or, for a window whose first message
this is, the answer of `DwmIsCompositionEnabled` that the first-message block
records. -/
def Spec.recordedComposition (sys : System) (ud : UserData) (h : HWND) : Bool :=
  if (userDataOf sys (createUserData sys ud h none) h).initialized then
    (userDataOf sys (createUserData sys ud h none) h).dwmCompositionEnabled
  else sys.DwmIsCompositionEnabled

/-- A message of the given kind to window 5. -/
def plainMsg (message : Nat) : MSG := { hwnd := 5, message := message, wParam := 0, lParam := 0 }

/-- The user data of the C13 witness: window 5 is set up and its recorded
composition flag is false. -/
def noCompositionUserData : UserData :=
  fun h => if h = 5 then
    some { hWnd := 5, dwmCompositionEnabled := false, initialized := true,
           windowData := exampleWindowData }
  else none

/-- The reference definition of `getPreferedNumber` in the words of the
specification: pass-through, floor and ceil for those policies of Qt 5.14 and
later; otherwise a value below 96 is a device pixel ratio and is rounded to the
nearest integer, halves away from zero, and a value of 96 or more is a DPI and
is mapped by the table. -/
def Spec.preferedNumber (qtAtLeast_5_14 : Bool) (policy : HighDpiScaleFactorRoundingPolicy)
    (x : qreal) : qreal :=
  if qtAtLeast_5_14 = true ∧ policy = .PassThrough then x
  else if qtAtLeast_5_14 = true ∧ policy = .Floor then (⌊x⌋ : qreal)
  else if qtAtLeast_5_14 = true ∧ policy = .Ceil then (⌈x⌉ : qreal)
  else if x < 96 then (stdRound x : qreal)
  else if 96 ≤ x ∧ x < 144 then 96
  else if x = 144 then 144
  else if 144 < x ∧ x < 240 then 192
  else if x = 240 then 240
  else if 240 < x ∧ x < 336 then 288
  else if x = 336 then 336
  else if 336 < x ∧ x < 432 then 384
  else -1

/-- The rounding of `getPreferedNumber` is the default one: the build is
older than Qt 5.14, or the policy is none of pass-through, floor and ceil. -/
def Spec.defaultRounding (sys : System) : Prop :=
  sys.qtAtLeast_5_14 = false
    ∨ (sys.highDpiScaleFactorRoundingPolicy ≠ .PassThrough
        ∧ sys.highDpiScaleFactorRoundingPolicy ≠ .Floor
        ∧ sys.highDpiScaleFactorRoundingPolicy ≠ .Ceil)

instance (sys : System) : Decidable (Spec.defaultRounding sys) := by
  unfold Spec.defaultRounding; exact inferInstance

/-- The example system under the rounding policy `Round`, with every window at
144 DPI (150% scaling). -/
def roundingSystem : System :=
  { exampleSystem with
    highDpiScaleFactorRoundingPolicy := .Round
    lpGetDpiForWindow := some (fun _ => 144) }

/-- The window is top level: its `GA_PARENT` ancestor is null or the desktop
window. -/
def Spec.topLevel (sys : System) (h : HWND) : Prop :=
  sys.GetAncestorParent h = 0 ∨ sys.GetAncestorParent h = sys.GetDesktopWindow

instance (sys : System) (h : HWND) : Decidable (Spec.topLevel sys h) := by
  unfold Spec.topLevel; exact inferInstance

/-- The invariant of the frameless-window list: no null handle and no
duplicate handle. -/
def Spec.listInvariant (l : List HWND) : Prop := 0 ∉ l ∧ l.Nodup

instance (l : List HWND) : Decidable (Spec.listInvariant l) := by
  unfold Spec.listInvariant; exact inferInstance

/-- The system `roundingSystem` without `GetSystemMetricsForDpi` (before
Windows 10, version 1607). -/
def legacyRoundingSystem : System :=
  { roundingSystem with lpGetSystemMetricsForDpi := none }

/-- A window data with a title-bar height of 23 of its own. -/
def captionHeightData : WINDOWDATA := { exampleWindowData with titlebarHeight := 23 }

/-- The example system with every window at 110 DPI, where the ratio 110 / 96 is
not a binary64 number. -/
def dpi110System : System := { exampleSystem with lpGetDpiForWindow := some (fun _ => 110) }

/-- A window data whose only ignore area is the rectangle (216, 0, 96, 40). -/
def wideIgnoreData : WINDOWDATA :=
  { exampleWindowData with ignoreAreas := [QRect.ofXYWH 216 0 96 40] }

/-- A window data whose only draggable area is the rectangle (216, 0, 96, 40). -/
def wideDraggableData : WINDOWDATA :=
  { exampleWindowData with draggableAreas := [QRect.ofXYWH 216 0 96 40] }

/-- A window data with a border width of 216 of its own and a maximum size of
216x216. -/
def wideBorderData : WINDOWDATA :=
  { exampleWindowData with borderWidth := 216, maximumSize := ⟨216, 216⟩ }

/-! ## Lemmas on the binary64 arithmetic -/

theorem roundHalfEven_intCast (m : ℤ) : roundHalfEven (m : ℚ) = m := by
  simp [roundHalfEven]

/-- A rational whose scaled significand is an integer is a binary64 number: rounding
leaves it as it is. -/
theorem binary64_eq_self (q : ℚ) (m : ℤ) (hm : q / 2 ^ (Int.log 2 |q| - 52) = m) :
    binary64 q = q := by
  unfold binary64
  split_ifs with h0
  · exact h0.symm
  · rw [hm, roundHalfEven_intCast, ← hm]
    exact div_mul_cancel₀ _ (zpow_ne_zero _ (by norm_num))

/-- An integer below `2^53` in absolute value is a binary64 number. -/
theorem binary64_intCast (z : ℤ) (hz : |z| < 2 ^ 53) : binary64 (z : ℚ) = z := by
  by_cases h0 : z = 0
  · subst h0; simp [binary64]
  · have hpos : (0 : ℚ) < |(z : ℚ)| := abs_pos.mpr (by exact_mod_cast h0)
    have hlt : |(z : ℚ)| < (2 : ℕ) ^ (53 : ℤ) := by
      have : |(z : ℚ)| = ((|z| : ℤ) : ℚ) := by simp
      rw [this]
      have h2 : ((|z| : ℤ) : ℚ) < ((2 ^ 53 : ℤ) : ℚ) := by exact_mod_cast hz
      norm_num at h2 ⊢
      exact h2
    have hL : Int.log 2 |(z : ℚ)| < 53 := (Int.lt_zpow_iff_log_lt (by norm_num) hpos).mp hlt
    obtain ⟨n, hn⟩ : ∃ n : ℕ, Int.log 2 |(z : ℚ)| - 52 = -(n : ℤ) :=
      ⟨(52 - Int.log 2 |(z : ℚ)|).toNat, by omega⟩
    apply binary64_eq_self _ (z * 2 ^ n)
    rw [hn, zpow_neg, div_inv_eq_mul]
    push_cast
    rw [zpow_natCast]

theorem binary64_three_halves : binary64 (3 / 2) = 3 / 2 := by
  have hL : Int.log 2 |(3 / 2 : ℚ)| = 0 := by
    have hpos : (0 : ℚ) < |(3 / 2 : ℚ)| := by norm_num
    have h1 : (0 : ℤ) ≤ Int.log 2 |(3 / 2 : ℚ)| :=
      (Int.zpow_le_iff_le_log (by norm_num) hpos).mp (by norm_num [abs_of_pos])
    have h2 : Int.log 2 |(3 / 2 : ℚ)| < 1 :=
      (Int.lt_zpow_iff_log_lt (by norm_num) hpos).mp (by norm_num [abs_of_pos])
    omega
  apply binary64_eq_self _ (3 * 2 ^ 51)
  rw [hL]
  norm_num

/-- A rational nearer to the integer `m` than to any other integer rounds to `m`. -/
theorem roundHalfEven_eq (q : ℚ) (m : ℤ) (h1 : (m : ℚ) - 1 / 2 < q) (h2 : q < m + 1 / 2) :
    roundHalfEven q = m := by
  unfold roundHalfEven
  by_cases hq : q < m
  · have hf : ⌊q⌋ = m - 1 := by
      rw [Int.floor_eq_iff]
      push_cast
      constructor <;> linarith
    rw [hf]
    push_cast
    rw [if_neg (by linarith), if_pos (by linarith)]
    ring
  · have hf : ⌊q⌋ = m := by
      rw [Int.floor_eq_iff]
      constructor <;> linarith
    rw [hf, if_pos (by linarith)]

/-- The binary64 value of a positive rational from its exponent and its rounded
significand. -/
theorem binary64_eval (q : ℚ) (e m : ℤ) (h1 : (2 : ℚ) ^ (e + 52) ≤ q)
    (h2 : q < (2 : ℚ) ^ (e + 53)) (hm : roundHalfEven (q / 2 ^ e) = m) :
    binary64 q = m * 2 ^ e := by
  have hpos : 0 < q := lt_of_lt_of_le (zpow_pos (by norm_num) _) h1
  have habs : |q| = q := abs_of_pos hpos
  have hL : Int.log 2 |q| = e + 52 := by
    rw [habs]
    have a1 : e + 52 ≤ Int.log 2 q :=
      (Int.zpow_le_iff_le_log (by norm_num) hpos).mp (by exact_mod_cast h1)
    have a2 : Int.log 2 q < e + 52 + 1 :=
      (Int.lt_zpow_iff_log_lt (by norm_num) hpos).mp (by
        have : e + 52 + 1 = e + 53 := by ring
        rw [this]
        exact_mod_cast h2)
    omega
  unfold binary64
  rw [if_neg (ne_of_gt hpos), hL]
  have : e + 52 - 52 = e := by ring
  rw [this, hm]

/-- The quotient 110 / 96 in binary64: the ratio is not a binary64 number. -/
theorem fdiv_110_96 : fdiv 110 96 = 5160374573028693 / 4503599627370496 := by
  unfold fdiv
  rw [binary64_eval (110 / 96) (-52) 5160374573028693 (by norm_num) (by norm_num)
    (roundHalfEven_eq _ _ (by norm_num) (by norm_num))]
  norm_num

/-- The binary64 arithmetic at 110 DPI: 216 times the binary64 value of 110 / 96
lies just below 247.5 and is rounded to 247 by `std::round`, where the exact
product 247.5 would be rounded to 248. -/
theorem stdRound_fmul_216_at_110_dpi :
    stdRound (fmul 216 (fdiv 110 96)) = 247 ∧ stdRound ((216 : ℚ) * (110 / 96)) = 248 := by
  constructor
  · rw [fdiv_110_96]
    unfold fmul
    rw [binary64_eval (216 * (5160374573028693 / 4503599627370496)) (-45) 8708132091985919
      (by norm_num) (by norm_num) (roundHalfEven_eq _ _ (by norm_num) (by norm_num))]
    unfold stdRound
    rw [if_pos (by norm_num), Int.floor_eq_iff]
    constructor <;> norm_num
  · unfold stdRound
    rw [if_pos (by norm_num), Int.floor_eq_iff]
    constructor <;> norm_num

/-- The product with the ratio 1 of an integer below `2^53` is exact. -/
theorem fmul_int_one (z : ℤ) (hz : |z| < 2 ^ 53) : fmul (z : qreal) 1 = z := by
  unfold fmul
  rw [mul_one]
  exact binary64_intCast z hz

/-- The product of the ratio 1 with an integer below `2^53` is exact. -/
theorem fmul_one_int (z : ℤ) (hz : |z| < 2 ^ 53) : fmul 1 (z : qreal) = z := by
  unfold fmul
  rw [one_mul]
  exact binary64_intCast z hz

/-- A product of two `qreal` values that is an integer below `2^53` is exact. -/
theorem fmul_eq_int (a b : qreal) (z : ℤ) (h : a * b = z) (hz : |z| < 2 ^ 53) :
    fmul a b = z := by
  unfold fmul
  rw [h]
  exact binary64_intCast z hz

/-- A quotient of two `qreal` values that is an integer below `2^53` is exact. -/
theorem fdiv_eq_int (a b : qreal) (z : ℤ) (h : a / b = z) (hz : |z| < 2 ^ 53) :
    fdiv a b = z := by
  unfold fdiv
  rw [h]
  exact binary64_intCast z hz

theorem fdiv_96_96 : fdiv 96 96 = 1 := by
  simpa using fdiv_eq_int 96 96 1 (by norm_num) (by norm_num)

theorem fdiv_192_96 : fdiv 192 96 = 2 := by
  simpa using fdiv_eq_int 192 96 2 (by norm_num) (by norm_num)

theorem fdiv_144_96 : fdiv 144 96 = 3 / 2 := by
  unfold fdiv
  have e : (144 : qreal) / 96 = 3 / 2 := by norm_num
  rw [e]
  exact binary64_three_halves

theorem stdRound_intCast (z : ℤ) : stdRound (z : qreal) = z := by
  unfold stdRound
  split_ifs with h
  · rw [Int.floor_eq_iff]
    constructor <;> norm_num
  · rw [Int.ceil_eq_iff]
    constructor <;> norm_num

/-- At the ratio 1 the scaled rectangle of `isInSpecificAreas` is the rectangle
itself: the products are exact. -/
theorem isInSpecificAreas_one (x y : Int) (areas : List QRect)
    (hb : ∀ a ∈ areas, |a.x| < 2 ^ 53 ∧ |a.y| < 2 ^ 53 ∧ |a.width| < 2 ^ 53
      ∧ |a.height| < 2 ^ 53) :
    isInSpecificAreas x y areas 1 =
      areas.any (fun a => a.isValid
        && (QRect.ofXYWH a.x a.y a.width a.height).contains x y true) := by
  induction areas with
  | nil => rfl
  | cons a rest ih =>
    obtain ⟨h1, h2, h3, h4⟩ := hb a (List.mem_cons_self a rest)
    have ih2 := ih (fun b hmem => hb b (List.mem_cons_of_mem a hmem))
    unfold isInSpecificAreas
    rw [fmul_int_one _ h1, fmul_int_one _ h2, fmul_int_one _ h3, fmul_int_one _ h4,
      stdRound_intCast, stdRound_intCast, stdRound_intCast, stdRound_intCast, ih2,
      List.any_cons]
    cases a.isValid <;>
      cases (QRect.ofXYWH a.x a.y a.width a.height).contains x y true <;> simp

/-- The device pixel ratio of the example system (96 DPI, pass-through) is 1. -/
theorem exampleSystem_dpr (h : HWND) (hne : h ≠ 0) :
    getDevicePixelRatioForWindow exampleSystem h = 1 := by
  simp [getDevicePixelRatioForWindow, getPreferedNumber, exampleSystem,
    getDotsPerInchForWindow, m_defaultDotsPerInch, USER_DEFAULT_SCREEN_DPI, hne, fdiv_96_96]

/-- The device pixel ratio of the example system at 192 DPI is 2. -/
theorem hiDpiSystem_dpr (h : HWND) (hne : h ≠ 0) :
    getDevicePixelRatioForWindow hiDpiSystem h = 2 := by
  simp [getDevicePixelRatioForWindow, getPreferedNumber, hiDpiSystem, exampleSystem,
    getDotsPerInchForWindow, m_defaultDotsPerInch, USER_DEFAULT_SCREEN_DPI, hne, fdiv_192_96]

/-! ## Lemmas on the user data -/

theorem createUserData_isSome (sys : System) (ud : UserData) (h : HWND)
    (d : Option WINDOWDATA) (hne : h ≠ 0) : ∃ w, createUserData sys ud h d h = some w := by
  unfold createUserData
  rw [if_pos hne]
  cases hu : ud h with
  | none => simp
  | some w =>
    cases d with
    | none => simp [hu]
    | some d => simp

theorem createUserData_of_some (sys : System) (ud : UserData) (h : HWND) (w : WINDOW)
    (hu : ud h = some w) : createUserData sys ud h none = ud := by
  unfold createUserData
  split
  · simp [hu]
  · rfl

theorem windowDataOf_of_some (sys : System) (ud : UserData) (h : HWND) (w : WINDOW)
    (hu : ud h = some w) : windowDataOf sys ud h = w.windowData := by
  unfold windowDataOf
  rw [createUserData_of_some sys ud h w hu]
  simp [userDataOf, hu]

theorem windowDataOf_createUserData (sys : System) (ud : UserData) (h : HWND) (hne : h ≠ 0) :
    windowDataOf sys (createUserData sys ud h none) h = windowDataOf sys ud h := by
  obtain ⟨w, hw⟩ := createUserData_isSome sys ud h none hne
  rw [windowDataOf_of_some sys _ h w hw]
  simp [windowDataOf, userDataOf, hw]

/-! ## Lemmas on the sizes -/

theorem borderWidth_fst (g : Globals) (sys : System) (ud : UserData) (h : HWND) (w : WINDOW)
    (hu : ud h = some w) : (borderWidth g sys ud h).1 = ud := by
  unfold borderWidth
  simp only [createUserData_of_some sys ud h w hu, ite_self]
  split
  · rfl
  · split <;> rfl

theorem borderHeight_fst (g : Globals) (sys : System) (ud : UserData) (h : HWND) (w : WINDOW)
    (hu : ud h = some w) : (borderHeight g sys ud h).1 = ud := by
  unfold borderHeight
  simp only [createUserData_of_some sys ud h w hu, ite_self]
  split
  · rfl
  · split <;> rfl

theorem titlebarHeight_fst (g : Globals) (sys : System) (ud : UserData) (h : HWND) (w : WINDOW)
    (hu : ud h = some w) : (titlebarHeight g sys ud h).1 = ud := by
  unfold titlebarHeight
  simp only [createUserData_of_some sys ud h w hu, ite_self]
  split
  · rfl
  · split
    · rfl
    · exact borderHeight_fst g sys ud h w hu

theorem borderWidth_snd (g : Globals) (sys : System) (ud : UserData) (h : HWND) (hne : h ≠ 0) :
    (borderWidth g sys ud h).2 =
      if 0 < (windowDataOf sys ud h).borderWidth then
        stdRound (fmul ((windowDataOf sys ud h).borderWidth : qreal)
          (getDevicePixelRatioForWindow sys h))
      else if 0 < g.m_borderWidth then g.m_borderWidth
      else getSystemMetricsForWindow sys h SM_CXFRAME
        + getSystemMetricsForWindow sys h SM_CXPADDEDBORDER := by
  unfold borderWidth windowDataOf
  simp only [if_pos hne, hne, ne_eq, not_false_eq_true, true_and]
  split_ifs <;> rfl

theorem borderHeight_snd (g : Globals) (sys : System) (ud : UserData) (h : HWND) (hne : h ≠ 0) :
    (borderHeight g sys ud h).2 =
      if 0 < (windowDataOf sys ud h).borderHeight then
        stdRound (fmul ((windowDataOf sys ud h).borderHeight : qreal)
          (getDevicePixelRatioForWindow sys h))
      else if 0 < g.m_borderHeight then g.m_borderHeight
      else getSystemMetricsForWindow sys h SM_CYFRAME
        + getSystemMetricsForWindow sys h SM_CXPADDEDBORDER := by
  unfold borderHeight windowDataOf
  simp only [if_pos hne, hne, ne_eq, not_false_eq_true, true_and]
  split_ifs <;> rfl

theorem borderHeight_congr (g : Globals) (sys : System) (ud ud' : UserData) (h : HWND)
    (hne : h ≠ 0) (hwd : windowDataOf sys ud' h = windowDataOf sys ud h) :
    (borderHeight g sys ud' h).2 = (borderHeight g sys ud h).2 := by
  rw [borderHeight_snd g sys ud' h hne, borderHeight_snd g sys ud h hne, hwd]

theorem borderWidth_congr (g : Globals) (sys : System) (ud ud' : UserData) (h : HWND)
    (hne : h ≠ 0) (hwd : windowDataOf sys ud' h = windowDataOf sys ud h) :
    (borderWidth g sys ud' h).2 = (borderWidth g sys ud h).2 := by
  rw [borderWidth_snd g sys ud' h hne, borderWidth_snd g sys ud h hne, hwd]

theorem titlebarHeight_snd (g : Globals) (sys : System) (ud : UserData) (h : HWND)
    (hne : h ≠ 0) :
    (titlebarHeight g sys ud h).2 =
      if 0 < (windowDataOf sys ud h).titlebarHeight then
        stdRound (fmul ((windowDataOf sys ud h).titlebarHeight : qreal)
          (getDevicePixelRatioForWindow sys h))
      else if 0 < g.m_titlebarHeight then g.m_titlebarHeight
      else (borderHeight g sys ud h).2 + getSystemMetricsForWindow sys h SM_CYCAPTION := by
  have hb := borderHeight_congr g sys ud (createUserData sys ud h none) h hne
    (windowDataOf_createUserData sys ud h hne)
  unfold titlebarHeight windowDataOf
  simp only [if_pos hne, hne, ne_eq, not_false_eq_true, true_and]
  split_ifs <;> simp [hb]

theorem titlebarHeight_congr (g : Globals) (sys : System) (ud ud' : UserData) (h : HWND)
    (hne : h ≠ 0) (hwd : windowDataOf sys ud' h = windowDataOf sys ud h) :
    (titlebarHeight g sys ud' h).2 = (titlebarHeight g sys ud h).2 := by
  rw [titlebarHeight_snd g sys ud' h hne, titlebarHeight_snd g sys ud h hne, hwd,
    borderHeight_congr g sys ud ud' h hne hwd]

/-! ## Lemmas on the filter -/

theorem handleDwmCompositionChanged_windowData (sys : System) (d : WINDOW) :
    (handleDwmCompositionChanged sys d).1.windowData = d.windowData := by
  unfold handleDwmCompositionChanged
  dsimp only
  split_ifs <;> rfl

theorem firstMessageSetup_some (g : Globals) (sys : System) (ud : UserData) (h : HWND)
    (w : WINDOW) (hu : ud h = some w) :
    ∃ w2, (firstMessageSetup g sys ud h).1 h = some w2 ∧ w2.windowData = w.windowData := by
  unfold firstMessageSetup
  have hd : userDataOf sys ud h = w := by simp [userDataOf, hu]
  rw [hd]
  cases hi : w.initialized with
  | true => exact ⟨w, by simp [hi, hu], rfl⟩
  | false =>
    let d := (handleDwmCompositionChanged sys { w with initialized := true }).1
    have hup : Function.update ud h (some d) h = some d := by simp
    have h1 := borderWidth_fst g sys _ h d hup
    have h2 := borderHeight_fst g sys _ h d hup
    have h3 := titlebarHeight_fst g sys _ h d hup
    refine ⟨d, ?_, handleDwmCompositionChanged_windowData sys _⟩
    simp only [hi, Bool.not_false, if_true]
    show (titlebarHeight g sys (borderHeight g sys (borderWidth g sys
      (Function.update ud h (some d)) h).1 h).1 h).1 h = some d
    rw [h1, h2, h3, hup]

theorem getHTResult_fst (g : Globals) (sys : System) (ud : UserData) (h : HWND) (lp : Int)
    (d : WINDOW) (hu : ud h = some d) : (getHTResult g sys ud h lp d).1 = ud := by
  have h1 : borderWidth g sys ud h = (ud, (borderWidth g sys ud h).2) :=
    Prod.ext (borderWidth_fst g sys ud h d hu) rfl
  have h2 : borderHeight g sys ud h = (ud, (borderHeight g sys ud h).2) :=
    Prod.ext (borderHeight_fst g sys ud h d hu) rfl
  have h3 : titlebarHeight g sys ud h = (ud, (titlebarHeight g sys ud h).2) :=
    Prod.ext (titlebarHeight_fst g sys ud h d hu) rfl
  unfold getHTResult
  rw [h1]; dsimp only; rw [h2]; dsimp only; rw [h3]; dsimp only
  split_ifs <;> rfl

theorem getHTResult_snd (g : Globals) (sys : System) (ud : UserData) (h : HWND) (lp : Int)
    (d : WINDOW) (hu : ud h = some d) :
    (getHTResult g sys ud h lp d).2 =
      Spec.hitTestOfState (sys.IsMaximized h) d.windowData.fixedSize
        (sys.GetClientRect h).right (sys.GetClientRect h).bottom
        (borderWidth g sys ud h).2 (borderHeight g sys ud h).2
        (sys.ScreenToClient h ⟨GET_X_LPARAM lp, GET_Y_LPARAM lp⟩).x
        (sys.ScreenToClient h ⟨GET_X_LPARAM lp, GET_Y_LPARAM lp⟩).y
        (Spec.titlebarCondition (sys.GetClientRect h).right (sys.GetClientRect h).bottom
          (titlebarHeight g sys ud h).2 d.windowData (getDevicePixelRatioForWindow sys h)
          (sys.ScreenToClient h ⟨GET_X_LPARAM lp, GET_Y_LPARAM lp⟩).x
          (sys.ScreenToClient h ⟨GET_X_LPARAM lp, GET_Y_LPARAM lp⟩).y) := by
  have h1 : borderWidth g sys ud h = (ud, (borderWidth g sys ud h).2) :=
    Prod.ext (borderWidth_fst g sys ud h d hu) rfl
  have h2 : borderHeight g sys ud h = (ud, (borderHeight g sys ud h).2) :=
    Prod.ext (borderHeight_fst g sys ud h d hu) rfl
  have h3 : titlebarHeight g sys ud h = (ud, (titlebarHeight g sys ud h).2) :=
    Prod.ext (titlebarHeight_fst g sys ud h d hu) rfl
  unfold getHTResult
  rw [h1]; dsimp only; rw [h2]; dsimp only; rw [h3]; dsimp only
  generalize (borderWidth g sys ud h).2 = bw
  generalize (borderHeight g sys ud h).2 = bh
  generalize (titlebarHeight g sys ud h).2 = tbh
  generalize (sys.ScreenToClient h ⟨GET_X_LPARAM lp, GET_Y_LPARAM lp⟩) = p
  generalize (sys.GetClientRect h) = cr
  generalize getDevicePixelRatioForWindow sys h = dpr
  unfold Spec.hitTestOfState Spec.titlebarCondition Spec.hitTest Spec.insideClient
  generalize isInSpecificAreas p.x p.y d.windowData.ignoreAreas dpr = ia
  generalize isInSpecificAreas p.x p.y d.windowData.draggableAreas dpr = da
  generalize d.windowData.draggableAreas.isEmpty = de
  generalize sys.IsMaximized h = mx
  generalize d.windowData.fixedSize = fx
  have hin : (decide (p.x > 0) && decide (p.x < cr.right) && decide (p.y > 0)
      && decide (p.y < cr.bottom)) = decide (0 < p.x ∧ p.x < cr.right ∧ 0 < p.y ∧ p.y < cr.bottom) := by
    by_cases a1 : 0 < p.x <;> by_cases a2 : p.x < cr.right <;> by_cases a3 : 0 < p.y <;>
      by_cases a4 : p.y < cr.bottom <;> simp [a1, a2, a3, a4]
  rw [hin]
  by_cases hI : (0 < p.x ∧ p.x < cr.right ∧ 0 < p.y ∧ p.y < cr.bottom)
  · have hd : decide (0 < p.x ∧ p.x < cr.right ∧ 0 < p.y ∧ p.y < cr.bottom) = true :=
      decide_eq_true hI
    rw [hd, if_pos hI]
    simp only [Bool.true_and]
    by_cases ht : p.y < bh <;> by_cases hb : p.y > cr.bottom - bh <;>
      cases mx <;> cases fx <;> cases de <;> simp [ht, hb, mul_comm] <;> split_ifs <;> rfl
  · have hd : decide (0 < p.x ∧ p.x < cr.right ∧ 0 < p.y ∧ p.y < cr.bottom) = false :=
      decide_eq_false hI
    rw [hd, if_neg hI]
    cases mx <;> cases fx <;> simp

theorem accepts_hwnd_ne_zero (g : Globals) (sys : System) (msg : MSG)
    (hacc : accepts g sys msg = true) : msg.hwnd ≠ 0 := by
  intro h0
  simp [accepts, h0] at hacc

/-- The user data an accepted message is handled with: the window's `WINDOW`
exists after `createUserData` and the first-message block, and carries the
window data the call started with. -/
theorem processed_userData (g : Globals) (sys : System) (ud : UserData) (h : HWND)
    (hne : h ≠ 0) :
    ∃ w2, (firstMessageSetup g sys (createUserData sys ud h none) h).1 h = some w2
      ∧ w2.windowData = windowDataOf sys ud h := by
  obtain ⟨w1, hw1⟩ := createUserData_isSome sys ud h none hne
  obtain ⟨w2, hw2, hwd⟩ := firstMessageSetup_some g sys _ h w1 hw1
  refine ⟨w2, hw2, ?_⟩
  rw [hwd]
  simp [windowDataOf, userDataOf, hw1]

/-- The `WM_NCHITTEST` case of the filter for a window that is not mouse
transparent, in terms of `Spec.hitTestOfState`. -/
theorem nativeEventFilter_hitTest (g : Globals) (sys : System) (ud : UserData) (msg : MSG)
    (mem : Pointee) (hacc : accepts g sys msg = true) (hmsg : msg.message = WM_NCHITTEST)
    (hT : (windowDataOf sys ud msg.hwnd).mouseTransparent = false) :
    (nativeEventFilter g sys ud msg mem).ret = true ∧
    (nativeEventFilter g sys ud msg mem).result =
      some (Spec.hitTestOfState (sys.IsMaximized msg.hwnd)
        (windowDataOf sys ud msg.hwnd).fixedSize
        (sys.GetClientRect msg.hwnd).right (sys.GetClientRect msg.hwnd).bottom
        (borderWidth g sys ud msg.hwnd).2 (borderHeight g sys ud msg.hwnd).2
        (clientMouse sys msg).x (clientMouse sys msg).y
        (Spec.titlebarCondition (sys.GetClientRect msg.hwnd).right
          (sys.GetClientRect msg.hwnd).bottom (titlebarHeight g sys ud msg.hwnd).2
          (windowDataOf sys ud msg.hwnd) (getDevicePixelRatioForWindow sys msg.hwnd)
          (clientMouse sys msg).x (clientMouse sys msg).y)) := by
  have hne := accepts_hwnd_ne_zero g sys msg hacc
  obtain ⟨w2, hw2, hwd⟩ := processed_userData g sys ud msg.hwnd hne
  have hwd2 : windowDataOf sys (firstMessageSetup g sys (createUserData sys ud msg.hwnd none)
      msg.hwnd).1 msg.hwnd = windowDataOf sys ud msg.hwnd := by
    rw [windowDataOf_of_some sys _ msg.hwnd w2 hw2, hwd]
  have hsnd := getHTResult_snd g sys _ msg.hwnd msg.lParam w2 hw2
  rw [borderWidth_congr g sys ud _ msg.hwnd hne hwd2,
    borderHeight_congr g sys ud _ msg.hwnd hne hwd2,
    titlebarHeight_congr g sys ud _ msg.hwnd hne hwd2, hwd] at hsnd
  have hdata : userDataOf sys (firstMessageSetup g sys (createUserData sys ud msg.hwnd none)
      msg.hwnd).1 msg.hwnd = w2 := by simp [userDataOf, hw2]
  have hT2 : w2.windowData.mouseTransparent = false := by rw [hwd]; exact hT
  unfold nativeEventFilter
  simp only [hacc, Bool.not_true, Bool.false_eq_true, if_false, hmsg, hdata, hT2]
  simp only [WM_NCHITTEST, WM_NCCALCSIZE, WM_NCUAHDRAWCAPTION, WM_NCUAHDRAWFRAME, WM_NCPAINT,
    WM_NCACTIVATE]
  norm_num
  exact hsnd

/-- The `WM_NCHITTEST` case of the filter for a mouse-transparent window. -/
theorem nativeEventFilter_hitTest_transparent (g : Globals) (sys : System) (ud : UserData)
    (msg : MSG) (mem : Pointee) (hacc : accepts g sys msg = true)
    (hmsg : msg.message = WM_NCHITTEST)
    (hT : (windowDataOf sys ud msg.hwnd).mouseTransparent = true) :
    (nativeEventFilter g sys ud msg mem).result = some HTTRANSPARENT ∧
    (nativeEventFilter g sys ud msg mem).ret = true := by
  have hne := accepts_hwnd_ne_zero g sys msg hacc
  obtain ⟨w2, hw2, hwd⟩ := processed_userData g sys ud msg.hwnd hne
  have hdata : userDataOf sys (firstMessageSetup g sys (createUserData sys ud msg.hwnd none)
      msg.hwnd).1 msg.hwnd = w2 := by simp [userDataOf, hw2]
  have hT2 : w2.windowData.mouseTransparent = true := by rw [hwd]; exact hT
  unfold nativeEventFilter
  simp only [hacc, Bool.not_true, Bool.false_eq_true, if_false, hmsg, hdata, hT2]
  simp only [WM_NCHITTEST, WM_NCCALCSIZE, WM_NCUAHDRAWCAPTION, WM_NCUAHDRAWFRAME, WM_NCPAINT,
    WM_NCACTIVATE]
  norm_num

/-! ## Lemmas on the areas and on the hit-test codes -/

theorem QRect.contains_proper_iff (r : QRect) (px py : Int) :
    r.contains px py true = true ↔ Spec.strictlyInside r px py := by
  unfold QRect.contains Spec.strictlyInside
  simp only [if_true, Bool.or_eq_true, decide_eq_true_eq, ge_iff_le]
  constructor
  · intro h
    split_ifs at h <;> omega
  · intro h
    split_ifs <;> first | rfl | (exfalso; omega)

theorem isInSpecificAreas_iff (x y : Int) (areas : List QRect) (dpr : qreal) :
    isInSpecificAreas x y areas dpr = true ↔
      ∃ area ∈ areas, area.isValid = true ∧ Spec.strictlyInside (Spec.scaled area dpr) x y := by
  induction areas with
  | nil => simp [isInSpecificAreas]
  | cons a rest ih =>
    unfold isInSpecificAreas
    have hc := QRect.contains_proper_iff (Spec.scaled a dpr) x y
    unfold Spec.scaled at hc
    by_cases hv : a.isValid = true
    · by_cases hin : Spec.strictlyInside (Spec.scaled a dpr) x y
      · have := hc.mpr hin
        simp only [hv, Bool.not_true, Bool.false_eq_true, if_false, this, if_true, true_iff]
        exact ⟨a, List.mem_cons_self _ _, hv, hin⟩
      · have hf : (QRect.ofXYWH (stdRound (fmul (a.x : qreal) dpr)) (stdRound (fmul (a.y : qreal) dpr))
            (stdRound (fmul (a.width : qreal) dpr))
            (stdRound (fmul (a.height : qreal) dpr))).contains x y true = false := by
          cases hb : (QRect.ofXYWH (stdRound (fmul (a.x : qreal) dpr)) (stdRound (fmul (a.y : qreal) dpr))
            (stdRound (fmul (a.width : qreal) dpr))
            (stdRound (fmul (a.height : qreal) dpr))).contains x y true with
          | false => rfl
          | true => exact absurd (hc.mp hb) hin
        simp only [hv, Bool.not_true, Bool.false_eq_true, if_false, hf, ih]
        constructor
        · rintro ⟨b, hb, hbv, hbin⟩
          exact ⟨b, List.mem_cons_of_mem _ hb, hbv, hbin⟩
        · rintro ⟨b, hb, hbv, hbin⟩
          rcases List.mem_cons.mp hb with rfl | hb'
          · exact absurd hbin hin
          · exact ⟨b, hb', hbv, hbin⟩
    · have hv' : a.isValid = false := by simpa using hv
      simp only [hv', Bool.not_false, if_true, ih]
      constructor
      · rintro ⟨b, hb, hbv, hbin⟩
        exact ⟨b, List.mem_cons_of_mem _ hb, hbv, hbin⟩
      · rintro ⟨b, hb, hbv, hbin⟩
        rcases List.mem_cons.mp hb with rfl | hb'
        · rw [hv'] at hbv; exact absurd hbv (by simp)
        · exact ⟨b, hb', hbv, hbin⟩

theorem strictlyInside_of_strictlyInsideScaled (area : QRect) (dpr : qreal) (px py : Int)
    (h : Spec.strictlyInsideScaled area dpr px py) :
    Spec.strictlyInside (Spec.scaled area dpr) px py := by
  unfold Spec.strictlyInsideScaled at h
  unfold Spec.strictlyInside Spec.scaled QRect.ofXYWH
  simp only
  omega

theorem hitTest_titlebar_indep (ww wh bw bh x y : Int) (t t' : Bool)
    (h : Spec.isResizeCode (Spec.hitTest ww wh bw bh x y t)) :
    Spec.hitTest ww wh bw bh x y t' = Spec.hitTest ww wh bw bh x y t := by
  unfold Spec.hitTest at h ⊢
  unfold Spec.isResizeCode at h
  simp only [HTLEFT, HTRIGHT, HTTOP, HTTOPLEFT, HTTOPRIGHT, HTBOTTOM, HTBOTTOMLEFT, HTBOTTOMRIGHT,
    HTCAPTION, HTCLIENT] at h ⊢
  split_ifs at h ⊢ <;> first | rfl | (exfalso; revert h; decide)

theorem hitTestOfState_no_titlebar (mx fx : Bool) (ww wh bw bh x y : Int) :
    Spec.hitTestOfState mx fx ww wh bw bh x y false ≠ HTCAPTION := by
  unfold Spec.hitTestOfState Spec.hitTest
  simp only [HTLEFT, HTRIGHT, HTTOP, HTTOPLEFT, HTTOPRIGHT, HTBOTTOM, HTBOTTOMLEFT, HTBOTTOMRIGHT,
    HTCAPTION, HTCLIENT, HTBORDER]
  split_ifs <;> first | decide | contradiction

/-! ## The hit test (`WM_NCHITTEST`) -/

/-- C1: `WM_NCHITTEST` on a window that is not mouse transparent, not maximized
and not of fixed size returns true and writes the code of `Spec.hitTest`: for a
point strictly inside the client rectangle the top band, the bottom band (both
with corner zones twice the border width wide), the left edge, the right edge,
then `HTCAPTION` under the title-bar condition, else `HTCLIENT`; for a point
not strictly inside, `HTCLIENT`. A resize code is the same for every other
window configuration with the same border sizes, whatever its title-bar height,
ignore areas and draggable areas. -/
theorem C1_hit_test_resizable (g : Globals) (sys : System) (ud : UserData) (msg : MSG)
    (mem : Pointee) (hacc : accepts g sys msg = true) (hmsg : msg.message = WM_NCHITTEST)
    (hT : (windowDataOf sys ud msg.hwnd).mouseTransparent = false)
    (hM : sys.IsMaximized msg.hwnd = false)
    (hF : (windowDataOf sys ud msg.hwnd).fixedSize = false) :
    (nativeEventFilter g sys ud msg mem).ret = true ∧
    (nativeEventFilter g sys ud msg mem).result =
      some (Spec.hitTest (sys.GetClientRect msg.hwnd).right (sys.GetClientRect msg.hwnd).bottom
        (borderWidth g sys ud msg.hwnd).2 (borderHeight g sys ud msg.hwnd).2
        (clientMouse sys msg).x (clientMouse sys msg).y
        (Spec.titlebarCondition (sys.GetClientRect msg.hwnd).right
          (sys.GetClientRect msg.hwnd).bottom (titlebarHeight g sys ud msg.hwnd).2
          (windowDataOf sys ud msg.hwnd) (getDevicePixelRatioForWindow sys msg.hwnd)
          (clientMouse sys msg).x (clientMouse sys msg).y)) ∧
    (¬ Spec.insideClient (sys.GetClientRect msg.hwnd).right (sys.GetClientRect msg.hwnd).bottom
        (clientMouse sys msg).x (clientMouse sys msg).y →
      (nativeEventFilter g sys ud msg mem).result = some HTCLIENT) ∧
    (∀ (g' : Globals) (ud' : UserData) (c : Int),
      accepts g' sys msg = true →
      (windowDataOf sys ud' msg.hwnd).mouseTransparent = false →
      (windowDataOf sys ud' msg.hwnd).fixedSize = false →
      (windowDataOf sys ud' msg.hwnd).borderWidth = (windowDataOf sys ud msg.hwnd).borderWidth →
      (windowDataOf sys ud' msg.hwnd).borderHeight = (windowDataOf sys ud msg.hwnd).borderHeight →
      g'.m_borderWidth = g.m_borderWidth → g'.m_borderHeight = g.m_borderHeight →
      Spec.isResizeCode c →
      (nativeEventFilter g sys ud msg mem).result = some c →
      (nativeEventFilter g' sys ud' msg mem).result = some c) := by
  have hne := accepts_hwnd_ne_zero g sys msg hacc
  obtain ⟨hret, hres⟩ := nativeEventFilter_hitTest g sys ud msg mem hacc hmsg hT
  rw [hM, hF] at hres
  simp only [Spec.hitTestOfState, Bool.false_eq_true, if_false] at hres
  refine ⟨hret, hres, ?_, ?_⟩
  · intro hout
    rw [hres]
    unfold Spec.hitTest
    rw [if_neg hout]
  · intro g' ud' c hacc' hT' hF' hbw hbh hgw hgh hc hr
    obtain ⟨_, hres'⟩ := nativeEventFilter_hitTest g' sys ud' msg mem hacc' hmsg hT'
    rw [hM, hF'] at hres'
    simp only [Spec.hitTestOfState, Bool.false_eq_true, if_false] at hres'
    have e1 : (borderWidth g' sys ud' msg.hwnd).2 = (borderWidth g sys ud msg.hwnd).2 := by
      rw [borderWidth_snd g' sys ud' msg.hwnd hne, borderWidth_snd g sys ud msg.hwnd hne,
        hbw, hgw]
    have e2 : (borderHeight g' sys ud' msg.hwnd).2 = (borderHeight g sys ud msg.hwnd).2 := by
      rw [borderHeight_snd g' sys ud' msg.hwnd hne, borderHeight_snd g sys ud msg.hwnd hne,
        hbh, hgh]
    rw [hres] at hr
    have hr' := Option.some.inj hr
    rw [hres', e1, e2, ← hr']
    congr 1
    apply hitTest_titlebar_indep
    rw [hr']
    exact hc

/-- Witness of C1: window 5 of the example, with the mouse at (3, 3). -/
theorem C1_hit_test_resizable_witness :
    (nativeEventFilter exampleGlobals exampleSystem noUserData (hitTestMsg 3 3)
        examplePointee).result = some HTTOPLEFT :=
  have h := C1_hit_test_resizable exampleGlobals exampleSystem noUserData (hitTestMsg 3 3)
    examplePointee (by decide) (by decide) (by decide) (by decide) (by decide)
  h.2.1.trans (by decide)

/-- C6: on a window that is not mouse transparent, a mouse point strictly
inside a valid ignore area (its x, y, width and height each multiplied by the
device pixel ratio, in binary64 as the source multiplies, and rounded) never
gets `HTCAPTION` from `WM_NCHITTEST`, whatever the window state and the
draggable areas. -/
theorem C6_ignore_areas_exclude_titlebar (g : Globals) (sys : System) (ud : UserData)
    (msg : MSG) (mem : Pointee) (hacc : accepts g sys msg = true)
    (hmsg : msg.message = WM_NCHITTEST)
    (hT : (windowDataOf sys ud msg.hwnd).mouseTransparent = false)
    (area : QRect) (hmem : area ∈ (windowDataOf sys ud msg.hwnd).ignoreAreas)
    (hvalid : area.isValid = true)
    (hin : Spec.strictlyInsideScaled area (getDevicePixelRatioForWindow sys msg.hwnd)
      (clientMouse sys msg).x (clientMouse sys msg).y) :
    (nativeEventFilter g sys ud msg mem).result ≠ some HTCAPTION := by
  obtain ⟨_, hres⟩ := nativeEventFilter_hitTest g sys ud msg mem hacc hmsg hT
  have hia : isInSpecificAreas (clientMouse sys msg).x (clientMouse sys msg).y
      (windowDataOf sys ud msg.hwnd).ignoreAreas (getDevicePixelRatioForWindow sys msg.hwnd)
      = true :=
    (isInSpecificAreas_iff _ _ _ _).mpr
      ⟨area, hmem, hvalid, strictlyInside_of_strictlyInsideScaled _ _ _ _ hin⟩
  have htb : Spec.titlebarCondition (sys.GetClientRect msg.hwnd).right
      (sys.GetClientRect msg.hwnd).bottom (titlebarHeight g sys ud msg.hwnd).2
      (windowDataOf sys ud msg.hwnd) (getDevicePixelRatioForWindow sys msg.hwnd)
      (clientMouse sys msg).x (clientMouse sys msg).y = false := by
    unfold Spec.titlebarCondition
    rw [hia]
    simp
  rw [hres, htb]
  intro h
  exact hitTestOfState_no_titlebar _ _ _ _ _ _ _ _ (Option.some.inj h)

/-- Witness of C6: the mouse at (710, 10) is on the button at 96 DPI. -/
theorem C6_ignore_areas_exclude_titlebar_witness :
    (nativeEventFilter exampleGlobals exampleSystem (userDataWith ignoreButtonData)
        (hitTestMsg 710 10) examplePointee).result ≠ some HTCAPTION :=
  C6_ignore_areas_exclude_titlebar exampleGlobals exampleSystem (userDataWith ignoreButtonData)
    (hitTestMsg 710 10) examplePointee (by decide) (by decide) (by decide)
    (QRect.ofXYWH 700 1 60 20) (by decide) (by decide)
    (by
      rw [exampleSystem_dpr _ (by decide)]
      have hx : (clientMouse exampleSystem (hitTestMsg 710 10)).x = 710 := by decide
      have hy : (clientMouse exampleSystem (hitTestMsg 710 10)).y = 10 := by decide
      rw [hx, hy]
      have h1 : fmul 700 1 = 700 := by simpa using fmul_int_one 700 (by norm_num)
      have h2 : fmul 1 1 = 1 := by simpa using fmul_int_one 1 (by norm_num)
      have h3 : fmul 60 1 = 60 := by simpa using fmul_int_one 60 (by norm_num)
      have h4 : fmul 20 1 = 20 := by simpa using fmul_int_one 20 (by norm_num)
      norm_num [Spec.strictlyInsideScaled, stdRound, QRect.ofXYWH, QRect.x, QRect.y, QRect.width,
        QRect.height, h1, h2, h3, h4])

/-- C9: a mouse-transparent window answers `WM_NCHITTEST` with
`HTTRANSPARENT` and the filter returns true, for every mouse position and
every other window state. -/
theorem C9_mouse_transparent (g : Globals) (sys : System) (ud : UserData) (msg : MSG)
    (mem : Pointee) (hacc : accepts g sys msg = true) (hmsg : msg.message = WM_NCHITTEST)
    (hT : (windowDataOf sys ud msg.hwnd).mouseTransparent = true) :
    (nativeEventFilter g sys ud msg mem).result = some HTTRANSPARENT ∧
    (nativeEventFilter g sys ud msg mem).ret = true :=
  nativeEventFilter_hitTest_transparent g sys ud msg mem hacc hmsg hT

/-- Witness of C9: a maximized, fixed-size, mouse-transparent window 5. -/
theorem C9_mouse_transparent_witness :
    (nativeEventFilter exampleGlobals maximizedSystem (userDataWith transparentData)
        (hitTestMsg 3 3) examplePointee).result = some HTTRANSPARENT ∧
    (nativeEventFilter exampleGlobals maximizedSystem (userDataWith transparentData)
        (hitTestMsg 3 3) examplePointee).ret = true :=
  C9_mouse_transparent exampleGlobals maximizedSystem (userDataWith transparentData)
    (hitTestMsg 3 3) examplePointee (by decide) (by decide) (by decide)

/-- C10: a maximized window that is not mouse transparent answers
`WM_NCHITTEST` with `HTCAPTION` under the title-bar condition and `HTCLIENT`
otherwise, so never with a resize code and never with `HTBORDER`, whether or
not it is of fixed size. -/
theorem C10_maximized_not_resizable (g : Globals) (sys : System) (ud : UserData) (msg : MSG)
    (mem : Pointee) (hacc : accepts g sys msg = true) (hmsg : msg.message = WM_NCHITTEST)
    (hT : (windowDataOf sys ud msg.hwnd).mouseTransparent = false)
    (hM : sys.IsMaximized msg.hwnd = true) :
    (nativeEventFilter g sys ud msg mem).ret = true ∧
    (nativeEventFilter g sys ud msg mem).result =
      some (if Spec.titlebarCondition (sys.GetClientRect msg.hwnd).right
          (sys.GetClientRect msg.hwnd).bottom (titlebarHeight g sys ud msg.hwnd).2
          (windowDataOf sys ud msg.hwnd) (getDevicePixelRatioForWindow sys msg.hwnd)
          (clientMouse sys msg).x (clientMouse sys msg).y = true then HTCAPTION else HTCLIENT) ∧
    (∀ c, (nativeEventFilter g sys ud msg mem).result = some c →
      ¬ Spec.isResizeCode c ∧ c ≠ HTBORDER) := by
  obtain ⟨hret, hres⟩ := nativeEventFilter_hitTest g sys ud msg mem hacc hmsg hT
  rw [hM] at hres
  simp only [Spec.hitTestOfState, if_true] at hres
  refine ⟨hret, hres, ?_⟩
  intro c hc
  rw [hres] at hc
  have hc' := Option.some.inj hc
  split_ifs at hc' <;> subst hc' <;> exact ⟨by unfold Spec.isResizeCode; decide, by decide⟩

/-- Witness of C10: a maximized fixed-size window with the mouse at (3, 300). -/
theorem C10_maximized_not_resizable_witness :
    (nativeEventFilter exampleGlobals maximizedSystem (userDataWith fixedSizeData)
        (hitTestMsg 3 300) examplePointee).result = some HTCLIENT :=
  have h := C10_maximized_not_resizable exampleGlobals maximizedSystem
    (userDataWith fixedSizeData) (hitTestMsg 3 300) examplePointee (by decide) (by decide)
    (by decide) (by decide)
  h.2.1.trans (by decide)

/-- C7, counterexample: window 5 is mouse transparent and has no draggable
area; the point (400, 10) is strictly inside the client rectangle, above the
title-bar height, in no ignore area and in no resize zone, and the hit test is
`HTTRANSPARENT`, not `HTCAPTION`. -/
theorem C7_counterexample :
    (windowDataOf exampleSystem (userDataWith transparentOnlyData) 5).draggableAreas = [] ∧
    Spec.insideClient 800 600 400 10 ∧
    (clientMouse exampleSystem (hitTestMsg 400 10)) = ⟨400, 10⟩ ∧
    exampleSystem.GetClientRect 5 = ⟨0, 0, 800, 600⟩ ∧
    (10 : Int) < (titlebarHeight exampleGlobals exampleSystem
      (userDataWith transparentOnlyData) 5).2 ∧
    (windowDataOf exampleSystem (userDataWith transparentOnlyData) 5).ignoreAreas = [] ∧
    ¬ Spec.inResizeZone 800 600
      (borderWidth exampleGlobals exampleSystem (userDataWith transparentOnlyData) 5).2
      (borderHeight exampleGlobals exampleSystem (userDataWith transparentOnlyData) 5).2 400 10 ∧
    (nativeEventFilter exampleGlobals exampleSystem (userDataWith transparentOnlyData)
        (hitTestMsg 400 10) examplePointee).result = some HTTRANSPARENT ∧
    (nativeEventFilter exampleGlobals exampleSystem (userDataWith transparentOnlyData)
        (hitTestMsg 400 10) examplePointee).result ≠ some HTCAPTION := by
  decide

/-- C7, amended: with draggable areas, `WM_NCHITTEST` returns `HTCAPTION` only
for a point strictly inside the client rectangle, above the title-bar height
and strictly inside a valid draggable area scaled by the device pixel ratio
(x, y, width and height each multiplied by it in binary64 and rounded);
without draggable areas, on a window that is not mouse transparent, every
point strictly inside the client rectangle, above the title-bar height, in no
ignore area and in no resize zone gets `HTCAPTION`. -/
theorem C7_draggable_areas_amended (g : Globals) (sys : System) (ud : UserData) (msg : MSG)
    (mem : Pointee) (hacc : accepts g sys msg = true) (hmsg : msg.message = WM_NCHITTEST) :
    ((windowDataOf sys ud msg.hwnd).draggableAreas ≠ [] →
      (nativeEventFilter g sys ud msg mem).result = some HTCAPTION →
      Spec.insideClient (sys.GetClientRect msg.hwnd).right (sys.GetClientRect msg.hwnd).bottom
        (clientMouse sys msg).x (clientMouse sys msg).y ∧
      (clientMouse sys msg).y < (titlebarHeight g sys ud msg.hwnd).2 ∧
      ∃ area ∈ (windowDataOf sys ud msg.hwnd).draggableAreas, area.isValid = true ∧
        Spec.strictlyInside (Spec.scaled area (getDevicePixelRatioForWindow sys msg.hwnd))
          (clientMouse sys msg).x (clientMouse sys msg).y) ∧
    ((windowDataOf sys ud msg.hwnd).draggableAreas = [] →
      (windowDataOf sys ud msg.hwnd).mouseTransparent = false →
      Spec.insideClient (sys.GetClientRect msg.hwnd).right (sys.GetClientRect msg.hwnd).bottom
        (clientMouse sys msg).x (clientMouse sys msg).y →
      (clientMouse sys msg).y < (titlebarHeight g sys ud msg.hwnd).2 →
      (∀ area ∈ (windowDataOf sys ud msg.hwnd).ignoreAreas, area.isValid = true →
        ¬ Spec.strictlyInside (Spec.scaled area (getDevicePixelRatioForWindow sys msg.hwnd))
          (clientMouse sys msg).x (clientMouse sys msg).y) →
      ¬ Spec.inResizeZone (sys.GetClientRect msg.hwnd).right (sys.GetClientRect msg.hwnd).bottom
        (borderWidth g sys ud msg.hwnd).2 (borderHeight g sys ud msg.hwnd).2
        (clientMouse sys msg).x (clientMouse sys msg).y →
      (nativeEventFilter g sys ud msg mem).result = some HTCAPTION) := by
  constructor
  · intro hd hr
    cases hT : (windowDataOf sys ud msg.hwnd).mouseTransparent with
    | true =>
      have h := (nativeEventFilter_hitTest_transparent g sys ud msg mem hacc hmsg hT).1
      rw [h] at hr
      exact absurd (Option.some.inj hr) (by decide)
    | false =>
      obtain ⟨_, hres⟩ := nativeEventFilter_hitTest g sys ud msg mem hacc hmsg hT
      rw [hres] at hr
      have hr' := Option.some.inj hr
      cases htb : Spec.titlebarCondition (sys.GetClientRect msg.hwnd).right
          (sys.GetClientRect msg.hwnd).bottom (titlebarHeight g sys ud msg.hwnd).2
          (windowDataOf sys ud msg.hwnd) (getDevicePixelRatioForWindow sys msg.hwnd)
          (clientMouse sys msg).x (clientMouse sys msg).y with
      | false =>
        rw [htb] at hr'
        exact absurd hr' (hitTestOfState_no_titlebar _ _ _ _ _ _ _ _)
      | true =>
        unfold Spec.titlebarCondition at htb
        have hne : (windowDataOf sys ud msg.hwnd).draggableAreas.isEmpty = false := by
          cases hl : (windowDataOf sys ud msg.hwnd).draggableAreas with
          | nil => exact absurd hl hd
          | cons a r => rfl
        rw [hne] at htb
        simp only [Bool.false_or, Bool.and_eq_true, decide_eq_true_eq] at htb
        obtain ⟨⟨⟨hin, hy⟩, _⟩, hda⟩ := htb
        exact ⟨hin, hy, (isInSpecificAreas_iff _ _ _ _).mp hda⟩
  · intro hd hT hin hy hign hzone
    obtain ⟨_, hres⟩ := nativeEventFilter_hitTest g sys ud msg mem hacc hmsg hT
    have hia : isInSpecificAreas (clientMouse sys msg).x (clientMouse sys msg).y
        (windowDataOf sys ud msg.hwnd).ignoreAreas (getDevicePixelRatioForWindow sys msg.hwnd)
        = false := by
      cases hb : isInSpecificAreas (clientMouse sys msg).x (clientMouse sys msg).y
        (windowDataOf sys ud msg.hwnd).ignoreAreas (getDevicePixelRatioForWindow sys msg.hwnd) with
      | false => rfl
      | true =>
        obtain ⟨a, ha, hv, hs⟩ := (isInSpecificAreas_iff _ _ _ _).mp hb
        exact absurd hs (hign a ha hv)
    have htb : Spec.titlebarCondition (sys.GetClientRect msg.hwnd).right
        (sys.GetClientRect msg.hwnd).bottom (titlebarHeight g sys ud msg.hwnd).2
        (windowDataOf sys ud msg.hwnd) (getDevicePixelRatioForWindow sys msg.hwnd)
        (clientMouse sys msg).x (clientMouse sys msg).y = true := by
      unfold Spec.titlebarCondition
      rw [hia, hd]
      simp [hin, hy]
    rw [hres, htb]
    congr 1
    unfold Spec.inResizeZone at hzone
    have hz : ¬ ((clientMouse sys msg).y < (borderHeight g sys ud msg.hwnd).2
        ∨ (clientMouse sys msg).y > (sys.GetClientRect msg.hwnd).bottom
            - (borderHeight g sys ud msg.hwnd).2
        ∨ (clientMouse sys msg).x < (borderWidth g sys ud msg.hwnd).2
        ∨ (clientMouse sys msg).x > (sys.GetClientRect msg.hwnd).right
            - (borderWidth g sys ud msg.hwnd).2) := fun h => hzone ⟨hin, h⟩
    unfold Spec.hitTestOfState Spec.hitTest
    rw [if_pos hin]
    have e1 : decide ((clientMouse sys msg).y < (borderHeight g sys ud msg.hwnd).2) = false :=
      decide_eq_false (fun h => hz (Or.inl h))
    have e2 : decide ((clientMouse sys msg).y > (sys.GetClientRect msg.hwnd).bottom
        - (borderHeight g sys ud msg.hwnd).2) = false :=
      decide_eq_false (fun h => hz (Or.inr (Or.inl h)))
    have e3 : decide ((clientMouse sys msg).x < 1 * (borderWidth g sys ud msg.hwnd).2) = false :=
      decide_eq_false (fun h => hz (Or.inr (Or.inr (Or.inl (by omega)))))
    have e4 : decide ((clientMouse sys msg).x > (sys.GetClientRect msg.hwnd).right
        - 1 * (borderWidth g sys ud msg.hwnd).2) = false :=
      decide_eq_false (fun h => hz (Or.inr (Or.inr (Or.inr (by omega)))))
    simp only [e1, e2, Bool.or_self, Bool.false_eq_true, if_false, e3, e4, if_true]
    split_ifs <;> rfl

/-- Witness of C7, amended: window 5 at 96 DPI with the mouse at (400, 10). With
the strip of the title bar as its draggable area (and the button as ignore
area) the hit test is `HTCAPTION`, and the point is strictly inside that
draggable area; with nothing configured the hit test is `HTCAPTION` as well. -/
theorem C7_draggable_areas_amended_witness :
    (Spec.insideClient (exampleSystem.GetClientRect (hitTestMsg 400 10).hwnd).right
        (exampleSystem.GetClientRect (hitTestMsg 400 10).hwnd).bottom
        (clientMouse exampleSystem (hitTestMsg 400 10)).x
        (clientMouse exampleSystem (hitTestMsg 400 10)).y ∧
      (clientMouse exampleSystem (hitTestMsg 400 10)).y
        < (titlebarHeight exampleGlobals exampleSystem (userDataWith ignoreButtonData)
            (hitTestMsg 400 10).hwnd).2 ∧
      ∃ area ∈ (windowDataOf exampleSystem (userDataWith ignoreButtonData)
          (hitTestMsg 400 10).hwnd).draggableAreas, area.isValid = true ∧
        Spec.strictlyInside
          (Spec.scaled area (getDevicePixelRatioForWindow exampleSystem (hitTestMsg 400 10).hwnd))
          (clientMouse exampleSystem (hitTestMsg 400 10)).x
          (clientMouse exampleSystem (hitTestMsg 400 10)).y) ∧
    (nativeEventFilter exampleGlobals exampleSystem noUserData (hitTestMsg 400 10)
        examplePointee).result = some HTCAPTION :=
  ⟨(C7_draggable_areas_amended exampleGlobals exampleSystem (userDataWith ignoreButtonData)
      (hitTestMsg 400 10) examplePointee (by decide) (by decide)).1 (by decide)
      (by
        rw [(nativeEventFilter_hitTest exampleGlobals exampleSystem (userDataWith ignoreButtonData)
          (hitTestMsg 400 10) examplePointee (by decide) (by decide) (by decide)).2]
        have htb : Spec.titlebarCondition (exampleSystem.GetClientRect (hitTestMsg 400 10).hwnd).right
            (exampleSystem.GetClientRect (hitTestMsg 400 10).hwnd).bottom
            (titlebarHeight exampleGlobals exampleSystem (userDataWith ignoreButtonData)
              (hitTestMsg 400 10).hwnd).2
            (windowDataOf exampleSystem (userDataWith ignoreButtonData) (hitTestMsg 400 10).hwnd)
            (getDevicePixelRatioForWindow exampleSystem (hitTestMsg 400 10).hwnd)
            (clientMouse exampleSystem (hitTestMsg 400 10)).x
            (clientMouse exampleSystem (hitTestMsg 400 10)).y = true := by
          unfold Spec.titlebarCondition
          rw [exampleSystem_dpr _ (by decide), isInSpecificAreas_one _ _ _ (by decide),
            isInSpecificAreas_one _ _ _ (by decide)]
          decide
        rw [htb]
        decide),
   (C7_draggable_areas_amended exampleGlobals exampleSystem noUserData (hitTestMsg 400 10)
    examplePointee (by decide) (by decide)).2 (by decide) (by decide) (by decide) (by decide)
    (fun a ha => by
      have h0 : (windowDataOf exampleSystem noUserData (hitTestMsg 400 10).hwnd).ignoreAreas
          = [] := by decide
      rw [h0] at ha
      cases ha)
    (by decide)⟩

/-! ## The size messages (`WM_NCCALCSIZE`, `WM_GETMINMAXINFO`) -/

/-- The `WM_NCCALCSIZE` case of the filter. -/
theorem nativeEventFilter_ncCalcSize (g : Globals) (sys : System) (ud : UserData) (msg : MSG)
    (mem : Pointee) (hacc : accepts g sys msg = true) (hmsg : msg.message = WM_NCCALCSIZE) :
    (nativeEventFilter g sys ud msg mem).ret = true ∧
    (nativeEventFilter g sys ud msg mem).result = some 0 ∧
    (nativeEventFilter g sys ud msg mem).mem = ncCalcSize sys msg mem := by
  unfold nativeEventFilter
  simp only [hacc, Bool.not_true, Bool.false_eq_true, if_false, hmsg, if_true]
  refine ⟨?_, ?_, ?_⟩ <;> trivial

/-- The rectangle the `WM_NCCALCSIZE` handler leaves is `ncCalcSizeRect` of the
one it received. -/
theorem calcSizeRect_ncCalcSize (sys : System) (msg : MSG) (mem : Pointee) :
    Spec.calcSizeRect msg (ncCalcSize sys msg mem)
      = ncCalcSizeRect sys msg.hwnd (Spec.calcSizeRect msg mem) := by
  unfold Spec.calcSizeRect ncCalcSize
  split_ifs <;> rfl

/-- C2: `WM_NCCALCSIZE` on a window that is not maximized leaves the memory
`lParam` addresses exactly as received, for `wParam` TRUE (the rectangle is
`rgrc[0]`) and for `wParam` FALSE (the rectangle is the `RECT`) alike, writes
0 to `*result` and returns true. -/
theorem C2_nccalcsize_not_maximized (g : Globals) (sys : System) (ud : UserData) (msg : MSG)
    (mem : Pointee) (hacc : accepts g sys msg = true) (hmsg : msg.message = WM_NCCALCSIZE)
    (hM : sys.IsMaximized msg.hwnd = false) :
    (nativeEventFilter g sys ud msg mem).mem = mem ∧
    Spec.calcSizeRect msg (nativeEventFilter g sys ud msg mem).mem = Spec.calcSizeRect msg mem ∧
    (nativeEventFilter g sys ud msg mem).result = some 0 ∧
    (nativeEventFilter g sys ud msg mem).ret = true := by
  obtain ⟨hret, hres, hmem⟩ := nativeEventFilter_ncCalcSize g sys ud msg mem hacc hmsg
  have hrect : ∀ r, ncCalcSizeRect sys msg.hwnd r = r := by
    intro r
    unfold ncCalcSizeRect
    simp [hM]
  have hm : ncCalcSize sys msg mem = mem := by
    unfold ncCalcSize
    simp only [hrect]
    split_ifs <;> rfl
  rw [hmem, hm]
  exact ⟨rfl, rfl, hres, hret⟩

/-- Witness of C2: window 5 of the example, restored, with `wParam` TRUE. -/
theorem C2_nccalcsize_not_maximized_witness :
    (nativeEventFilter exampleGlobals exampleSystem noUserData (calcSizeMsg 1)
        examplePointee).mem = examplePointee ∧
    Spec.calcSizeRect (calcSizeMsg 1) (nativeEventFilter exampleGlobals exampleSystem noUserData
        (calcSizeMsg 1) examplePointee).mem = Spec.calcSizeRect (calcSizeMsg 1) examplePointee ∧
    (nativeEventFilter exampleGlobals exampleSystem noUserData (calcSizeMsg 1)
        examplePointee).result = some 0 ∧
    (nativeEventFilter exampleGlobals exampleSystem noUserData (calcSizeMsg 1)
        examplePointee).ret = true :=
  C2_nccalcsize_not_maximized exampleGlobals exampleSystem noUserData (calcSizeMsg 1)
    examplePointee (by decide) (by decide) (by decide)

/-- The rectangle `ncCalcSizeRect` leaves for a maximized window: the work
area, or the work area less one pixel on one edge; the latter only when the
work area is the monitor rectangle and the taskbar is in auto-hide state. -/
theorem ncCalcSizeRect_maximized (sys : System) (h : HWND) (r : RECT)
    (hM : sys.IsMaximized h = true) :
    let work := (sys.GetMonitorInfoW (sys.MonitorFromWindowNearest h)).rcWork
    let monitor := (sys.GetMonitorInfoW (sys.MonitorFromWindowNearest h)).rcMonitor
    (ncCalcSizeRect sys h r = work
      ∨ ((work = monitor ∧ sys.appBarState &&& ABS_AUTOHIDE ≠ 0) ∧
          (ncCalcSizeRect sys h r = { work with bottom := work.bottom - 1 }
            ∨ ncCalcSizeRect sys h r = { work with left := work.left + 1 }
            ∨ ncCalcSizeRect sys h r = { work with top := work.top + 1 }
            ∨ ncCalcSizeRect sys h r = { work with right := work.right - 1 }))) := by
  intro work monitor
  unfold ncCalcSizeRect
  simp only [hM, if_true]
  by_cases he : EqualRect (sys.GetMonitorInfoW (sys.MonitorFromWindowNearest h)).rcWork
      (sys.GetMonitorInfoW (sys.MonitorFromWindowNearest h)).rcMonitor = true
  · have heq : work = monitor := by
      unfold EqualRect at he
      simp only [Bool.and_eq_true, beq_iff_eq] at he
      obtain ⟨⟨⟨h1, h2⟩, h3⟩, h4⟩ := he
      show (sys.GetMonitorInfoW (sys.MonitorFromWindowNearest h)).rcWork
        = (sys.GetMonitorInfoW (sys.MonitorFromWindowNearest h)).rcMonitor
      cases hw : (sys.GetMonitorInfoW (sys.MonitorFromWindowNearest h)).rcWork
      cases hm : (sys.GetMonitorInfoW (sys.MonitorFromWindowNearest h)).rcMonitor
      simp only [hw, hm] at h1 h2 h3 h4
      simp [h1, h2, h3, h4]
    rw [if_pos he]
    by_cases ha : sys.appBarState &&& ABS_AUTOHIDE ≠ 0
    · rw [if_pos ha]
      split_ifs
      all_goals first
        | exact Or.inl rfl
        | exact Or.inr ⟨⟨heq, ha⟩, Or.inl rfl⟩
        | exact Or.inr ⟨⟨heq, ha⟩, Or.inr (Or.inl rfl)⟩
        | exact Or.inr ⟨⟨heq, ha⟩, Or.inr (Or.inr (Or.inl rfl))⟩
        | exact Or.inr ⟨⟨heq, ha⟩, Or.inr (Or.inr (Or.inr rfl))⟩
    · rw [if_neg ha]
      exact Or.inl rfl
  · rw [if_neg he]
    exact Or.inl rfl

/-- C3: `WM_NCCALCSIZE` on a maximized window writes back a rectangle that
lies inside the monitor's work area and is the work area or the work area less
one pixel on one edge; it is the work area whenever the work area differs from
the monitor rectangle or the taskbar is not in auto-hide state; `*result` is 0
and the filter returns true. -/
theorem C3_nccalcsize_maximized (g : Globals) (sys : System) (ud : UserData) (msg : MSG)
    (mem : Pointee) (hacc : accepts g sys msg = true) (hmsg : msg.message = WM_NCCALCSIZE)
    (hM : sys.IsMaximized msg.hwnd = true) :
    let work := (sys.GetMonitorInfoW (sys.MonitorFromWindowNearest msg.hwnd)).rcWork
    let monitor := (sys.GetMonitorInfoW (sys.MonitorFromWindowNearest msg.hwnd)).rcMonitor
    let rect := Spec.calcSizeRect msg (nativeEventFilter g sys ud msg mem).mem
    Spec.rectInside rect work ∧
    (rect = work ∨ rect = { work with bottom := work.bottom - 1 }
      ∨ rect = { work with left := work.left + 1 } ∨ rect = { work with top := work.top + 1 }
      ∨ rect = { work with right := work.right - 1 }) ∧
    (work ≠ monitor ∨ sys.appBarState &&& ABS_AUTOHIDE = 0 → rect = work) ∧
    (nativeEventFilter g sys ud msg mem).result = some 0 ∧
    (nativeEventFilter g sys ud msg mem).ret = true := by
  intro work monitor rect
  obtain ⟨hret, hres, hmem⟩ := nativeEventFilter_ncCalcSize g sys ud msg mem hacc hmsg
  have hrect : rect = ncCalcSizeRect sys msg.hwnd (Spec.calcSizeRect msg mem) := by
    show Spec.calcSizeRect msg (nativeEventFilter g sys ud msg mem).mem = _
    rw [hmem, calcSizeRect_ncCalcSize]
  have hcases := ncCalcSizeRect_maximized sys msg.hwnd (Spec.calcSizeRect msg mem) hM
  simp only at hcases
  rw [← hrect] at hcases
  refine ⟨?_, ?_, ?_, hres, hret⟩
  · unfold Spec.rectInside
    rcases hcases with h | ⟨_, h | h | h | h⟩ <;> rw [h] <;> simp
  · rcases hcases with h | ⟨_, h | h | h | h⟩
    · exact Or.inl h
    · exact Or.inr (Or.inl h)
    · exact Or.inr (Or.inr (Or.inl h))
    · exact Or.inr (Or.inr (Or.inr (Or.inl h)))
    · exact Or.inr (Or.inr (Or.inr (Or.inr h)))
  · intro hcond
    rcases hcases with h | ⟨⟨hw, ha⟩, _⟩
    · exact h
    · rcases hcond with h1 | h2
      · exact absurd hw h1
      · exact absurd h2 ha

/-- Witness of C3: window 5 maximized on a monitor with an auto-hide taskbar at
the bottom, with `wParam` FALSE. -/
theorem C3_nccalcsize_maximized_witness :
    Spec.calcSizeRect (calcSizeMsg 0) (nativeEventFilter exampleGlobals autoHideSystem
      noUserData (calcSizeMsg 0) examplePointee).mem = ⟨0, 0, 1920, 1079⟩ ∧
    Spec.rectInside (Spec.calcSizeRect (calcSizeMsg 0) (nativeEventFilter exampleGlobals
      autoHideSystem noUserData (calcSizeMsg 0) examplePointee).mem) ⟨0, 0, 1920, 1080⟩ :=
  ⟨by decide,
   (C3_nccalcsize_maximized exampleGlobals autoHideSystem noUserData (calcSizeMsg 0)
      examplePointee (by decide) (by decide) (by decide)).1⟩

theorem EqualRect_self (r : RECT) : EqualRect r r = true := by
  simp [EqualRect]

/-- C5, counterexample: window 5 is maximized on monitor 2, whose work area is
the whole monitor, the taskbar is in auto-hide state on monitor 1, and the
client rectangle written back is the rectangle of monitor 2. -/
theorem C5_counterexample :
    secondMonitorSystem.IsMaximized 5 = true ∧
    (secondMonitorSystem.GetMonitorInfoW (secondMonitorSystem.MonitorFromWindowNearest 5)).rcWork
      = (secondMonitorSystem.GetMonitorInfoW
          (secondMonitorSystem.MonitorFromWindowNearest 5)).rcMonitor ∧
    secondMonitorSystem.appBarState &&& ABS_AUTOHIDE ≠ 0 ∧
    Spec.calcSizeRect (calcSizeMsg 1) (nativeEventFilter exampleGlobals secondMonitorSystem
      noUserData (calcSizeMsg 1) examplePointee).mem
      = (secondMonitorSystem.GetMonitorInfoW
          (secondMonitorSystem.MonitorFromWindowNearest 5)).rcMonitor := by
  decide

/-- C5, amended: `WM_NCCALCSIZE` on a maximized window whose monitor work area
is the monitor rectangle, with the taskbar in auto-hide state. When the
taskbar window exists and is on the window's monitor, the rectangle written
back is the monitor rectangle less one pixel on the edge the taskbar reports
(bottom - 1, left + 1, top + 1 or right - 1) and so differs from the monitor
rectangle; when there is no taskbar window or it is on another monitor, the
rectangle written back is the monitor rectangle. -/
theorem C5_autohide_edge_amended (g : Globals) (sys : System) (ud : UserData) (msg : MSG)
    (mem : Pointee) (hacc : accepts g sys msg = true) (hmsg : msg.message = WM_NCCALCSIZE)
    (hM : sys.IsMaximized msg.hwnd = true)
    (hW : (sys.GetMonitorInfoW (sys.MonitorFromWindowNearest msg.hwnd)).rcWork
      = (sys.GetMonitorInfoW (sys.MonitorFromWindowNearest msg.hwnd)).rcMonitor)
    (hA : sys.appBarState &&& ABS_AUTOHIDE ≠ 0) :
    let monitor := (sys.GetMonitorInfoW (sys.MonitorFromWindowNearest msg.hwnd)).rcMonitor
    let rect := Spec.calcSizeRect msg (nativeEventFilter g sys ud msg mem).mem
    let onWindowMonitor := sys.FindShellTrayWnd ≠ 0
      ∧ sys.MonitorFromWindowPrimary sys.FindShellTrayWnd ≠ 0
      ∧ sys.MonitorFromWindowPrimary sys.FindShellTrayWnd = sys.MonitorFromWindowNearest msg.hwnd
    (onWindowMonitor →
      ((sys.taskbarPosEdge : Int) = ABE_BOTTOM →
        rect = { monitor with bottom := monitor.bottom - 1 }) ∧
      ((sys.taskbarPosEdge : Int) = ABE_LEFT → rect = { monitor with left := monitor.left + 1 }) ∧
      ((sys.taskbarPosEdge : Int) = ABE_TOP → rect = { monitor with top := monitor.top + 1 }) ∧
      ((sys.taskbarPosEdge : Int) = ABE_RIGHT →
        rect = { monitor with right := monitor.right - 1 }) ∧
      (sys.taskbarPosEdge ≤ 3 → rect ≠ monitor)) ∧
    (¬ onWindowMonitor → rect = monitor) := by
  dsimp only
  obtain ⟨_, _, hmem⟩ := nativeEventFilter_ncCalcSize g sys ud msg mem hacc hmsg
  have hrect : Spec.calcSizeRect msg (nativeEventFilter g sys ud msg mem).mem
      = ncCalcSizeRect sys msg.hwnd (Spec.calcSizeRect msg mem) := by
    rw [hmem, calcSizeRect_ncCalcSize]
  have hE := EqualRect_self (sys.GetMonitorInfoW (sys.MonitorFromWindowNearest msg.hwnd)).rcMonitor
  have hne : ∀ (r : RECT), ({ r with bottom := r.bottom - 1 } : RECT) ≠ r
      ∧ ({ r with left := r.left + 1 } : RECT) ≠ r ∧ ({ r with top := r.top + 1 } : RECT) ≠ r
      ∧ ({ r with right := r.right - 1 } : RECT) ≠ r := by
    intro r
    refine ⟨?_, ?_, ?_, ?_⟩ <;> intro h <;> have h' := congrArg RECT.bottom h <;>
      have h'' := congrArg RECT.left h <;> have h3 := congrArg RECT.top h <;>
      have h4 := congrArg RECT.right h <;> simp at h' h'' h3 h4
  rw [hrect]
  unfold ncCalcSizeRect
  rw [if_pos hM]
  dsimp only
  rw [hW, if_pos hE, if_pos hA]
  constructor
  · rintro ⟨h1, h2, h3⟩
    have hc : sys.MonitorFromWindowPrimary sys.FindShellTrayWnd ≠ 0
        ∧ sys.MonitorFromWindowPrimary sys.FindShellTrayWnd
          = sys.MonitorFromWindowNearest msg.hwnd := ⟨h2, h3⟩
    rw [if_pos h1, if_pos hc]
    simp only [ABE_BOTTOM, ABE_LEFT, ABE_TOP, ABE_RIGHT]
    refine ⟨?_, ?_, ?_, ?_, ?_⟩
    · intro he; rw [he]; rfl
    · intro he; rw [he]; rfl
    · intro he; rw [he]; rfl
    · intro he; rw [he]; rfl
    · intro he
      have hcases : sys.taskbarPosEdge = 0 ∨ sys.taskbarPosEdge = 1 ∨ sys.taskbarPosEdge = 2
          ∨ sys.taskbarPosEdge = 3 := by omega
      rcases hcases with e | e | e | e <;> simp only [e] <;> norm_num
      · exact (hne _).2.1
      · exact (hne _).2.2.1
      · exact (hne _).2.2.2
      · exact (hne _).1
  · intro hn
    have hedge : (if sys.FindShellTrayWnd ≠ 0 then
        (if sys.MonitorFromWindowPrimary sys.FindShellTrayWnd ≠ 0
            ∧ sys.MonitorFromWindowPrimary sys.FindShellTrayWnd
              = sys.MonitorFromWindowNearest msg.hwnd then (sys.taskbarPosEdge : Int) else -1)
        else -1) = -1 := by
      by_cases h1 : sys.FindShellTrayWnd ≠ 0
      · rw [if_pos h1, if_neg (fun h => hn ⟨h1, h.1, h.2⟩)]
      · rw [if_neg h1]
    rw [hedge]
    simp [ABE_BOTTOM, ABE_LEFT, ABE_TOP, ABE_RIGHT]

/-- Witness of C5, amended: window 5 maximized on the monitor whose auto-hide
taskbar is at the bottom. -/
theorem C5_autohide_edge_amended_witness :
    Spec.calcSizeRect (calcSizeMsg 1) (nativeEventFilter exampleGlobals autoHideSystem
      noUserData (calcSizeMsg 1) examplePointee).mem = ⟨0, 0, 1920, 1079⟩ :=
  ((C5_autohide_edge_amended exampleGlobals autoHideSystem noUserData (calcSizeMsg 1)
    examplePointee (by decide) (by decide) (by decide) (by decide) (by decide)).1
      (by decide)).1 (by decide)

theorem getMinMaxInfo_congr (sys : System) (h : HWND) (w w' : WINDOW) (mmi : MINMAXINFO)
    (hwd : w.windowData = w'.windowData) :
    getMinMaxInfo sys h w mmi = getMinMaxInfo sys h w' mmi := by
  unfold getMinMaxInfo
  rw [hwd]

/-- The `WM_GETMINMAXINFO` case of the filter. -/
theorem nativeEventFilter_getMinMaxInfo (g : Globals) (sys : System) (ud : UserData) (msg : MSG)
    (mem : Pointee) (hacc : accepts g sys msg = true) (hmsg : msg.message = WM_GETMINMAXINFO) :
    (nativeEventFilter g sys ud msg mem).ret = true ∧
    (nativeEventFilter g sys ud msg mem).result = some 0 ∧
    (nativeEventFilter g sys ud msg mem).mem.mmi =
      getMinMaxInfo sys msg.hwnd (windowWith sys (windowDataOf sys ud msg.hwnd)) mem.mmi := by
  have hne := accepts_hwnd_ne_zero g sys msg hacc
  obtain ⟨w2, hw2, hwd⟩ := processed_userData g sys ud msg.hwnd hne
  have hdata : userDataOf sys (firstMessageSetup g sys (createUserData sys ud msg.hwnd none)
      msg.hwnd).1 msg.hwnd = w2 := by simp [userDataOf, hw2]
  have hc := getMinMaxInfo_congr sys msg.hwnd w2
    (windowWith sys (windowDataOf sys ud msg.hwnd)) mem.mmi hwd
  unfold nativeEventFilter
  simp only [hacc, Bool.not_true, Bool.false_eq_true, if_false, hmsg, hdata, hc]
  simp only [WM_NCHITTEST, WM_NCCALCSIZE, WM_NCUAHDRAWCAPTION, WM_NCUAHDRAWFRAME, WM_NCPAINT,
    WM_NCACTIVATE, WM_GETMINMAXINFO]
  norm_num

/-- C4, counterexample: on a 1920x1080 monitor under Windows 10 whose work area
(1920x1040) is contained in the monitor rectangle, a window with a maximum
size of 3000x2000 at 96 DPI is reported a maximized rectangle of 3000x2000 at
the work area's origin, which does not lie inside the work area. -/
theorem C4_counterexample :
    Spec.rectInside (exampleSystem.GetMonitorInfoW (exampleSystem.MonitorFromWindowNearest 5)).rcWork
      (exampleSystem.GetMonitorInfoW (exampleSystem.MonitorFromWindowNearest 5)).rcMonitor ∧
    Spec.maximizedRect
      (exampleSystem.GetMonitorInfoW (exampleSystem.MonitorFromWindowNearest 5)).rcMonitor
      (nativeEventFilter exampleGlobals exampleSystem (userDataWith largeMaximumData)
        minMaxInfoMsg examplePointee).mem.mmi = ⟨0, 0, 3000, 2000⟩ ∧
    ¬ Spec.rectInside (Spec.maximizedRect
      (exampleSystem.GetMonitorInfoW (exampleSystem.MonitorFromWindowNearest 5)).rcMonitor
      (nativeEventFilter exampleGlobals exampleSystem (userDataWith largeMaximumData)
        minMaxInfoMsg examplePointee).mem.mmi)
      (exampleSystem.GetMonitorInfoW (exampleSystem.MonitorFromWindowNearest 5)).rcWork := by
  have hmem := (nativeEventFilter_getMinMaxInfo exampleGlobals exampleSystem
    (userDataWith largeMaximumData) minMaxInfoMsg examplePointee (by decide) (by decide)).2.2
  have hwd : windowDataOf exampleSystem (userDataWith largeMaximumData) minMaxInfoMsg.hwnd
      = largeMaximumData := by decide
  have hd := exampleSystem_dpr minMaxInfoMsg.hwnd (by decide)
  have hrect : Spec.maximizedRect
      (exampleSystem.GetMonitorInfoW (exampleSystem.MonitorFromWindowNearest 5)).rcMonitor
      (nativeEventFilter exampleGlobals exampleSystem (userDataWith largeMaximumData)
        minMaxInfoMsg examplePointee).mem.mmi = ⟨0, 0, 3000, 2000⟩ := by
    rw [hmem, hwd]
    unfold getMinMaxInfo
    rw [hd]
    have h1 : fmul 1 3000 = 3000 := by simpa using fmul_one_int 3000 (by norm_num)
    have h2 : fmul 1 2000 = 2000 := by simpa using fmul_one_int 2000 (by norm_num)
    norm_num [Spec.maximizedRect, windowWith, exampleSystem, largeMaximumData, QSize.isEmpty, QSize.width,
      QSize.height, stdRound, examplePointee, exampleWindowData, h1, h2]
  refine ⟨by decide, hrect, ?_⟩
  rw [hrect]
  decide

/-- C4, amended: under Windows 8 or later, on a monitor whose work area is not
inverted and is contained in the monitor rectangle, the maximized rectangle
`WM_GETMINMAXINFO` reports (position relative to the monitor's top-left corner,
size `ptMaxSize`) is the work area when the window has no maximum size. With a
maximum size, `ptMaxSize` is the maximum size times the device pixel ratio (the
binary64 product of the source), rounded; the rectangle starts at the work
area's top-left corner and lies inside the work area exactly when that size is
no larger than the work area's in width and in height. -/
theorem C4_maximized_rect_amended (g : Globals) (sys : System) (ud : UserData) (msg : MSG)
    (mem : Pointee) (hacc : accepts g sys msg = true) (hmsg : msg.message = WM_GETMINMAXINFO)
    (hOS : sys.olderThanWindows8 = false)
    (hin : Spec.rectInside (sys.GetMonitorInfoW (sys.MonitorFromWindowNearest msg.hwnd)).rcWork
      (sys.GetMonitorInfoW (sys.MonitorFromWindowNearest msg.hwnd)).rcMonitor)
    (hwf : Spec.wellFormed (sys.GetMonitorInfoW (sys.MonitorFromWindowNearest msg.hwnd)).rcWork) :
    ((windowDataOf sys ud msg.hwnd).maximumSize.isEmpty = true →
      Spec.maximizedRect (sys.GetMonitorInfoW (sys.MonitorFromWindowNearest msg.hwnd)).rcMonitor
        (nativeEventFilter g sys ud msg mem).mem.mmi
        = (sys.GetMonitorInfoW (sys.MonitorFromWindowNearest msg.hwnd)).rcWork ∧
      Spec.rectInside
        (Spec.maximizedRect (sys.GetMonitorInfoW (sys.MonitorFromWindowNearest msg.hwnd)).rcMonitor
          (nativeEventFilter g sys ud msg mem).mem.mmi)
        (sys.GetMonitorInfoW (sys.MonitorFromWindowNearest msg.hwnd)).rcWork) ∧
    ((windowDataOf sys ud msg.hwnd).maximumSize.isEmpty = false →
      (nativeEventFilter g sys ud msg mem).mem.mmi.ptMaxSize =
        ⟨stdRound (fmul (getDevicePixelRatioForWindow sys msg.hwnd)
            ((windowDataOf sys ud msg.hwnd).maximumSize.width : qreal)),
         stdRound (fmul (getDevicePixelRatioForWindow sys msg.hwnd)
            ((windowDataOf sys ud msg.hwnd).maximumSize.height : qreal))⟩ ∧
      (Spec.maximizedRect (sys.GetMonitorInfoW (sys.MonitorFromWindowNearest msg.hwnd)).rcMonitor
        (nativeEventFilter g sys ud msg mem).mem.mmi).left
        = (sys.GetMonitorInfoW (sys.MonitorFromWindowNearest msg.hwnd)).rcWork.left ∧
      (Spec.maximizedRect (sys.GetMonitorInfoW (sys.MonitorFromWindowNearest msg.hwnd)).rcMonitor
        (nativeEventFilter g sys ud msg mem).mem.mmi).top
        = (sys.GetMonitorInfoW (sys.MonitorFromWindowNearest msg.hwnd)).rcWork.top ∧
      (Spec.rectInside
        (Spec.maximizedRect (sys.GetMonitorInfoW (sys.MonitorFromWindowNearest msg.hwnd)).rcMonitor
          (nativeEventFilter g sys ud msg mem).mem.mmi)
        (sys.GetMonitorInfoW (sys.MonitorFromWindowNearest msg.hwnd)).rcWork ↔
        (stdRound (fmul (getDevicePixelRatioForWindow sys msg.hwnd)
            ((windowDataOf sys ud msg.hwnd).maximumSize.width : qreal))
          ≤ (sys.GetMonitorInfoW (sys.MonitorFromWindowNearest msg.hwnd)).rcWork.right
            - (sys.GetMonitorInfoW (sys.MonitorFromWindowNearest msg.hwnd)).rcWork.left ∧
         stdRound (fmul (getDevicePixelRatioForWindow sys msg.hwnd)
            ((windowDataOf sys ud msg.hwnd).maximumSize.height : qreal))
          ≤ (sys.GetMonitorInfoW (sys.MonitorFromWindowNearest msg.hwnd)).rcWork.bottom
            - (sys.GetMonitorInfoW (sys.MonitorFromWindowNearest msg.hwnd)).rcWork.top))) := by
  have hmem := (nativeEventFilter_getMinMaxInfo g sys ud msg mem hacc hmsg).2.2
  rw [hmem]
  unfold Spec.rectInside at hin
  unfold Spec.wellFormed at hwf
  obtain ⟨i1, i2, i3, i4⟩ := hin
  obtain ⟨w1, w2⟩ := hwf
  have a1 := abs_of_nonneg (sub_nonneg.mpr i1)
  have a2 := abs_of_nonneg (sub_nonneg.mpr i3)
  have a3 := abs_of_nonneg (sub_nonneg.mpr w1)
  have a4 := abs_of_nonneg (sub_nonneg.mpr w2)
  unfold getMinMaxInfo Spec.maximizedRect Spec.rectInside
  simp only [hOS, Bool.false_eq_true, if_false, windowWith, a1, a2, a3, a4]
  cases hE : (windowDataOf sys ud msg.hwnd).maximumSize.isEmpty with
  | true =>
    refine ⟨fun _ => ?_, fun h => absurd h (by decide)⟩
    cases hmin : (windowDataOf sys ud msg.hwnd).minimumSize.isEmpty <;>
      simp only [Bool.not_true, Bool.not_false, Bool.false_eq_true, if_true, if_false] <;>
      refine ⟨?_, by omega, by omega, by omega, by omega⟩ <;>
      cases hw : (sys.GetMonitorInfoW (sys.MonitorFromWindowNearest msg.hwnd)).rcWork <;>
      simp only [RECT.mk.injEq] <;> refine ⟨?_, ?_, ?_, ?_⟩ <;> omega
  | false =>
    refine ⟨fun h => absurd h (by decide), fun _ => ?_⟩
    cases hmin : (windowDataOf sys ud msg.hwnd).minimumSize.isEmpty <;>
      simp only [Bool.not_true, Bool.not_false, Bool.false_eq_true, if_true, if_false] <;>
      refine ⟨trivial, by omega, by omega, ⟨fun h => ⟨by omega, by omega⟩,
        fun h => ⟨by omega, by omega, by omega, by omega⟩⟩⟩

/-- Witness of C4, amended: window 5 of the example without a maximum size,
where the reported rectangle is the 1920x1040 work area, and with a maximum
size of 3000x2000, where `ptMaxSize` is that size scaled by the ratio. -/
theorem C4_maximized_rect_amended_witness :
    Spec.maximizedRect
        (exampleSystem.GetMonitorInfoW (exampleSystem.MonitorFromWindowNearest 5)).rcMonitor
        (nativeEventFilter exampleGlobals exampleSystem noUserData minMaxInfoMsg
          examplePointee).mem.mmi = ⟨0, 0, 1920, 1040⟩ ∧
    (nativeEventFilter exampleGlobals exampleSystem (userDataWith largeMaximumData) minMaxInfoMsg
          examplePointee).mem.mmi.ptMaxSize =
      ⟨stdRound (fmul (getDevicePixelRatioForWindow exampleSystem 5) ((3000 : Int) : qreal)),
       stdRound (fmul (getDevicePixelRatioForWindow exampleSystem 5) ((2000 : Int) : qreal))⟩ :=
  ⟨((C4_maximized_rect_amended exampleGlobals exampleSystem noUserData minMaxInfoMsg
      examplePointee (by decide) (by decide) (by decide) (by decide) (by decide)).1
      (by decide)).1,
   ((C4_maximized_rect_amended exampleGlobals exampleSystem (userDataWith largeMaximumData)
      minMaxInfoMsg examplePointee (by decide) (by decide) (by decide) (by decide)
      (by decide)).2 (by decide)).1⟩

/-- C8, the code at the failing input: at 192 DPI the device pixel ratio is 2
and a border width of 8 scales to 16; `borderWidth` returns 16 when the 8 is
the window's own `WINDOWDATA` value, and 8, unscaled, when it is the global
value set with `setBorderWidth`. -/
theorem C8_global_border_width_not_scaled :
    getDevicePixelRatioForWindow hiDpiSystem 5 = 2 ∧
    stdRound ((8 : qreal) * getDevicePixelRatioForWindow hiDpiSystem 5) = 16 ∧
    (borderWidth exampleGlobals hiDpiSystem (userDataWith borderEightData) 5).2 = 16 ∧
    (setBorderWidth exampleGlobals 8).m_borderWidth = 8 ∧
    (borderWidth (setBorderWidth exampleGlobals 8) hiDpiSystem noUserData 5).2 = 8 := by
  have hd := hiDpiSystem_dpr 5 (by decide)
  have hw : windowDataOf hiDpiSystem (userDataWith borderEightData) 5 = borderEightData := by
    decide
  refine ⟨hd, ?_, ?_, by decide, by decide⟩
  · rw [hd]; norm_num [stdRound]
  · rw [borderWidth_snd _ _ _ 5 (by decide), hw, hd]
    have h1 : fmul 8 2 = 16 := by simpa using fmul_eq_int 8 2 16 (by norm_num) (by norm_num)
    norm_num [borderEightData, stdRound, h1]

/-- C11: a fixed-size window that is neither maximized nor mouse transparent
answers `WM_NCHITTEST` with `HTCAPTION` under the title-bar condition and with
`HTBORDER` otherwise, for every mouse position, inside the client area or not;
never with a resize code and never with `HTCLIENT`. -/
theorem C11_fixed_size_border (g : Globals) (sys : System) (ud : UserData) (msg : MSG)
    (mem : Pointee) (hacc : accepts g sys msg = true) (hmsg : msg.message = WM_NCHITTEST)
    (hT : (windowDataOf sys ud msg.hwnd).mouseTransparent = false)
    (hM : sys.IsMaximized msg.hwnd = false)
    (hF : (windowDataOf sys ud msg.hwnd).fixedSize = true) :
    (nativeEventFilter g sys ud msg mem).ret = true ∧
    (nativeEventFilter g sys ud msg mem).result =
      some (if Spec.titlebarCondition (sys.GetClientRect msg.hwnd).right
          (sys.GetClientRect msg.hwnd).bottom (titlebarHeight g sys ud msg.hwnd).2
          (windowDataOf sys ud msg.hwnd) (getDevicePixelRatioForWindow sys msg.hwnd)
          (clientMouse sys msg).x (clientMouse sys msg).y = true then HTCAPTION else HTBORDER) ∧
    (∀ c, (nativeEventFilter g sys ud msg mem).result = some c →
      ¬ Spec.isResizeCode c ∧ c ≠ HTCLIENT) := by
  obtain ⟨hret, hres⟩ := nativeEventFilter_hitTest g sys ud msg mem hacc hmsg hT
  rw [hM, hF] at hres
  simp only [Spec.hitTestOfState, Bool.false_eq_true, if_false, if_true] at hres
  refine ⟨hret, hres, ?_⟩
  intro c hc
  rw [hres] at hc
  have hc' := Option.some.inj hc
  split_ifs at hc' <;> subst hc' <;> exact ⟨by unfold Spec.isResizeCode; decide, by decide⟩

/-- Witness of C11: a fixed-size window with the mouse at (400, 300), in the
middle of its client area. -/
theorem C11_fixed_size_border_witness :
    (nativeEventFilter exampleGlobals exampleSystem (userDataWith fixedSizeData)
        (hitTestMsg 400 300) examplePointee).result = some HTBORDER :=
  have h := C11_fixed_size_border exampleGlobals exampleSystem (userDataWith fixedSizeData)
    (hitTestMsg 400 300) examplePointee (by decide) (by decide) (by decide) (by decide)
    (by decide)
  h.2.1.trans (by decide)

theorem accepts_iff_eligible (g : Globals) (sys : System) (msg : MSG) :
    accepts g sys msg = true ↔ Spec.eligible g sys msg := by
  unfold accepts Spec.eligible
  by_cases h0 : msg.hwnd = 0
  · simp [h0]
  · cases hl : g.m_framelessWindows with
    | nil =>
      simp only [h0, if_false, List.isEmpty_nil, if_true, ne_eq, not_false_eq_true, true_and,
        not_true_eq_false, List.not_mem_nil, and_false, false_or]
      by_cases hp : sys.GetAncestorParent msg.hwnd = 0
      · simp [hp]
      · by_cases hd : sys.GetAncestorParent msg.hwnd = sys.GetDesktopWindow
        · simp [hd]
        · simp [hp, hd]
    | cons a r =>
      by_cases hm : msg.hwnd ∈ a :: r
      · simp [h0, hm]
      · simp [h0, hm]

/-- C12: the filter handles a message exactly when the handle is non-null and
either the window list is non-empty and contains it, or the list is empty and
the window is top level; in every other case it returns false, writes nothing
to `*result`, leaves the user data of every window as it was (none is
created) and makes no call (the first-message block does not run). -/
theorem C12_window_gating (g : Globals) (sys : System) (ud : UserData) (msg : MSG)
    (mem : Pointee) :
    (accepts g sys msg = true ↔ Spec.eligible g sys msg) ∧
    (¬ Spec.eligible g sys msg →
      (nativeEventFilter g sys ud msg mem).ret = false ∧
      (nativeEventFilter g sys ud msg mem).result = none ∧
      (nativeEventFilter g sys ud msg mem).userData = ud ∧
      (nativeEventFilter g sys ud msg mem).calls = [] ∧
      (nativeEventFilter g sys ud msg mem).mem = mem) := by
  refine ⟨accepts_iff_eligible g sys msg, ?_⟩
  intro hn
  have ha : accepts g sys msg = false := by
    cases h : accepts g sys msg with
    | false => rfl
    | true => exact absurd ((accepts_iff_eligible g sys msg).mp h) hn
  unfold nativeEventFilter
  simp [ha]

/-- Witness of C12: a message to window 7 while the list is `[5]`. -/
theorem C12_window_gating_witness :
    (nativeEventFilter exampleGlobals exampleSystem noUserData otherWindowMsg
        examplePointee).ret = false ∧
    (nativeEventFilter exampleGlobals exampleSystem noUserData otherWindowMsg
        examplePointee).result = none :=
  have h := (C12_window_gating exampleGlobals exampleSystem noUserData otherWindowMsg
    examplePointee).2 (by decide)
  ⟨h.1, h.2.1⟩

/-! ## The paint and pass-through messages -/

theorem handleDwmCompositionChanged_flag (sys : System) (d : WINDOW) :
    (handleDwmCompositionChanged sys d).1.dwmCompositionEnabled = sys.DwmIsCompositionEnabled := by
  unfold handleDwmCompositionChanged
  dsimp only
  split_ifs <;> rfl

theorem firstMessageSetup_flag (g : Globals) (sys : System) (ud : UserData) (h : HWND)
    (w : WINDOW) (hu : ud h = some w) :
    ∃ w2, (firstMessageSetup g sys ud h).1 h = some w2 ∧
      w2.dwmCompositionEnabled =
        (if w.initialized then w.dwmCompositionEnabled else sys.DwmIsCompositionEnabled) := by
  unfold firstMessageSetup
  have hd : userDataOf sys ud h = w := by simp [userDataOf, hu]
  rw [hd]
  cases hi : w.initialized with
  | true => exact ⟨w, by simp [hi, hu], by simp⟩
  | false =>
    let d := (handleDwmCompositionChanged sys { w with initialized := true }).1
    have hup : Function.update ud h (some d) h = some d := by simp
    have h1 := borderWidth_fst g sys _ h d hup
    have h2 := borderHeight_fst g sys _ h d hup
    have h3 := titlebarHeight_fst g sys _ h d hup
    refine ⟨d, ?_, ?_⟩
    · simp only [hi, Bool.not_false, if_true]
      show (titlebarHeight g sys (borderHeight g sys (borderWidth g sys
        (Function.update ud h (some d)) h).1 h).1 h).1 h = some d
      rw [h1, h2, h3, hup]
    · simp only [Bool.false_eq_true, if_false]
      exact handleDwmCompositionChanged_flag sys _

/-- The flag the `WM_NCPAINT` case tests is `Spec.recordedComposition`. -/
theorem processed_flag (g : Globals) (sys : System) (ud : UserData) (h : HWND) (hne : h ≠ 0) :
    (userDataOf sys (firstMessageSetup g sys (createUserData sys ud h none) h).1 h).dwmCompositionEnabled
      = Spec.recordedComposition sys ud h := by
  obtain ⟨w1, hw1⟩ := createUserData_isSome sys ud h none hne
  obtain ⟨w2, hw2, hf⟩ := firstMessageSetup_flag g sys _ h w1 hw1
  have e1 : userDataOf sys (firstMessageSetup g sys (createUserData sys ud h none) h).1 h = w2 := by
    simp [userDataOf, hw2]
  have e2 : userDataOf sys (createUserData sys ud h none) h = w1 := by simp [userDataOf, hw1]
  unfold Spec.recordedComposition
  rw [e1, e2, hf]

/-- C13: `WM_NCPAINT` is blocked (the filter returns true and writes 0 to
`*result`) exactly when the composition flag recorded for the window is false;
when the flag is true the filter returns false and writes nothing. The flag
tested is the one the window's user data holds after the call. -/
theorem C13_ncpaint_blocked_iff_no_composition (g : Globals) (sys : System) (ud : UserData)
    (msg : MSG) (mem : Pointee) (hacc : accepts g sys msg = true)
    (hmsg : msg.message = WM_NCPAINT) :
    (((nativeEventFilter g sys ud msg mem).ret = true ∧
        (nativeEventFilter g sys ud msg mem).result = some 0)
      ↔ Spec.recordedComposition sys ud msg.hwnd = false) ∧
    (Spec.recordedComposition sys ud msg.hwnd = true →
      (nativeEventFilter g sys ud msg mem).ret = false ∧
      (nativeEventFilter g sys ud msg mem).result = none) ∧
    (userDataOf sys (nativeEventFilter g sys ud msg mem).userData msg.hwnd).dwmCompositionEnabled
      = Spec.recordedComposition sys ud msg.hwnd := by
  have hne := accepts_hwnd_ne_zero g sys msg hacc
  have hf := processed_flag g sys ud msg.hwnd hne
  unfold nativeEventFilter
  simp only [hacc, Bool.not_true, Bool.false_eq_true, if_false, hmsg]
  simp only [WM_NCCALCSIZE, WM_NCUAHDRAWCAPTION, WM_NCUAHDRAWFRAME, WM_NCPAINT]
  norm_num
  rw [hf]
  cases hc : Spec.recordedComposition sys ud msg.hwnd <;> simp [hf, hc]

/-- Witness of C13: `WM_NCPAINT` to window 5, whose recorded flag is false. -/
theorem C13_ncpaint_blocked_iff_no_composition_witness :
    (nativeEventFilter exampleGlobals exampleSystem noCompositionUserData (plainMsg WM_NCPAINT)
        examplePointee).ret = true ∧
    (nativeEventFilter exampleGlobals exampleSystem noCompositionUserData (plainMsg WM_NCPAINT)
        examplePointee).result = some 0 :=
  (C13_ncpaint_blocked_iff_no_composition exampleGlobals exampleSystem noCompositionUserData
    (plainMsg WM_NCPAINT) examplePointee (by decide) (by decide)).1.mpr (by decide)

/-- C14: a handled message whose id is none of `WM_NCCALCSIZE`,
`WM_NCUAHDRAWCAPTION`, `WM_NCUAHDRAWFRAME`, `WM_NCPAINT`, `WM_NCACTIVATE`,
`WM_NCHITTEST`, `WM_GETMINMAXINFO`, `WM_SETICON`, `WM_SETTEXT` is left to Qt:
the filter returns false, writes nothing to `*result` and leaves the memory
`lParam` addresses as it was. `WM_DPICHANGED`, `WM_DWMCOMPOSITIONCHANGED`,
`WM_THEMECHANGED`, `WM_WINDOWPOSCHANGING` and `WM_WINDOWPOSCHANGED` are such
messages. -/
theorem C14_other_messages_left_to_qt (g : Globals) (sys : System) (ud : UserData) (msg : MSG)
    (mem : Pointee) (hacc : accepts g sys msg = true)
    (hother : msg.message ∉ [WM_NCCALCSIZE, WM_NCUAHDRAWCAPTION, WM_NCUAHDRAWFRAME, WM_NCPAINT,
      WM_NCACTIVATE, WM_NCHITTEST, WM_GETMINMAXINFO, WM_SETICON, WM_SETTEXT]) :
    (nativeEventFilter g sys ud msg mem).ret = false ∧
    (nativeEventFilter g sys ud msg mem).result = none ∧
    (nativeEventFilter g sys ud msg mem).mem = mem ∧
    (∀ m ∈ [WM_DPICHANGED, WM_DWMCOMPOSITIONCHANGED, WM_THEMECHANGED, WM_WINDOWPOSCHANGING,
        WM_WINDOWPOSCHANGED],
      m ∉ [WM_NCCALCSIZE, WM_NCUAHDRAWCAPTION, WM_NCUAHDRAWFRAME, WM_NCPAINT,
        WM_NCACTIVATE, WM_NCHITTEST, WM_GETMINMAXINFO, WM_SETICON, WM_SETTEXT]) := by
  simp only [List.mem_cons, List.mem_singleton, List.not_mem_nil, or_false, not_or] at hother
  obtain ⟨h1, h2, h3, h4, h5, h6, h7, h8, h9⟩ := hother
  refine ⟨?_, ?_, ?_, by decide⟩ <;>
  · unfold nativeEventFilter
    simp only [hacc, Bool.not_true, Bool.false_eq_true, if_false, h1, h2, h3, h4, h5, h6, h7, h8,
      h9, or_self]
    split_ifs <;> rfl

/-- Witness of C14: `WM_DPICHANGED` to window 5. -/
theorem C14_other_messages_left_to_qt_witness :
    (nativeEventFilter exampleGlobals exampleSystem noUserData (plainMsg WM_DPICHANGED)
        examplePointee).ret = false ∧
    (nativeEventFilter exampleGlobals exampleSystem noUserData (plainMsg WM_DPICHANGED)
        examplePointee).result = none :=
  have h := C14_other_messages_left_to_qt exampleGlobals exampleSystem noUserData
    (plainMsg WM_DPICHANGED) examplePointee (by decide) (by decide)
  ⟨h.1, h.2.1⟩

/-! ## The size fields of `WM_GETMINMAXINFO` and the rounding -/

theorem QSize.isEmpty_iff (s : QSize) : s.isEmpty = true ↔ s.width ≤ 0 ∨ s.height ≤ 0 := by
  unfold QSize.isEmpty QSize.width QSize.height
  simp only [Bool.or_eq_true, decide_eq_true_eq]
  omega

theorem getMinMaxInfo_ptMaxSize (sys : System) (h : HWND) (wd : WINDOWDATA) (mmi : MINMAXINFO) :
    (getMinMaxInfo sys h (windowWith sys wd) mmi).ptMaxSize =
      (if wd.maximumSize.isEmpty = true then
        ⟨|(sys.GetMonitorInfoW (sys.MonitorFromWindowNearest h)).rcWork.right
            - (sys.GetMonitorInfoW (sys.MonitorFromWindowNearest h)).rcWork.left|,
         |(sys.GetMonitorInfoW (sys.MonitorFromWindowNearest h)).rcWork.bottom
            - (sys.GetMonitorInfoW (sys.MonitorFromWindowNearest h)).rcWork.top|⟩
      else
        ⟨stdRound (fmul (getDevicePixelRatioForWindow sys h) (wd.maximumSize.width : qreal)),
         stdRound (fmul (getDevicePixelRatioForWindow sys h) (wd.maximumSize.height : qreal))⟩) := by
  unfold getMinMaxInfo windowWith
  dsimp only
  split_ifs <;> rfl

theorem getMinMaxInfo_ptMaxTrackSize (sys : System) (h : HWND) (w : WINDOW) (mmi : MINMAXINFO) :
    (getMinMaxInfo sys h w mmi).ptMaxTrackSize = (getMinMaxInfo sys h w mmi).ptMaxSize := by
  unfold getMinMaxInfo
  dsimp only
  split_ifs <;> rfl

theorem getMinMaxInfo_ptMinTrackSize (sys : System) (h : HWND) (wd : WINDOWDATA)
    (mmi : MINMAXINFO) :
    (getMinMaxInfo sys h (windowWith sys wd) mmi).ptMinTrackSize =
      (if wd.minimumSize.isEmpty = true then mmi.ptMinTrackSize
      else
        ⟨stdRound (fmul (getDevicePixelRatioForWindow sys h) (wd.minimumSize.width : qreal)),
         stdRound (fmul (getDevicePixelRatioForWindow sys h) (wd.minimumSize.height : qreal))⟩) := by
  unfold getMinMaxInfo windowWith
  dsimp only
  split_ifs <;> simp_all

/-- C15: the size fields `WM_GETMINMAXINFO` leaves: `ptMaxSize` is the size of
the work area when the window's maximum size is empty (width or height not
positive) and otherwise the maximum size scaled by the device pixel ratio (the
ratio times the width and times the height, in binary64 as the source
multiplies) and rounded; `ptMaxTrackSize` equals `ptMaxSize`; `ptMinTrackSize`
is the minimum size scaled and rounded in the same way when that is not empty
and is left as received otherwise; `*result` is 0 and the filter returns
true. -/
theorem C15_minmaxinfo_sizes (g : Globals) (sys : System) (ud : UserData) (msg : MSG)
    (mem : Pointee) (hacc : accepts g sys msg = true) (hmsg : msg.message = WM_GETMINMAXINFO) :
    (nativeEventFilter g sys ud msg mem).mem.mmi.ptMaxSize =
      (if (windowDataOf sys ud msg.hwnd).maximumSize.width ≤ 0
          ∨ (windowDataOf sys ud msg.hwnd).maximumSize.height ≤ 0 then
        ⟨|(sys.GetMonitorInfoW (sys.MonitorFromWindowNearest msg.hwnd)).rcWork.right
            - (sys.GetMonitorInfoW (sys.MonitorFromWindowNearest msg.hwnd)).rcWork.left|,
         |(sys.GetMonitorInfoW (sys.MonitorFromWindowNearest msg.hwnd)).rcWork.bottom
            - (sys.GetMonitorInfoW (sys.MonitorFromWindowNearest msg.hwnd)).rcWork.top|⟩
      else
        ⟨stdRound (fmul (getDevicePixelRatioForWindow sys msg.hwnd)
            ((windowDataOf sys ud msg.hwnd).maximumSize.width : qreal)),
         stdRound (fmul (getDevicePixelRatioForWindow sys msg.hwnd)
            ((windowDataOf sys ud msg.hwnd).maximumSize.height : qreal))⟩) ∧
    (nativeEventFilter g sys ud msg mem).mem.mmi.ptMaxTrackSize
      = (nativeEventFilter g sys ud msg mem).mem.mmi.ptMaxSize ∧
    (nativeEventFilter g sys ud msg mem).mem.mmi.ptMinTrackSize =
      (if 0 < (windowDataOf sys ud msg.hwnd).minimumSize.width
          ∧ 0 < (windowDataOf sys ud msg.hwnd).minimumSize.height then
        ⟨stdRound (fmul (getDevicePixelRatioForWindow sys msg.hwnd)
            ((windowDataOf sys ud msg.hwnd).minimumSize.width : qreal)),
         stdRound (fmul (getDevicePixelRatioForWindow sys msg.hwnd)
            ((windowDataOf sys ud msg.hwnd).minimumSize.height : qreal))⟩
      else mem.mmi.ptMinTrackSize) ∧
    (nativeEventFilter g sys ud msg mem).result = some 0 ∧
    (nativeEventFilter g sys ud msg mem).ret = true := by
  obtain ⟨hret, hres, hmem⟩ := nativeEventFilter_getMinMaxInfo g sys ud msg mem hacc hmsg
  rw [hmem]
  refine ⟨?_, getMinMaxInfo_ptMaxTrackSize _ _ _ _, ?_, hres, hret⟩
  · rw [getMinMaxInfo_ptMaxSize]
    by_cases he : (windowDataOf sys ud msg.hwnd).maximumSize.isEmpty = true
    · rw [if_pos he, if_pos ((QSize.isEmpty_iff _).mp he)]
    · rw [if_neg he, if_neg (fun h => he ((QSize.isEmpty_iff _).mpr h))]
  · rw [getMinMaxInfo_ptMinTrackSize]
    by_cases he : (windowDataOf sys ud msg.hwnd).minimumSize.isEmpty = true
    · have hn : ¬ (0 < (windowDataOf sys ud msg.hwnd).minimumSize.width
          ∧ 0 < (windowDataOf sys ud msg.hwnd).minimumSize.height) := by
        have := (QSize.isEmpty_iff _).mp he
        omega
      rw [if_pos he, if_neg hn]
    · have hp : 0 < (windowDataOf sys ud msg.hwnd).minimumSize.width
          ∧ 0 < (windowDataOf sys ud msg.hwnd).minimumSize.height := by
        by_contra hc
        exact he ((QSize.isEmpty_iff _).mpr (by omega))
      rw [if_neg he, if_pos hp]

/-- Witness of C15: window 5 of the example on the 1920x1040 work area, without
a maximum size and with a maximum size of 3000x2000 at the ratio 1. -/
theorem C15_minmaxinfo_sizes_witness :
    (nativeEventFilter exampleGlobals exampleSystem noUserData minMaxInfoMsg
        examplePointee).mem.mmi.ptMaxSize = ⟨1920, 1040⟩ ∧
    (nativeEventFilter exampleGlobals exampleSystem (userDataWith largeMaximumData) minMaxInfoMsg
        examplePointee).mem.mmi.ptMaxSize = ⟨3000, 2000⟩ :=
  ⟨(C15_minmaxinfo_sizes exampleGlobals exampleSystem noUserData minMaxInfoMsg examplePointee
      (by decide) (by decide)).1.trans (by decide),
   (C15_minmaxinfo_sizes exampleGlobals exampleSystem (userDataWith largeMaximumData)
      minMaxInfoMsg examplePointee (by decide) (by decide)).1.trans (by
        have hwd : windowDataOf exampleSystem (userDataWith largeMaximumData) minMaxInfoMsg.hwnd
            = largeMaximumData := by decide
        have h1 : fmul 1 3000 = 3000 := by simpa using fmul_one_int 3000 (by norm_num)
        have h2 : fmul 1 2000 = 2000 := by simpa using fmul_one_int 2000 (by norm_num)
        rw [hwd, exampleSystem_dpr _ (by decide)]
        norm_num [largeMaximumData, QSize.width, QSize.height, stdRound, h1, h2])⟩

/-- C16: `getPreferedNumber` is the reference definition `Spec.preferedNumber`
for every input: the input itself, its floor or its ceiling under the
pass-through, floor and ceil policies of Qt 5.14 and later; under every other
policy, and always before Qt 5.14, the nearest integer (halves away from zero)
for a value below 96 and the DPI table for a value of 96 or more, with -1 from
432 on. -/
theorem C16_getPreferedNumber_reference (sys : System) (x : qreal) :
    getPreferedNumber sys x
      = Spec.preferedNumber sys.qtAtLeast_5_14 sys.highDpiScaleFactorRoundingPolicy x ∧
    ((sys.qtAtLeast_5_14 = false
        ∨ (sys.highDpiScaleFactorRoundingPolicy ≠ .PassThrough
            ∧ sys.highDpiScaleFactorRoundingPolicy ≠ .Floor
            ∧ sys.highDpiScaleFactorRoundingPolicy ≠ .Ceil)) →
      432 ≤ x → getPreferedNumber sys x = -1) := by
  have hr : ∀ y : qreal, getRoundedNumber y =
      (if y < 96 then (stdRound y : qreal)
        else if 96 ≤ y ∧ y < 144 then 96
        else if y = 144 then 144
        else if 144 < y ∧ y < 240 then 192
        else if y = 240 then 240
        else if 240 < y ∧ y < 336 then 288
        else if y = 336 then 336
        else if 336 < y ∧ y < 432 then 384
        else -1) := by
    intro y
    have e1 : ((96 : ℕ) : qreal) = 96 := by norm_num
    have e2 : (96 : qreal) * (3 / 2) = 144 := by norm_num
    have e3 : (96 : qreal) * (5 / 2) = 240 := by norm_num
    have e4 : (96 : qreal) * (7 / 2) = 336 := by norm_num
    have e5 : (96 : qreal) * (9 / 2) = 432 := by norm_num
    have e6 : (96 : qreal) * 2 = 192 := by norm_num
    have e7 : (96 : qreal) * 3 = 288 := by norm_num
    have e8 : (96 : qreal) * 4 = 384 := by norm_num
    unfold getRoundedNumber m_defaultDotsPerInch USER_DEFAULT_SCREEN_DPI
    simp only [e1, e2, e3, e4, e5, e6, e7, e8]
    by_cases h1 : y < 96
    · simp [h1]
    · have g1 : 96 ≤ y := not_lt.mp h1
      by_cases h2 : y < 144
      · simp [h1, h2, g1]
      · by_cases h3 : y = 144
        · subst h3; norm_num
        · have g3 : 144 < y := lt_of_le_of_ne (not_lt.mp h2) (Ne.symm h3)
          by_cases h4 : y < 240
          · simp [h1, h2, h3, h4, g3]
          · by_cases h5 : y = 240
            · subst h5; norm_num
            · have g5 : 240 < y := lt_of_le_of_ne (not_lt.mp h4) (Ne.symm h5)
              by_cases h6 : y < 336
              · simp [h1, h2, h3, h4, h5, h6, g5]
              · by_cases h7 : y = 336
                · subst h7; norm_num
                · have g7 : 336 < y := lt_of_le_of_ne (not_lt.mp h6) (Ne.symm h7)
                  by_cases h8 : y < 432
                  · simp [h1, h2, h3, h4, h5, h6, h7, h8, g7]
                  · simp [h1, h2, h3, h4, h5, h6, h7, h8]
  have hbig : ∀ y : qreal, 432 ≤ y → getRoundedNumber y = -1 := by
    intro y hy
    rw [hr y, if_neg (not_lt.mpr (by linarith)), if_neg (fun h => by linarith [h.2]),
      if_neg (fun h => by linarith), if_neg (fun h => by linarith [h.2]),
      if_neg (fun h => by linarith), if_neg (fun h => by linarith [h.2]),
      if_neg (fun h => by linarith), if_neg (fun h => by linarith [h.2])]
  constructor
  · unfold getPreferedNumber Spec.preferedNumber stdFloor stdCeil
    cases hq : sys.qtAtLeast_5_14 <;> cases hp : sys.highDpiScaleFactorRoundingPolicy <;>
      simp [hr]
  · intro hd hx
    unfold getPreferedNumber
    rcases hd with hq | ⟨h1, h2, h3⟩
    · simp [hq, hbig x hx]
    · have hb := hbig x hx
      clear hr hbig
      cases hq : sys.qtAtLeast_5_14 <;> cases hp : sys.highDpiScaleFactorRoundingPolicy <;>
        simp [hp, hb] at h1 h2 h3 ⊢

/-! ## The sources of the sizes -/

/-- C17: the order of the size sources. For a non-null handle `borderWidth` is
the window's own `WINDOWDATA` border width times the device pixel ratio (in
binary64 as the source multiplies), rounded, when that width is positive, else the global value of `setBorderWidth`
as it is when that is positive, else the sum of the system metrics
`SM_CXFRAME` and `SM_CXPADDEDBORDER` of the window; `borderHeight` likewise
with `SM_CYFRAME` and `SM_CXPADDEDBORDER`; `titlebarHeight` likewise with
`borderHeight(handle)` plus `SM_CYCAPTION`. For a null handle the per-window
step is skipped: the user data is left as it was and the result is the global
value or the system default. -/
theorem C17_size_precedence (g : Globals) (sys : System) (ud : UserData) (h : HWND) :
    (h ≠ 0 →
      (borderWidth g sys ud h).2 =
        (if 0 < (windowDataOf sys ud h).borderWidth then
          stdRound (fmul ((windowDataOf sys ud h).borderWidth : qreal)
            (getDevicePixelRatioForWindow sys h))
        else if 0 < g.m_borderWidth then g.m_borderWidth
        else getSystemMetricsForWindow sys h SM_CXFRAME
          + getSystemMetricsForWindow sys h SM_CXPADDEDBORDER) ∧
      (borderHeight g sys ud h).2 =
        (if 0 < (windowDataOf sys ud h).borderHeight then
          stdRound (fmul ((windowDataOf sys ud h).borderHeight : qreal)
            (getDevicePixelRatioForWindow sys h))
        else if 0 < g.m_borderHeight then g.m_borderHeight
        else getSystemMetricsForWindow sys h SM_CYFRAME
          + getSystemMetricsForWindow sys h SM_CXPADDEDBORDER) ∧
      (titlebarHeight g sys ud h).2 =
        (if 0 < (windowDataOf sys ud h).titlebarHeight then
          stdRound (fmul ((windowDataOf sys ud h).titlebarHeight : qreal)
            (getDevicePixelRatioForWindow sys h))
        else if 0 < g.m_titlebarHeight then g.m_titlebarHeight
        else (borderHeight g sys ud h).2 + getSystemMetricsForWindow sys h SM_CYCAPTION)) ∧
    (borderWidth g sys ud 0 =
      (ud, if 0 < g.m_borderWidth then g.m_borderWidth
        else getSystemMetricsForWindow sys 0 SM_CXFRAME
          + getSystemMetricsForWindow sys 0 SM_CXPADDEDBORDER)) ∧
    (borderHeight g sys ud 0 =
      (ud, if 0 < g.m_borderHeight then g.m_borderHeight
        else getSystemMetricsForWindow sys 0 SM_CYFRAME
          + getSystemMetricsForWindow sys 0 SM_CXPADDEDBORDER)) ∧
    (titlebarHeight g sys ud 0 =
      (ud, if 0 < g.m_titlebarHeight then g.m_titlebarHeight
        else (borderHeight g sys ud 0).2 + getSystemMetricsForWindow sys 0 SM_CYCAPTION)) ∧
    (∀ v : Int, (setBorderWidth g v).m_borderWidth = v
      ∧ (setBorderHeight g v).m_borderHeight = v
      ∧ (setTitlebarHeight g v).m_titlebarHeight = v) := by
  have hw0 : borderWidth g sys ud 0 =
      (ud, if 0 < g.m_borderWidth then g.m_borderWidth
        else getSystemMetricsForWindow sys 0 SM_CXFRAME
          + getSystemMetricsForWindow sys 0 SM_CXPADDEDBORDER) := by
    unfold borderWidth
    simp only [ne_eq, not_true_eq_false, if_false, false_and]
    split_ifs <;> rfl
  have hh0 : borderHeight g sys ud 0 =
      (ud, if 0 < g.m_borderHeight then g.m_borderHeight
        else getSystemMetricsForWindow sys 0 SM_CYFRAME
          + getSystemMetricsForWindow sys 0 SM_CXPADDEDBORDER) := by
    unfold borderHeight
    simp only [ne_eq, not_true_eq_false, if_false, false_and]
    split_ifs <;> rfl
  refine ⟨fun hne => ⟨borderWidth_snd g sys ud h hne, borderHeight_snd g sys ud h hne,
    titlebarHeight_snd g sys ud h hne⟩, hw0, hh0, ?_, ?_⟩
  · unfold titlebarHeight
    simp only [ne_eq, not_true_eq_false, if_false, false_and]
    rw [hh0]
    split_ifs <;> rfl
  · intro v
    unfold setBorderWidth setBorderHeight setTitlebarHeight
    refine ⟨?_, ?_, ?_⟩ <;> split_ifs with hv <;> first | rfl | (simp only [ne_eq, not_not] at hv; exact hv)

/-- Witness of C17: window 5 at 192 DPI with a border width of 8 of its own,
which is scaled to 16. -/
theorem C17_size_precedence_witness :
    (borderWidth exampleGlobals hiDpiSystem (userDataWith borderEightData) 5).2 = 16 :=
  ((C17_size_precedence exampleGlobals hiDpiSystem (userDataWith borderEightData) 5).1
    (by decide)).1.trans (by
      have hw : windowDataOf hiDpiSystem (userDataWith borderEightData) 5 = borderEightData := by
        decide
      have h1 : fmul 8 2 = 16 := by simpa using fmul_eq_int 8 2 16 (by norm_num) (by norm_num)
      rw [hw, hiDpiSystem_dpr 5 (by decide)]
      norm_num [borderEightData, stdRound, h1])

/-- C18, counterexample: the example system under the policy `Round` at 144 DPI
without `GetSystemMetricsForDpi`. The two roundings disagree (1.5 against 2),
yet `getSystemMetricsForWindow` scales the metric of `GetSystemMetrics` by the
device pixel ratio 2, the factor by which a custom size is scaled: the caption
metric 23 and a window's own title-bar height of 23 both come out as 46. -/
theorem C18_counterexample :
    Spec.defaultRounding legacyRoundingSystem ∧
    getDotsPerInchForWindow legacyRoundingSystem 5 = 144 ∧
    getPreferedNumber legacyRoundingSystem (144 : qreal) / 96 = 3 / 2 ∧
    getDevicePixelRatioForWindow legacyRoundingSystem 5 = 2 ∧
    legacyRoundingSystem.GetSystemMetrics SM_CYCAPTION = 23 ∧
    (windowDataOf legacyRoundingSystem (userDataWith captionHeightData) 5).titlebarHeight = 23 ∧
    getSystemMetricsForWindow legacyRoundingSystem 5 SM_CYCAPTION =
      stdRound (fmul (23 : qreal) (getDevicePixelRatioForWindow legacyRoundingSystem 5)) ∧
    (titlebarHeight exampleGlobals legacyRoundingSystem (userDataWith captionHeightData) 5).2 =
      stdRound (fmul (23 : qreal) (getDevicePixelRatioForWindow legacyRoundingSystem 5)) ∧
    getSystemMetricsForWindow legacyRoundingSystem 5 SM_CYCAPTION = 46 ∧
    (titlebarHeight exampleGlobals legacyRoundingSystem (userDataWith captionHeightData) 5).2
      = 46 := by
  have r1 : getRoundedNumber (144 : qreal) = 144 := by
    unfold getRoundedNumber m_defaultDotsPerInch USER_DEFAULT_SCREEN_DPI
    norm_num
  have r2 : getRoundedNumber ((3 : qreal) / 2) = 2 := by
    unfold getRoundedNumber m_defaultDotsPerInch USER_DEFAULT_SCREEN_DPI stdRound
    norm_num
  have hd : getDevicePixelRatioForWindow legacyRoundingSystem 5 = 2 := by
    simp [getDevicePixelRatioForWindow, getPreferedNumber, legacyRoundingSystem, roundingSystem,
      exampleSystem, getDotsPerInchForWindow, m_defaultDotsPerInch, USER_DEFAULT_SCREEN_DPI,
      fdiv_144_96, r2]
  have hm : legacyRoundingSystem.GetSystemMetrics SM_CYCAPTION = 23 := by decide
  have hw : (windowDataOf legacyRoundingSystem (userDataWith captionHeightData) 5).titlebarHeight
      = 23 := by decide
  have h46 : fmul (23 : qreal) 2 = 46 := by
    simpa using fmul_eq_int 23 2 46 (by norm_num) (by norm_num)
  have hs : getSystemMetricsForWindow legacyRoundingSystem 5 SM_CYCAPTION =
      stdRound (fmul (23 : qreal) (getDevicePixelRatioForWindow legacyRoundingSystem 5)) := by
    have hn : legacyRoundingSystem.lpGetSystemMetricsForDpi = none := rfl
    unfold getSystemMetricsForWindow
    rw [hn, hm]
    norm_num
  have ht : (titlebarHeight exampleGlobals legacyRoundingSystem
      (userDataWith captionHeightData) 5).2 =
      stdRound (fmul (23 : qreal) (getDevicePixelRatioForWindow legacyRoundingSystem 5)) := by
    rw [titlebarHeight_snd _ _ _ 5 (by decide), hw]
    norm_num
  have hv : stdRound (fmul (23 : qreal) (getDevicePixelRatioForWindow legacyRoundingSystem 5))
      = 46 := by
    rw [hd, h46]
    norm_num [stdRound]
  refine ⟨by decide, by decide, ?_, hd, hm, hw, hs, ht, hs.trans hv, ht.trans hv⟩
  have hp : getPreferedNumber legacyRoundingSystem (144 : qreal) = 144 := by
    simp [getPreferedNumber, legacyRoundingSystem, roundingSystem, exampleSystem, r1]
  rw [hp]
  norm_num

/-- C18, amended: under the default rounding the two uses of `getPreferedNumber`
disagree at 144 DPI (150% scaling), a DPI between 96 and 432: as a DPI, 144 is
kept, a scale factor of 1.5; as a device pixel ratio, 144 / 96 is rounded to 2.
So for a window at 144 DPI the device pixel ratio is 2 and a border width of
the window's own is scaled by 2; `getSystemMetricsForWindow` returns the metric
that `GetSystemMetricsForDpi` gives for DPI 144, a scale factor of 1.5, where
that function is available, and the metric of `GetSystemMetrics` scaled by the
same ratio 2 where it is not. -/
theorem C18_dpi_and_dpr_rounding_amended (sys : System) (hdef : Spec.defaultRounding sys) :
    getPreferedNumber sys (144 : qreal) / 96 = 3 / 2 ∧
    getPreferedNumber sys (fdiv 144 96) = 2 ∧
    (∃ d : Nat, 96 ≤ d ∧ d < 432 ∧
      getPreferedNumber sys (d : qreal) / 96 ≠ getPreferedNumber sys (fdiv (d : qreal) 96)) ∧
    (∀ h : HWND, h ≠ 0 → getDotsPerInchForWindow sys h = 144 →
      getDevicePixelRatioForWindow sys h = 2 ∧
      (∀ (g : Globals) (ud : UserData), 0 < (windowDataOf sys ud h).borderWidth →
        (borderWidth g sys ud h).2
          = stdRound (fmul ((windowDataOf sys ud h).borderWidth : qreal) 2)) ∧
      (∀ f, sys.lpGetSystemMetricsForDpi = some f →
        ∀ index, getSystemMetricsForWindow sys h index = f index 144) ∧
      (sys.lpGetSystemMetricsForDpi = none →
        ∀ index, getSystemMetricsForWindow sys h index
          = stdRound (fmul (sys.GetSystemMetrics index : qreal) 2))) := by
  have hp : ∀ y : qreal, getPreferedNumber sys y = getRoundedNumber y := by
    intro y
    unfold getPreferedNumber
    rcases hdef with hq | ⟨h1, h2, h3⟩
    · simp [hq]
    · cases hq : sys.qtAtLeast_5_14 <;> cases hpol : sys.highDpiScaleFactorRoundingPolicy <;>
        simp [hpol] at h1 h2 h3 ⊢
  have r1 : getRoundedNumber (144 : qreal) = 144 := by
    unfold getRoundedNumber m_defaultDotsPerInch USER_DEFAULT_SCREEN_DPI
    norm_num
  have r2 : getRoundedNumber ((3 : qreal) / 2) = 2 := by
    unfold getRoundedNumber m_defaultDotsPerInch USER_DEFAULT_SCREEN_DPI stdRound
    norm_num
  have a1 : getPreferedNumber sys (144 : qreal) / 96 = 3 / 2 := by
    rw [hp, r1]; norm_num
  have a2 : getPreferedNumber sys (fdiv 144 96) = 2 := by rw [fdiv_144_96, hp, r2]
  refine ⟨a1, a2, ⟨144, by decide, by decide, ?_⟩, ?_⟩
  · have e : ((144 : ℕ) : qreal) = 144 := by norm_num
    rw [e, a1, a2]
    norm_num
  · intro h hne hdpi
    have hd : getDevicePixelRatioForWindow sys h = 2 := by
      unfold getDevicePixelRatioForWindow
      simp only [hne, ne_eq, not_false_eq_true, if_true, hdpi, m_defaultDotsPerInch,
        USER_DEFAULT_SCREEN_DPI]
      have e1 : ((144 : ℕ) : qreal) = 144 := by norm_num
      have e2 : ((96 : ℕ) : qreal) = 96 := by norm_num
      rw [e1, e2, a2]
    refine ⟨hd, ?_, ?_, ?_⟩
    · intro g ud hb
      rw [borderWidth_snd g sys ud h hne, if_pos hb, hd]
    · intro f hf index
      unfold getSystemMetricsForWindow
      rw [hf, hdpi]
      have e : ((144 : ℕ) : qreal) = 144 := by norm_num
      have r : stdRound (144 : qreal) = 144 := by norm_num [stdRound]
      have u : toUINT 144 = 144 := by decide
      simp only [e, hp, r1, r, u]
    · intro hn index
      unfold getSystemMetricsForWindow
      rw [hn, hd]

/-- Witness of C18, amended: window 5 of the example system under the policy
`Round` at 144 DPI, where `GetSystemMetricsForDpi` is available. -/
theorem C18_dpi_and_dpr_rounding_amended_witness :
    getPreferedNumber roundingSystem (144 : qreal) / 96 = 3 / 2 ∧
    getPreferedNumber roundingSystem (fdiv 144 96) = 2 ∧
    getDevicePixelRatioForWindow roundingSystem 5 = 2 ∧
    getSystemMetricsForWindow roundingSystem 5 SM_CYCAPTION = 23 :=
  have h := C18_dpi_and_dpr_rounding_amended roundingSystem (by decide)
  have h5 := h.2.2.2 5 (by decide) (by decide)
  ⟨h.1, h.2.1, h5.1,
    (h5.2.2.1 (fun index _ => if index = 4 then 23 else 4) rfl SM_CYCAPTION).trans (by decide)⟩

/-! ## The operations on the frameless-window list -/

theorem accepts_of_empty_list (g : Globals) (sys : System) (msg : MSG)
    (hl : g.m_framelessWindows = []) (hne : msg.hwnd ≠ 0) (htop : Spec.topLevel sys msg.hwnd) :
    accepts g sys msg = true := by
  rw [accepts_iff_eligible]
  exact ⟨hne, Or.inr ⟨hl, htop⟩⟩

theorem removeFramelessWindow_list (g : Globals) (w : HWND) (hw : w ≠ 0) :
    (removeFramelessWindow g w).m_framelessWindows
      = g.m_framelessWindows.filter (fun v => v != w) := by
  unfold removeFramelessWindow
  by_cases hc : g.m_framelessWindows.contains w = true
  · rw [if_pos ⟨hw, hc⟩]
  · rw [if_neg (fun h => hc h.2)]
    symm
    rw [List.filter_eq_self]
    intro a ha
    have : a ≠ w := by
      intro e
      subst e
      exact hc (by simpa using ha)
    simpa using this

/-- C19: removing or clearing windows never uninstalls the filter. From an
installed filter whose list is `[w]`, `removeFramelessWindow(w)` leaves an
empty list and the filter installed, so that it handles the messages of every
top-level window, `w` included when it is top level, and `WM_NCCALCSIZE` to
such a window returns true with 0 in `*result`. When the list is not empty
after `removeFramelessWindow(w)`, every message to `w` returns false and
writes nothing to `*result`. -/
theorem C19_empty_list_keeps_filtering (g : Globals) (sys : System) (w : HWND)
    (hinst : g.m_instance = true) :
    (removeFramelessWindow g w).m_instance = true ∧
    (clearFramelessWindows g).m_instance = true ∧
    (g.m_framelessWindows = [w] → w ≠ 0 →
      (removeFramelessWindow g w).m_framelessWindows = [] ∧
      ∀ msg : MSG, msg.hwnd ≠ 0 → Spec.topLevel sys msg.hwnd →
        accepts (removeFramelessWindow g w) sys msg = true ∧
        (msg.message = WM_NCCALCSIZE → ∀ (ud : UserData) (mem : Pointee),
          (nativeEventFilter (removeFramelessWindow g w) sys ud msg mem).ret = true ∧
          (nativeEventFilter (removeFramelessWindow g w) sys ud msg mem).result = some 0)) ∧
    ((removeFramelessWindow g w).m_framelessWindows ≠ [] →
      ∀ (msg : MSG) (ud : UserData) (mem : Pointee), msg.hwnd = w →
        (nativeEventFilter (removeFramelessWindow g w) sys ud msg mem).ret = false ∧
        (nativeEventFilter (removeFramelessWindow g w) sys ud msg mem).result = none) := by
  refine ⟨?_, ?_, ?_, ?_⟩
  · unfold removeFramelessWindow
    split_ifs <;> exact hinst
  · unfold clearFramelessWindows
    split_ifs <;> exact hinst
  · intro hl hw
    have he : (removeFramelessWindow g w).m_framelessWindows = [] := by
      rw [removeFramelessWindow_list g w hw, hl]
      simp
    refine ⟨he, ?_⟩
    intro msg hne htop
    have hacc := accepts_of_empty_list (removeFramelessWindow g w) sys msg he hne htop
    refine ⟨hacc, ?_⟩
    intro hm ud mem
    obtain ⟨hret, hres, _⟩ :=
      nativeEventFilter_ncCalcSize (removeFramelessWindow g w) sys ud msg mem hacc hm
    exact ⟨hret, hres⟩
  · intro hl msg ud mem hmw
    have hn : ¬ Spec.eligible (removeFramelessWindow g w) sys msg := by
      rintro ⟨hne, h | h⟩
      · rw [hmw] at hne
        have hmem := h.2
        rw [hmw, removeFramelessWindow_list g w hne, List.mem_filter] at hmem
        simp at hmem
      · exact hl h.1
    have ha : accepts (removeFramelessWindow g w) sys msg = false := by
      cases h : accepts (removeFramelessWindow g w) sys msg with
      | false => rfl
      | true => exact absurd ((accepts_iff_eligible _ sys msg).mp h) hn
    unfold nativeEventFilter
    simp [ha]

/-- Witness of C19: the installed filter with the list `[5]`, after
`removeFramelessWindow(5)`, on `WM_NCCALCSIZE` to window 5. -/
theorem C19_empty_list_keeps_filtering_witness :
    (nativeEventFilter (removeFramelessWindow exampleGlobals 5) exampleSystem noUserData
        (calcSizeMsg 1) examplePointee).ret = true ∧
    (nativeEventFilter (removeFramelessWindow exampleGlobals 5) exampleSystem noUserData
        (calcSizeMsg 1) examplePointee).result = some 0 :=
  (((C19_empty_list_keeps_filtering exampleGlobals exampleSystem 5 (by decide)).2.2.1
    (by decide) (by decide)).2 (calcSizeMsg 1) (by decide) (by decide)).2 (by decide)
    noUserData examplePointee

/-- C20: the operations on the frameless-window list keep it free of the null
handle and of duplicates. `addFramelessWindow(w)` appends `w` when `w` is
non-null and not in the list, and otherwise changes neither the globals nor
any window data, whatever data is passed; `removeFramelessWindow(w)` removes
every occurrence of `w` and keeps the other handles in order;
`clearFramelessWindows` and `uninstall` leave the list empty. -/
theorem C20_list_invariant (g : Globals) (sys : System) (ud : UserData) (w : HWND)
    (data : Option WINDOWDATA) (hinv : Spec.listInvariant g.m_framelessWindows) :
    Spec.listInvariant (addFramelessWindow g sys ud w data).1.m_framelessWindows ∧
    Spec.listInvariant (removeFramelessWindow g w).m_framelessWindows ∧
    Spec.listInvariant (clearFramelessWindows g).m_framelessWindows ∧
    Spec.listInvariant (uninstall g).m_framelessWindows ∧
    (w ≠ 0 ∧ w ∉ g.m_framelessWindows →
      (addFramelessWindow g sys ud w data).1.m_framelessWindows = g.m_framelessWindows ++ [w]) ∧
    (¬ (w ≠ 0 ∧ w ∉ g.m_framelessWindows) →
      addFramelessWindow g sys ud w data = (g, ud)) ∧
    (removeFramelessWindow g w).m_framelessWindows
      = g.m_framelessWindows.filter (fun v => v != w) ∧
    (clearFramelessWindows g).m_framelessWindows = [] ∧
    (uninstall g).m_framelessWindows = [] := by
  obtain ⟨h0, hnd⟩ := hinv
  have hadd : w ≠ 0 ∧ w ∉ g.m_framelessWindows →
      (addFramelessWindow g sys ud w data).1.m_framelessWindows = g.m_framelessWindows ++ [w] := by
    rintro ⟨hw, hm⟩
    unfold addFramelessWindow install
    have hc : (w ≠ 0 ∧ (!g.m_framelessWindows.contains w) = true) := ⟨hw, by simpa using hm⟩
    rw [if_pos hc]
    dsimp only
    split_ifs <;> rfl
  have hadd' : ¬ (w ≠ 0 ∧ w ∉ g.m_framelessWindows) →
      addFramelessWindow g sys ud w data = (g, ud) := by
    intro hn
    unfold addFramelessWindow
    have hc : ¬ (w ≠ 0 ∧ (!g.m_framelessWindows.contains w) = true) := by
      rintro ⟨hw, hm⟩
      exact hn ⟨hw, by simpa using hm⟩
    rw [if_neg hc]
  have hrem : (removeFramelessWindow g w).m_framelessWindows
      = g.m_framelessWindows.filter (fun v => v != w) := by
    by_cases hw : w = 0
    · subst hw
      unfold removeFramelessWindow
      simp only [ne_eq, not_true_eq_false, false_and, if_false]
      symm
      rw [List.filter_eq_self]
      intro a ha
      have : a ≠ 0 := fun e => h0 (e ▸ ha)
      simpa using this
    · exact removeFramelessWindow_list g w hw
  have hclr : (clearFramelessWindows g).m_framelessWindows = [] := by
    unfold clearFramelessWindows
    cases hl : g.m_framelessWindows <;> simp [hl]
  have huni : (uninstall g).m_framelessWindows = [] := by
    unfold uninstall
    cases hl : g.m_framelessWindows <;> cases hi : g.m_instance <;> simp [hl, hi]
  refine ⟨?_, ?_, ?_, ?_, hadd, hadd', hrem, hclr, huni⟩
  · by_cases hc : w ≠ 0 ∧ w ∉ g.m_framelessWindows
    · rw [hadd hc]
      refine ⟨?_, ?_⟩
      · simp only [List.mem_append, List.mem_singleton, not_or]
        exact ⟨h0, fun e => hc.1 e.symm⟩
      · rw [List.nodup_append]
        refine ⟨hnd, List.nodup_singleton w, ?_⟩
        intro a ha hb
        rw [List.mem_singleton] at hb
        subst hb
        exact hc.2 ha
    · rw [hadd' hc]
      exact ⟨h0, hnd⟩
  · rw [hrem]
    exact ⟨fun hm => h0 (List.mem_filter.mp hm).1, hnd.filter _⟩
  · rw [hclr]
    exact ⟨by simp, List.nodup_nil⟩
  · rw [huni]
    exact ⟨by simp, List.nodup_nil⟩

/-- Witness of C20: the list `[5]` and the window 7. -/
theorem C20_list_invariant_witness :
    (addFramelessWindow exampleGlobals exampleSystem noUserData 7 none).1.m_framelessWindows
      = [5, 7] :=
  ((C20_list_invariant exampleGlobals exampleSystem noUserData 7 none (by decide)).2.2.2.2.1
    (by decide)).trans (by decide)

/-- C21: `setFramelessWindows` cannot clear the list. With the empty vector it
changes nothing: `framelessWindows()` is the list it was and the filter is not
installed by the call. With a non-empty vector `V`, `framelessWindows()` is `V`
afterwards, whatever null or duplicate handles `V` holds. -/
theorem C21_setFramelessWindows_cannot_clear (g : Globals) (V : List HWND) :
    setFramelessWindows g [] = g ∧
    framelessWindows (setFramelessWindows g []) = framelessWindows g ∧
    (setFramelessWindows g []).m_instance = g.m_instance ∧
    (V ≠ [] → framelessWindows (setFramelessWindows g V) = V) := by
  have h0 : setFramelessWindows g [] = g := by
    unfold setFramelessWindows
    simp
  refine ⟨h0, by rw [h0], by rw [h0], ?_⟩
  intro hV
  unfold framelessWindows setFramelessWindows install
  by_cases he : V = g.m_framelessWindows
  · simp [he]
  · have hne : V.isEmpty = false := by
      cases V with
      | nil => exact absurd rfl hV
      | cons a r => rfl
    simp only [hne, Bool.not_false, Bool.true_and, bne_iff_ne, ne_eq, he, not_false_eq_true,
      if_true]
    split_ifs <;> rfl

/-- Witness of C21: the list `[5]` and the vector `[0, 7, 7]`, with a null and
a duplicate handle; the empty vector on the list `[5]` and on the initial
globals, where no filter is installed. -/
theorem C21_setFramelessWindows_cannot_clear_witness :
    framelessWindows (setFramelessWindows exampleGlobals [0, 7, 7]) = [0, 7, 7] ∧
    framelessWindows (setFramelessWindows exampleGlobals []) = [5] ∧
    (setFramelessWindows Globals.initial []).m_instance = false :=
  ⟨(C21_setFramelessWindows_cannot_clear exampleGlobals [0, 7, 7]).2.2.2 (by decide),
   by decide, by decide⟩

/-! ## The binary64 arithmetic at 110 and 196 DPI -/

/-- A rational halfway between the integers `m` and `m + 1` rounds to the even one. -/
theorem roundHalfEven_tie (q : ℚ) (m : ℤ) (h : q = m + 1 / 2) :
    roundHalfEven q = if m % 2 = 0 then m else m + 1 := by
  have hf : ⌊q⌋ = m := by
    rw [Int.floor_eq_iff, h]
    constructor <;> norm_num
  unfold roundHalfEven
  rw [hf, h, if_neg (by norm_num), if_neg (by norm_num)]

/-- The device pixel ratio of the example system at 110 DPI. -/
theorem dpi110System_dpr (h : HWND) (hne : h ≠ 0) :
    getDevicePixelRatioForWindow dpi110System h = 5160374573028693 / 4503599627370496 := by
  simp [getDevicePixelRatioForWindow, getPreferedNumber, dpi110System, exampleSystem,
    getDotsPerInchForWindow, m_defaultDotsPerInch, USER_DEFAULT_SCREEN_DPI, hne, fdiv_110_96]

/-- The rectangle (216, 0, 96, 40) scaled at 110 DPI is (247, 0, 110, 46): x 247
to 356, y 0 to 45. The product for the width is halfway between two binary64
numbers and goes to the even one, 110. -/
theorem scaled_at_110_dpi :
    Spec.scaled (QRect.ofXYWH 216 0 96 40) (5160374573028693 / 4503599627370496)
      = QRect.ofXYWH 247 0 110 46 := by
  have hx : stdRound (fmul 216 (5160374573028693 / 4503599627370496)) = 247 := by
    have h := stdRound_fmul_216_at_110_dpi.1
    rw [fdiv_110_96] at h
    exact h
  have hy : stdRound (fmul 0 (5160374573028693 / 4503599627370496)) = 0 := by
    norm_num [fmul, binary64, stdRound]
  have hw : stdRound (fmul 96 (5160374573028693 / 4503599627370496)) = 110 := by
    unfold fmul
    rw [binary64_eval (96 * (5160374573028693 / 4503599627370496)) (-46) 7740561859543040
      (by norm_num) (by norm_num)
      ((roundHalfEven_tie _ 7740561859543039 (by norm_num)).trans (by decide))]
    norm_num [stdRound]
  have hh : stdRound (fmul 40 (5160374573028693 / 4503599627370496)) = 46 := by
    unfold fmul
    rw [binary64_eval (40 * (5160374573028693 / 4503599627370496)) (-47) 6450468216285866
      (by norm_num) (by norm_num) (roundHalfEven_eq _ _ (by norm_num) (by norm_num))]
    unfold stdRound
    rw [if_pos (by norm_num), Int.floor_eq_iff]
    constructor <;> norm_num
  have e1 : (QRect.ofXYWH 216 0 96 40).x = 216 := by decide
  have e2 : (QRect.ofXYWH 216 0 96 40).y = 0 := by decide
  have e3 : (QRect.ofXYWH 216 0 96 40).width = 96 := by decide
  have e4 : (QRect.ofXYWH 216 0 96 40).height = 40 := by decide
  unfold Spec.scaled
  rw [e1, e2, e3, e4]
  have c1 : ((216 : Int) : qreal) = 216 := by norm_num
  have c2 : ((0 : Int) : qreal) = 0 := by norm_num
  have c3 : ((96 : Int) : qreal) = 96 := by norm_num
  have c4 : ((40 : Int) : qreal) = 40 := by norm_num
  rw [c1, c2, c3, c4, hx, hy, hw, hh]

/-- The hit test at 110 DPI under pass-through rounding, where binary64 and exact
arithmetic part: with (216, 0, 96, 40) as the ignore area the mouse at (356, 10)
is on the right edge of the scaled area, not strictly inside, and gets
`HTCAPTION`; with the same rectangle as the draggable area the mouse at
(248, 10) is strictly inside and gets `HTCAPTION`. -/
theorem hitTest_at_110_dpi :
    (nativeEventFilter exampleGlobals dpi110System (userDataWith wideIgnoreData)
      (hitTestMsg 356 10) examplePointee).result = some HTCAPTION ∧
    (nativeEventFilter exampleGlobals dpi110System (userDataWith wideDraggableData)
      (hitTestMsg 248 10) examplePointee).result = some HTCAPTION := by
  constructor
  · rw [(nativeEventFilter_hitTest exampleGlobals dpi110System (userDataWith wideIgnoreData)
      (hitTestMsg 356 10) examplePointee (by decide) (by decide) (by decide)).2]
    have hi : isInSpecificAreas (clientMouse dpi110System (hitTestMsg 356 10)).x
        (clientMouse dpi110System (hitTestMsg 356 10)).y
        (windowDataOf dpi110System (userDataWith wideIgnoreData) (hitTestMsg 356 10).hwnd).ignoreAreas
        (getDevicePixelRatioForWindow dpi110System (hitTestMsg 356 10).hwnd) = false := by
      cases hb : isInSpecificAreas (clientMouse dpi110System (hitTestMsg 356 10)).x
        (clientMouse dpi110System (hitTestMsg 356 10)).y
        (windowDataOf dpi110System (userDataWith wideIgnoreData)
          (hitTestMsg 356 10).hwnd).ignoreAreas
        (getDevicePixelRatioForWindow dpi110System (hitTestMsg 356 10).hwnd) with
      | false => rfl
      | true =>
        obtain ⟨a, ha, _, hs⟩ := (isInSpecificAreas_iff _ _ _ _).mp hb
        have hl : (windowDataOf dpi110System (userDataWith wideIgnoreData)
            (hitTestMsg 356 10).hwnd).ignoreAreas = [QRect.ofXYWH 216 0 96 40] := by decide
        rw [hl, List.mem_singleton] at ha
        rw [ha, dpi110System_dpr _ (by decide), scaled_at_110_dpi] at hs
        unfold Spec.strictlyInside at hs
        revert hs
        decide
    have htb : Spec.titlebarCondition (dpi110System.GetClientRect (hitTestMsg 356 10).hwnd).right
        (dpi110System.GetClientRect (hitTestMsg 356 10).hwnd).bottom
        (titlebarHeight exampleGlobals dpi110System (userDataWith wideIgnoreData)
          (hitTestMsg 356 10).hwnd).2
        (windowDataOf dpi110System (userDataWith wideIgnoreData) (hitTestMsg 356 10).hwnd)
        (getDevicePixelRatioForWindow dpi110System (hitTestMsg 356 10).hwnd)
        (clientMouse dpi110System (hitTestMsg 356 10)).x
        (clientMouse dpi110System (hitTestMsg 356 10)).y = true := by
      unfold Spec.titlebarCondition
      rw [hi]
      decide
    rw [htb]
    decide
  · rw [(nativeEventFilter_hitTest exampleGlobals dpi110System (userDataWith wideDraggableData)
      (hitTestMsg 248 10) examplePointee (by decide) (by decide) (by decide)).2]
    have hi : isInSpecificAreas (clientMouse dpi110System (hitTestMsg 248 10)).x
        (clientMouse dpi110System (hitTestMsg 248 10)).y
        (windowDataOf dpi110System (userDataWith wideDraggableData)
          (hitTestMsg 248 10).hwnd).draggableAreas
        (getDevicePixelRatioForWindow dpi110System (hitTestMsg 248 10).hwnd) = true := by
      refine (isInSpecificAreas_iff _ _ _ _).mpr ⟨QRect.ofXYWH 216 0 96 40, by decide, by decide, ?_⟩
      rw [dpi110System_dpr _ (by decide), scaled_at_110_dpi]
      unfold Spec.strictlyInside
      decide
    have htb : Spec.titlebarCondition (dpi110System.GetClientRect (hitTestMsg 248 10).hwnd).right
        (dpi110System.GetClientRect (hitTestMsg 248 10).hwnd).bottom
        (titlebarHeight exampleGlobals dpi110System (userDataWith wideDraggableData)
          (hitTestMsg 248 10).hwnd).2
        (windowDataOf dpi110System (userDataWith wideDraggableData) (hitTestMsg 248 10).hwnd)
        (getDevicePixelRatioForWindow dpi110System (hitTestMsg 248 10).hwnd)
        (clientMouse dpi110System (hitTestMsg 248 10)).x
        (clientMouse dpi110System (hitTestMsg 248 10)).y = true := by
      unfold Spec.titlebarCondition
      rw [hi]
      decide
    rw [htb]
    decide

/-- The binary64 arithmetic at 196 DPI: 60 times the binary64 value of 196 / 96
lies just below 122.5 and is rounded to 122, where the exact product 122.5
would be rounded to 123. -/
theorem stdRound_fmul_60_at_196_dpi :
    stdRound (fmul 60 (fdiv 196 96)) = 122 ∧ stdRound ((60 : ℚ) * (196 / 96)) = 123 := by
  have hd : fdiv 196 96 = 4597424619607381 / 2251799813685248 := by
    unfold fdiv
    rw [binary64_eval (196 / 96) (-51) 4597424619607381 (by norm_num) (by norm_num)
      (roundHalfEven_eq _ _ (by norm_num) (by norm_num))]
    norm_num
  constructor
  · rw [hd]
    unfold fmul
    rw [binary64_eval (60 * (4597424619607381 / 2251799813685248)) (-46) 8620171161763839
      (by norm_num) (by norm_num) (roundHalfEven_eq _ _ (by norm_num) (by norm_num))]
    unfold stdRound
    rw [if_pos (by norm_num), Int.floor_eq_iff]
    constructor <;> norm_num
  · unfold stdRound
    rw [if_pos (by norm_num), Int.floor_eq_iff]
    constructor <;> norm_num

/-- The sizes at 110 DPI under pass-through rounding: a border width of 216 of
the window's own is scaled to 247, and a maximum size of 216x216 is reported as
247x247. -/
theorem sizes_at_110_dpi :
    (borderWidth exampleGlobals dpi110System (userDataWith wideBorderData) 5).2 = 247 ∧
    (nativeEventFilter exampleGlobals dpi110System (userDataWith wideBorderData) minMaxInfoMsg
      examplePointee).mem.mmi.ptMaxSize = ⟨247, 247⟩ := by
  have hd := dpi110System_dpr 5 (by decide)
  have hw : windowDataOf dpi110System (userDataWith wideBorderData) 5 = wideBorderData := by
    decide
  have hx : stdRound (fmul 216 (5160374573028693 / 4503599627370496)) = 247 := by
    have h := stdRound_fmul_216_at_110_dpi.1
    rw [fdiv_110_96] at h
    exact h
  have hc : fmul (5160374573028693 / 4503599627370496) 216
      = fmul 216 (5160374573028693 / 4503599627370496) := by
    unfold fmul
    rw [mul_comm]
  constructor
  · rw [borderWidth_snd _ _ _ 5 (by decide), hw, hd]
    have e : ((wideBorderData.borderWidth : Int) : qreal) = 216 := by
      norm_num [wideBorderData]
    rw [e, hx]
    decide
  · have hmem := (nativeEventFilter_getMinMaxInfo exampleGlobals dpi110System
      (userDataWith wideBorderData) minMaxInfoMsg examplePointee (by decide) (by decide)).2.2
    have h5 : minMaxInfoMsg.hwnd = 5 := by decide
    rw [hmem, h5, hw, getMinMaxInfo_ptMaxSize, hd]
    have e1 : ((wideBorderData.maximumSize.width : Int) : qreal) = 216 := by
      norm_num [wideBorderData, QSize.width]
    have e2 : ((wideBorderData.maximumSize.height : Int) : qreal) = 216 := by
      norm_num [wideBorderData, QSize.height]
    rw [e1, e2, hc, hx]
    decide

end WinNativeEventFilter
